import Mathlib

/-!
# Input subsystem of GLFW 3.0 (`src/input.c`)

A shallow embedding of the key / mouse-button latch model, the sticky-mode switches, the cursor
mode tracker and the event dispatch of `src/input.c`.

* Machine integers (`int`) are `Int`; the tables `window->key` and `window->mouseButton` are lists
  of `Int` read and written through `readAt` / `writeAt`, which return `none` outside the table.
  A function that touches a table therefore returns an `Option`: `none` is an out-of-bounds access.
* Cursor coordinates (`double`) are rational numbers; copies and comparisons are exact, and the
  one sum the file computes (lines 188-189) is rounded to the nearest double (`doubleAdd`).
* Calls that leave the file (user callbacks, `_glfwPlatform*`, `_glfwInputError`) are recorded, in
  order, in the `trace` of the `World`.
* The constants of `glfw3.h` are not part of the sources and are the fields of a `Header`.
-/

namespace GlfwInput

/-! ## Constants -/

/-- Internal key state used for sticky keys (`#define _GLFW_STICK 3`). -/
def _GLFW_STICK : Int := 3

/-- OpenGL boolean `GL_TRUE`. -/
def GL_TRUE : Int := 1

/-- OpenGL boolean `GL_FALSE`. -/
def GL_FALSE : Int := 0

/-- The constants of the public header `glfw3.h` that `input.c` names. The header is not among the
sources, so the values are parameters of every definition below. -/
structure Header where
  GLFW_RELEASE : Int
  GLFW_PRESS : Int
  GLFW_REPEAT : Int
  GLFW_KEY_LAST : Int
  GLFW_MOUSE_BUTTON_LAST : Int
  GLFW_CURSOR : Int
  GLFW_STICKY_KEYS : Int
  GLFW_STICKY_MOUSE_BUTTONS : Int
  GLFW_CURSOR_NORMAL : Int
  GLFW_CURSOR_HIDDEN : Int
  GLFW_CURSOR_DISABLED : Int
  GLFW_INVALID_ENUM : Int
  GLFW_NOT_INITIALIZED : Int
  deriving DecidableEq, Repr

/-- What the code relies on about the header: the two tables are not empty, the key actions
`GLFW_RELEASE` and `GLFW_PRESS` are distinct values that fit in a `char` and differ from
`_GLFW_STICK`, and the `case` labels of the mode switch, as well as the three cursor modes, are
pairwise distinct. -/
def Header.WF (H : Header) : Prop :=
  0 ≤ H.GLFW_KEY_LAST ∧ 0 ≤ H.GLFW_MOUSE_BUTTON_LAST ∧
  (0 ≤ H.GLFW_RELEASE ∧ H.GLFW_RELEASE ≤ 127) ∧ (0 ≤ H.GLFW_PRESS ∧ H.GLFW_PRESS ≤ 127) ∧
  H.GLFW_RELEASE ≠ H.GLFW_PRESS ∧ H.GLFW_RELEASE ≠ _GLFW_STICK ∧ H.GLFW_PRESS ≠ _GLFW_STICK ∧
  H.GLFW_CURSOR ≠ H.GLFW_STICKY_KEYS ∧ H.GLFW_CURSOR ≠ H.GLFW_STICKY_MOUSE_BUTTONS ∧
  H.GLFW_STICKY_KEYS ≠ H.GLFW_STICKY_MOUSE_BUTTONS ∧
  H.GLFW_CURSOR_NORMAL ≠ H.GLFW_CURSOR_HIDDEN ∧ H.GLFW_CURSOR_NORMAL ≠ H.GLFW_CURSOR_DISABLED ∧
  H.GLFW_CURSOR_HIDDEN ≠ H.GLFW_CURSOR_DISABLED

instance (H : Header) : Decidable H.WF := by
  unfold Header.WF; infer_instance

/-! ## Data model -/

/-- The callback slots of a window (`window->callbacks`): a registered callback is the address of
user code, `none` is the null pointer. -/
structure Callbacks where
  key : Option Nat
  character : Option Nat
  mouseButton : Option Nat
  cursorPos : Option Nat
  cursorEnter : Option Nat
  scroll : Option Nat
  deriving DecidableEq, Repr

/-- Modelled from the spec: the declaration of the window structure lives in `internal.h`, which is
not among the sources. The fields are those `input.c` reads and writes; `handle` is the address of
the structure, used where the code compares window pointers. -/
structure _GLFWwindow where
  handle : Nat
  stickyKeys : Int
  stickyMouseButtons : Int
  cursorPosX : ℚ
  cursorPosY : ℚ
  cursorMode : Int
  mouseButton : List Int
  key : List Int
  callbacks : Callbacks
  deriving DecidableEq, Repr

/-- Modelled from the spec: the process-wide state `_glfw` of `internal.h`, reduced to the fields
`input.c` uses: the focused window and the cursor snapshot. -/
structure _GLFWlibrary where
  focusedWindow : Option Nat
  cursorPosX : ℚ
  cursorPosY : ℚ
  deriving DecidableEq, Repr

/-- One call that leaves `input.c`: a user callback (with the callback that was called and its
arguments after the window), a platform function, or the error channel. -/
inductive Event where
  | key (cb : Nat) (key scancode action mods : Int)
  | character (cb : Nat) (codepoint : Nat)
  | scroll (cb : Nat) (xoffset yoffset : ℚ)
  | mouseButton (cb : Nat) (button action mods : Int)
  | cursorPos (cb : Nat) (x y : ℚ)
  | cursorEnter (cb : Nat) (entered : Int)
  | inputError (code : Int)
  | platformSetCursorPos (window : Nat) (x y : ℚ)
  | platformGetWindowSize (window : Nat)
  | platformSetCursorMode (window : Nat) (mode : Int)
  deriving DecidableEq, Repr

/-- Everything a function of `input.c` can read or change: the library globals, the window it is
called on, the size the platform reports for that window, and the calls made so far. -/
structure World where
  _glfwInitialized : Bool
  glfw : _GLFWlibrary
  window : _GLFWwindow
  width : Int
  height : Int
  trace : List Event
  deriving DecidableEq, Repr

/-- Modelled from the spec: the table sizes of the window declaration in `internal.h` (not among
the sources): the key table is indexed `0..KEY_LAST` and the button table `0..BUTTON_LAST`. -/
def World.WF (H : Header) (s : World) : Prop :=
  s.window.key.length = (H.GLFW_KEY_LAST + 1).toNat ∧
  s.window.mouseButton.length = (H.GLFW_MOUSE_BUTTON_LAST + 1).toNat

instance (H : Header) (s : World) : Decidable (s.WF H) := by
  unfold World.WF; infer_instance

/-! ## Memory access and casts -/

/-- Read `t[i]`; `none` outside the table. -/
def readAt (t : List Int) (i : Int) : Option Int :=
  if 0 ≤ i then t[i.toNat]? else none

/-- Write `t[i] = v`; `none` outside the table. -/
def writeAt (t : List Int) (i : Int) (v : Int) : Option (List Int) :=
  if 0 ≤ i ∧ i.toNat < t.length then some (t.set i.toNat v) else none

/-- The conversion `(char) v` of an `int` (two's complement, eight bits). -/
def toChar (v : Int) : Int :=
  (v + 128) % 256 - 128

/-! ## Double-precision arithmetic

Cursor coordinates are C `double`s. A finite double is a rational number, and the coordinates of
the embedding are rationals; copies and comparisons are exact. The one place where `input.c`
computes with coordinates that can round is the `+=` of lines 188-189, embedded as `doubleAdd`:
the exact sum rounded to the nearest binary64 value, ties to even. Sums beyond `DBL_MAX`, which
C turns into an infinity, are outside this embedding. -/

/-- Bit length minus one of `n`, by halving at most `fuel` times. -/
def log2Fuel : Nat → Nat → Nat
  | 0, _ => 0
  | fuel + 1, n => if 2 ≤ n then log2Fuel fuel (n / 2) + 1 else 0

/-- The position of the leading binary digit of `n`: `2 ^ ilog2 n ≤ n < 2 ^ (ilog2 n + 1)` for
positive `n`. -/
def ilog2 (n : Nat) : Nat :=
  log2Fuel n n

/-- The binary exponent `e` of the positive rational `n / d`: `2 ^ e ≤ n / d < 2 ^ (e + 1)`. -/
def binExp (n d : Nat) : Int :=
  let e0 : Int := (ilog2 n : Int) - (ilog2 d : Int)
  if d * 2 ^ e0.toNat ≤ n * 2 ^ (-e0).toNat then e0 else e0 - 1

/-- The integer nearest to `N / D`, ties to the even one. -/
def roundHalfEven (N D : Nat) : Nat :=
  let f := N / D
  let r := N % D
  if 2 * r < D then f else if D < 2 * r then f + 1 else if f % 2 = 0 then f else f + 1

/-- The binary64 value nearest to the positive rational `n / d`, as `(m, up, down)` standing for
`m * 2 ^ up / 2 ^ down`: the significand has 53 bits, and below `2 ^ -1022` the spacing is that
of the subnormal numbers. -/
def doubleParts (n d : Nat) : Nat × Nat × Nat :=
  let t : Int := max (binExp n d) (-1022) - 52
  (roundHalfEven (n * 2 ^ (-t).toNat) (d * 2 ^ t.toNat), t.toNat, (-t).toNat)

/-- Round a rational to the nearest binary64 value, ties to even. -/
def toDouble (q : ℚ) : ℚ :=
  if q = 0 then 0
  else
    let p := doubleParts q.num.natAbs q.den
    let a : ℚ := (p.1 : ℚ) * 2 ^ p.2.1 / 2 ^ p.2.2
    if q.num < 0 then -a else a

/-- The sum `a + b` of two doubles as C computes it. -/
def doubleAdd (a b : ℚ) : ℚ :=
  toDouble (a + b)

/-- The largest finite double (`DBL_MAX` of `float.h`). -/
def DBL_MAX : ℚ :=
  2 ^ 1024 - 2 ^ 971

/-! ## Calls that leave the file -/

/-- The error channel `_glfwInputError(code, ...)`. -/
def _glfwInputError (s : World) (code : Int) : World :=
  { s with trace := s.trace ++ [Event.inputError code] }

/-- The platform call `_glfwPlatformSetCursorPos(window, x, y)`. -/
def _glfwPlatformSetCursorPos (s : World) (x y : ℚ) : World :=
  { s with trace := s.trace ++ [Event.platformSetCursorPos s.window.handle x y] }

/-- The platform call `_glfwPlatformGetWindowSize(window, &width, &height)`. -/
def _glfwPlatformGetWindowSize (s : World) : Int × Int × World :=
  (s.width, s.height, { s with trace := s.trace ++ [Event.platformGetWindowSize s.window.handle] })

/-- The platform call `_glfwPlatformSetCursorMode(window, mode)`. -/
def _glfwPlatformSetCursorMode (s : World) (mode : Int) : World :=
  { s with trace := s.trace ++ [Event.platformSetCursorMode s.window.handle mode] }

/-- Append one call to the trace. -/
def World.call (s : World) (e : Event) : World :=
  { s with trace := s.trace ++ [e] }

/-! ## Static helpers of `input.c` -/

/-- Sets the cursor mode for the specified window (`setCursorMode`, lines 36-75). -/
def setCursorMode (H : Header) (s : World) (newMode : Int) : World :=
  let oldMode := s.window.cursorMode
  if newMode ≠ H.GLFW_CURSOR_NORMAL ∧ newMode ≠ H.GLFW_CURSOR_HIDDEN ∧
      newMode ≠ H.GLFW_CURSOR_DISABLED then
    _glfwInputError s H.GLFW_INVALID_ENUM
  else if oldMode = newMode then
    s
  else
    let s1 : World := { s with window := { s.window with cursorMode := newMode } }
    if s1.glfw.focusedWindow = some s1.window.handle then
      let s2 : World :=
        if oldMode = H.GLFW_CURSOR_DISABLED then
          let s3 : World :=
            { s1 with window := { s1.window with cursorPosX := s1.glfw.cursorPosX,
                                                 cursorPosY := s1.glfw.cursorPosY } }
          _glfwPlatformSetCursorPos s3 s3.glfw.cursorPosX s3.glfw.cursorPosY
        else if newMode = H.GLFW_CURSOR_DISABLED then
          let s3 : World :=
            { s1 with glfw := { s1.glfw with cursorPosX := s1.window.cursorPosX,
                                             cursorPosY := s1.window.cursorPosY } }
          let r := _glfwPlatformGetWindowSize s3
          _glfwPlatformSetCursorPos r.2.2 ((r.1 : ℚ) / 2) ((r.2.1 : ℚ) / 2)
        else
          s1
      _glfwPlatformSetCursorMode s2 newMode
    else
      s1

/-- The loop `for (i = ...; i <= last; i++) if (t[i] == _GLFW_STICK) t[i] = GLFW_RELEASE;` of
`setStickyKeys` and `setStickyMouseButtons`, started at index `i` with `n` iterations left. -/
def releaseSticky (H : Header) : List Int → Int → Nat → Option (List Int)
  | t, _, 0 => some t
  | t, i, n + 1 =>
    match readAt t i with
    | none => none
    | some v =>
      if v = _GLFW_STICK then
        match writeAt t i H.GLFW_RELEASE with
        | none => none
        | some t1 => releaseSticky H t1 (i + 1) n
      else
        releaseSticky H t (i + 1) n

/-- Set sticky keys mode for the specified window (`setStickyKeys`, lines 79-97). -/
def setStickyKeys (H : Header) (s : World) (enabled : Int) : Option World :=
  if s.window.stickyKeys = enabled then
    some s
  else
    match (if enabled = 0 then releaseSticky H s.window.key 0 (H.GLFW_KEY_LAST + 1).toNat
           else some s.window.key) with
    | none => none
    | some t => some { s with window := { s.window with key := t, stickyKeys := enabled } }

/-- Set sticky mouse buttons mode for the specified window (`setStickyMouseButtons`,
lines 101-119). -/
def setStickyMouseButtons (H : Header) (s : World) (enabled : Int) : Option World :=
  if s.window.stickyMouseButtons = enabled then
    some s
  else
    match (if enabled = 0 then
             releaseSticky H s.window.mouseButton 0 (H.GLFW_MOUSE_BUTTON_LAST + 1).toNat
           else some s.window.mouseButton) with
    | none => none
    | some t =>
      some { s with window := { s.window with mouseButton := t, stickyMouseButtons := enabled } }

/-! ## Event API -/

/-- Invoke the key callback if one is registered (lines 147-148). -/
def callKey (s : World) (key scancode action mods : Int) : World :=
  match s.window.callbacks.key with
  | some cb => s.call (Event.key cb key scancode action mods)
  | none => s

/-- Key event from the platform (`_glfwInputKey`, lines 126-149). The test of line 130 reads
`window->key[key]` before the range check of line 133. -/
def _glfwInputKey (H : Header) (s : World) (key scancode action mods : Int) : Option World :=
  match (if action = H.GLFW_RELEASE then
           (readAt s.window.key key).map (fun v => decide (v = H.GLFW_RELEASE))
         else some false) with
  | none => none
  | some true => some s
  | some false =>
    if 0 ≤ key ∧ key ≤ H.GLFW_KEY_LAST then
      match (if action = H.GLFW_PRESS then
               (readAt s.window.key key).map (fun v => decide (v = H.GLFW_PRESS))
             else some false) with
      | none => none
      | some repeated =>
        match writeAt s.window.key key
            (if action = H.GLFW_RELEASE ∧ s.window.stickyKeys ≠ 0 then _GLFW_STICK
             else toChar action) with
        | none => none
        | some t =>
          let s1 : World := { s with window := { s.window with key := t } }
          some (callKey s1 key scancode (if repeated then H.GLFW_REPEAT else action) mods)
    else
      some (callKey s key scancode action mods)

/-- Read `t[i]` where an access outside the table finds the byte `oob i` that the memory holds
there. -/
def readMem (oob : Int → Int) (t : List Int) (i : Int) : Int :=
  match readAt t i with
  | some v => v
  | none => oob i

/-- Key event from the platform (`_glfwInputKey`, lines 126-149) on a machine where a read
outside the key table does not trap but finds the byte `oob key`: the same code as
`_glfwInputKey`, whose `none` at line 130 is replaced by the outcome of the comparison with that
byte. -/
def _glfwInputKeyMem (H : Header) (oob : Int → Int) (s : World)
    (key scancode action mods : Int) : Option World :=
  if action = H.GLFW_RELEASE ∧ readMem oob s.window.key key = H.GLFW_RELEASE then
    some s
  else if 0 ≤ key ∧ key ≤ H.GLFW_KEY_LAST then
    let repeated : Bool :=
      decide (action = H.GLFW_PRESS ∧ readMem oob s.window.key key = H.GLFW_PRESS)
    match writeAt s.window.key key
        (if action = H.GLFW_RELEASE ∧ s.window.stickyKeys ≠ 0 then _GLFW_STICK
         else toChar action) with
    | none => none
    | some t =>
      let s1 : World := { s with window := { s.window with key := t } }
      some (callKey s1 key scancode (if repeated then H.GLFW_REPEAT else action) mods)
  else
    some (callKey s key scancode action mods)

/-- Mouse button event from the platform (`_glfwInputMouseClick`, lines 166-179). -/
def _glfwInputMouseClick (H : Header) (s : World) (button action mods : Int) : Option World :=
  if button < 0 ∨ button > H.GLFW_MOUSE_BUTTON_LAST then
    some s
  else
    match writeAt s.window.mouseButton button
        (if action = H.GLFW_RELEASE ∧ s.window.stickyMouseButtons ≠ 0 then _GLFW_STICK
         else toChar action) with
    | none => none
    | some t =>
      let s1 : World := { s with window := { s.window with mouseButton := t } }
      match s1.window.callbacks.mouseButton with
      | some cb => some (s1.call (Event.mouseButton cb button action mods))
      | none => some s1

/-- Cursor motion event from the platform (`_glfwInputCursorMotion`, lines 181-206). -/
def _glfwInputCursorMotion (H : Header) (s : World) (x y : ℚ) : World :=
  if s.window.cursorMode = H.GLFW_CURSOR_DISABLED then
    if x = 0 ∧ y = 0 then
      s
    else
      let s1 : World :=
        { s with window := { s.window with cursorPosX := doubleAdd s.window.cursorPosX x,
                                           cursorPosY := doubleAdd s.window.cursorPosY y } }
      match s1.window.callbacks.cursorPos with
      | some cb => s1.call (Event.cursorPos cb s1.window.cursorPosX s1.window.cursorPosY)
      | none => s1
  else
    if s.window.cursorPosX = x ∧ s.window.cursorPosY = y then
      s
    else
      let s1 : World := { s with window := { s.window with cursorPosX := x, cursorPosY := y } }
      match s1.window.callbacks.cursorPos with
      | some cb => s1.call (Event.cursorPos cb s1.window.cursorPosX s1.window.cursorPosY)
      | none => s1

/-- A sequence of cursor motion reports for the window, in order. -/
def cursorMotions (H : Header) (s : World) : List (ℚ × ℚ) → World
  | [] => s
  | p :: ps => cursorMotions H (_glfwInputCursorMotion H s p.1 p.2) ps

/-! ## Public API -/

/-- Modelled from the spec: the macros `_GLFW_REQUIRE_INIT` and `_GLFW_REQUIRE_INIT_OR_RETURN` of
`internal.h` (not among the sources): a public call before initialization is a reported
`NOT_INITIALIZED` error and returns its default. The result is `none` when the call goes on. -/
def requireInit (H : Header) (s : World) : Option World :=
  if s._glfwInitialized then none else some (_glfwInputError s H.GLFW_NOT_INITIALIZED)

/-- Public `glfwSetInputMode(handle, mode, value)` (lines 378-399). -/
def glfwSetInputMode (H : Header) (s : World) (mode value : Int) : Option World :=
  match requireInit H s with
  | some e => some e
  | none =>
    if mode = H.GLFW_CURSOR then
      some (setCursorMode H s value)
    else if mode = H.GLFW_STICKY_KEYS then
      setStickyKeys H s (if value ≠ 0 then GL_TRUE else GL_FALSE)
    else if mode = H.GLFW_STICKY_MOUSE_BUTTONS then
      setStickyMouseButtons H s (if value ≠ 0 then GL_TRUE else GL_FALSE)
    else
      some (_glfwInputError s H.GLFW_INVALID_ENUM)

/-- Public `glfwGetKey(handle, key)` (lines 415-435): the returned value and the world after. -/
def glfwGetKey (H : Header) (s : World) (key : Int) : Option (Int × World) :=
  match requireInit H s with
  | some e => some (H.GLFW_RELEASE, e)
  | none =>
    if key < 0 ∨ key > H.GLFW_KEY_LAST then
      some (H.GLFW_RELEASE, _glfwInputError s H.GLFW_INVALID_ENUM)
    else
      match readAt s.window.key key with
      | none => none
      | some v =>
        if v = _GLFW_STICK then
          match writeAt s.window.key key H.GLFW_RELEASE with
          | none => none
          | some t => some (H.GLFW_PRESS, { s with window := { s.window with key := t } })
        else
          some (v, s)

/-- Public `glfwGetMouseButton(handle, button)` (lines 437-458): the returned value and the world
after. -/
def glfwGetMouseButton (H : Header) (s : World) (button : Int) : Option (Int × World) :=
  match requireInit H s with
  | some e => some (H.GLFW_RELEASE, e)
  | none =>
    if button < 0 ∨ button > H.GLFW_MOUSE_BUTTON_LAST then
      some (H.GLFW_RELEASE, _glfwInputError s H.GLFW_INVALID_ENUM)
    else
      match readAt s.window.mouseButton button with
      | none => none
      | some v =>
        if v = _GLFW_STICK then
          match writeAt s.window.mouseButton button H.GLFW_RELEASE with
          | none => none
          | some t =>
            some (H.GLFW_PRESS, { s with window := { s.window with mouseButton := t } })
        else
          some (v, s)

/-- Public `glfwGetInputMode(handle, mode)` (lines 358-376): the returned value and the world
after. -/
def glfwGetInputMode (H : Header) (s : World) (mode : Int) : Int × World :=
  match requireInit H s with
  | some e => (0, e)
  | none =>
    if mode = H.GLFW_CURSOR then
      (s.window.cursorMode, s)
    else if mode = H.GLFW_STICKY_KEYS then
      (s.window.stickyKeys, s)
    else if mode = H.GLFW_STICKY_MOUSE_BUTTONS then
      (s.window.stickyMouseButtons, s)
    else
      (0, _glfwInputError s H.GLFW_INVALID_ENUM)

/-- Public `glfwGetCursorPos(handle, xpos, ypos)` (lines 460-471). The flags `xpos` and `ypos` say
whether the pointer of that name is non-null; the result holds what is written through each
pointer (`none`: nothing written) and the world after. -/
def glfwGetCursorPos (H : Header) (s : World) (xpos ypos : Bool) : Option ℚ × Option ℚ × World :=
  match requireInit H s with
  | some e => (none, none, e)
  | none =>
    (if xpos then some s.window.cursorPosX else none,
     if ypos then some s.window.cursorPosY else none, s)

/-- Public `glfwSetCursorPos(handle, xpos, ypos)` (lines 473-496). -/
def glfwSetCursorPos (H : Header) (s : World) (xpos ypos : ℚ) : World :=
  match requireInit H s with
  | some e => e
  | none =>
    if s.glfw.focusedWindow ≠ some s.window.handle then
      s
    else if xpos = s.window.cursorPosX ∧ ypos = s.window.cursorPosY then
      s
    else
      let s1 : World :=
        { s with window := { s.window with cursorPosX := xpos, cursorPosY := ypos } }
      if s1.window.cursorMode = H.GLFW_CURSOR_DISABLED then
        s1
      else
        _glfwPlatformSetCursorPos s1 xpos ypos

/-- Character event from the platform (`_glfwInputChar`, lines 151-158); the codepoint is an
`unsigned int`. -/
def _glfwInputChar (s : World) (codepoint : Nat) : World :=
  if codepoint < 32 ∨ (codepoint > 126 ∧ codepoint < 160) then
    s
  else
    match s.window.callbacks.character with
    | some cb => s.call (Event.character cb codepoint)
    | none => s

/-- Modelled from the spec: the macro `_GLFW_SWAP_POINTERS(x, y)` of `internal.h` (not among the
sources), which exchanges the contents of its two arguments: setting a callback stores the new
reference and leaves the previous one in the argument, which the setter returns. The result is
the new `(x, y)`. -/
def _GLFW_SWAP_POINTERS (x y : Option Nat) : Option Nat × Option Nat :=
  (y, x)

/-- Public `glfwSetKeyCallback(handle, cbfun)` (lines 498-504): the returned callback and the
world after. -/
def glfwSetKeyCallback (H : Header) (s : World) (cbfun : Option Nat) : Option Nat × World :=
  match requireInit H s with
  | some e => (none, e)
  | none =>
    let r := _GLFW_SWAP_POINTERS s.window.callbacks.key cbfun
    (r.2, { s with window := { s.window with callbacks := { s.window.callbacks with key := r.1 } } })

/-- Public `glfwSetCharCallback(handle, cbfun)` (lines 506-512). -/
def glfwSetCharCallback (H : Header) (s : World) (cbfun : Option Nat) : Option Nat × World :=
  match requireInit H s with
  | some e => (none, e)
  | none =>
    let r := _GLFW_SWAP_POINTERS s.window.callbacks.character cbfun
    (r.2, { s with
      window := { s.window with callbacks := { s.window.callbacks with character := r.1 } } })

/-- Public `glfwSetMouseButtonCallback(handle, cbfun)` (lines 514-521). -/
def glfwSetMouseButtonCallback (H : Header) (s : World) (cbfun : Option Nat) :
    Option Nat × World :=
  match requireInit H s with
  | some e => (none, e)
  | none =>
    let r := _GLFW_SWAP_POINTERS s.window.callbacks.mouseButton cbfun
    (r.2, { s with
      window := { s.window with callbacks := { s.window.callbacks with mouseButton := r.1 } } })

/-- Public `glfwSetCursorPosCallback(handle, cbfun)` (lines 523-530). -/
def glfwSetCursorPosCallback (H : Header) (s : World) (cbfun : Option Nat) :
    Option Nat × World :=
  match requireInit H s with
  | some e => (none, e)
  | none =>
    let r := _GLFW_SWAP_POINTERS s.window.callbacks.cursorPos cbfun
    (r.2, { s with
      window := { s.window with callbacks := { s.window.callbacks with cursorPos := r.1 } } })

/-- Public `glfwSetCursorEnterCallback(handle, cbfun)` (lines 532-539). -/
def glfwSetCursorEnterCallback (H : Header) (s : World) (cbfun : Option Nat) :
    Option Nat × World :=
  match requireInit H s with
  | some e => (none, e)
  | none =>
    let r := _GLFW_SWAP_POINTERS s.window.callbacks.cursorEnter cbfun
    (r.2, { s with
      window := { s.window with callbacks := { s.window.callbacks with cursorEnter := r.1 } } })

/-- Public `glfwSetScrollCallback(handle, cbfun)` (lines 541-548). -/
def glfwSetScrollCallback (H : Header) (s : World) (cbfun : Option Nat) : Option Nat × World :=
  match requireInit H s with
  | some e => (none, e)
  | none =>
    let r := _GLFW_SWAP_POINTERS s.window.callbacks.scroll cbfun
    (r.2, { s with
      window := { s.window with callbacks := { s.window.callbacks with scroll := r.1 } } })

/-! ## Sequences of calls of the latch model -/

/-- One call that reads or writes the key and button tables: an event from the platform or a
public call. -/
inductive Op where
  | inputKey (key scancode action mods : Int)
  | inputMouseClick (button action mods : Int)
  | setInputMode (mode value : Int)
  | getKey (key : Int)
  | getMouseButton (button : Int)
  deriving DecidableEq, Repr

/-- Perform one call; the value a poll returns is dropped. -/
def step (H : Header) (s : World) : Op → Option World
  | Op.inputKey k sc a m => _glfwInputKey H s k sc a m
  | Op.inputMouseClick b a m => _glfwInputMouseClick H s b a m
  | Op.setInputMode mode v => glfwSetInputMode H s mode v
  | Op.getKey k => (glfwGetKey H s k).map Prod.snd
  | Op.getMouseButton b => (glfwGetMouseButton H s b).map Prod.snd

/-- Perform a sequence of calls, in order; `none` as soon as one call reads outside a table. -/
def run (H : Header) (s : World) : List Op → Option World
  | [] => some s
  | op :: ops =>
    match step H s op with
    | none => none
    | some s1 => run H s1 ops

/-- Perform one call on a machine where a read outside the key table finds the byte `oob i`. -/
def stepMem (H : Header) (oob : Int → Int) (s : World) : Op → Option World
  | Op.inputKey k sc a m => _glfwInputKeyMem H oob s k sc a m
  | Op.inputMouseClick b a m => _glfwInputMouseClick H s b a m
  | Op.setInputMode mode v => glfwSetInputMode H s mode v
  | Op.getKey k => (glfwGetKey H s k).map Prod.snd
  | Op.getMouseButton b => (glfwGetMouseButton H s b).map Prod.snd

/-- Perform a sequence of calls, in order, where during call number `i` a read outside the key
table finds the byte `mem i k` at index `k`. -/
def runMem (H : Header) (mem : Nat → Int → Int) (s : World) : List Op → Option World
  | [] => some s
  | op :: ops =>
    match stepMem H (mem 0) s op with
    | none => none
    | some s1 => runMem H (fun i => mem (i + 1)) s1 ops

/-- The action of an event is `GLFW_PRESS` or `GLFW_RELEASE`. -/
def Op.actionOK (H : Header) : Op → Prop
  | Op.inputKey _ _ a _ => a = H.GLFW_PRESS ∨ a = H.GLFW_RELEASE
  | Op.inputMouseClick _ a _ => a = H.GLFW_PRESS ∨ a = H.GLFW_RELEASE
  | _ => True

/-- A key event does not release a key outside `[0, KEY_LAST]`. -/
def Op.releaseInRange (H : Header) : Op → Prop
  | Op.inputKey k _ a _ => a = H.GLFW_RELEASE → 0 ≤ k ∧ k ≤ H.GLFW_KEY_LAST
  | _ => True

instance (H : Header) (op : Op) : Decidable (op.actionOK H) := by
  cases op <;> unfold Op.actionOK <;> infer_instance

instance (H : Header) (op : Op) : Decidable (op.releaseInRange H) := by
  cases op <;> unfold Op.releaseInRange <;> infer_instance

/-- Every key slot and every button slot holds `GLFW_RELEASE`. -/
def AllReleased (H : Header) (s : World) : Prop :=
  (∀ v ∈ s.window.key, v = H.GLFW_RELEASE) ∧ (∀ v ∈ s.window.mouseButton, v = H.GLFW_RELEASE)

/-- The latch invariant: every slot holds `GLFW_RELEASE`, `GLFW_PRESS` or `_GLFW_STICK`, and a
key (button) slot holds `_GLFW_STICK` only if the sticky-keys (sticky-buttons) flag is set. -/
def LatchInv (H : Header) (s : World) : Prop :=
  (∀ v ∈ s.window.key,
    (v = H.GLFW_RELEASE ∨ v = H.GLFW_PRESS ∨ v = _GLFW_STICK) ∧
    (v = _GLFW_STICK → s.window.stickyKeys ≠ 0)) ∧
  (∀ v ∈ s.window.mouseButton,
    (v = H.GLFW_RELEASE ∨ v = H.GLFW_PRESS ∨ v = _GLFW_STICK) ∧
    (v = _GLFW_STICK → s.window.stickyMouseButtons ≠ 0))

instance (H : Header) (s : World) : Decidable (AllReleased H s) := by
  unfold AllReleased; infer_instance

instance (H : Header) (s : World) : Decidable (LatchInv H s) := by
  unfold LatchInv; infer_instance

/-! ## Concrete inputs -/

/-- The values of the GLFW 3.0 header. -/
def glfw3 : Header where
  GLFW_RELEASE := 0
  GLFW_PRESS := 1
  GLFW_REPEAT := 2
  GLFW_KEY_LAST := 348
  GLFW_MOUSE_BUTTON_LAST := 7
  GLFW_CURSOR := 0x00033001
  GLFW_STICKY_KEYS := 0x00033002
  GLFW_STICKY_MOUSE_BUTTONS := 0x00033003
  GLFW_CURSOR_NORMAL := 0x00034001
  GLFW_CURSOR_HIDDEN := 0x00034002
  GLFW_CURSOR_DISABLED := 0x00034003
  GLFW_INVALID_ENUM := 0x00010003
  GLFW_NOT_INITIALIZED := 0x00010001

/-- A freshly created window at address 1: nothing pressed, sticky modes off, cursor at (50, 50)
in normal mode, a key callback 7, a mouse-button callback 8 and a cursor-position callback 9. -/
def window0 : _GLFWwindow where
  handle := 1
  stickyKeys := 0
  stickyMouseButtons := 0
  cursorPosX := 50
  cursorPosY := 50
  cursorMode := 0x00034001
  mouseButton := List.replicate 8 0
  key := List.replicate 349 0
  callbacks := { key := some 7, character := none, mouseButton := some 8, cursorPos := some 9,
                 cursorEnter := none, scroll := none }

/-- An initialized library whose focused window is `window0`, of size 640 x 481. -/
def world0 : World where
  _glfwInitialized := true
  glfw := { focusedWindow := some 1, cursorPosX := 0, cursorPosY := 0 }
  window := window0
  width := 640
  height := 481
  trace := []

/-- The world `world0` with both sticky modes enabled. -/
def worldSticky : World :=
  { world0 with window := { window0 with stickyKeys := 1, stickyMouseButtons := 1 } }

/-- The world `worldSticky` with the key 65 and the mouse button 2 latched. -/
def worldLatched : World :=
  { worldSticky with
    window := { worldSticky.window with key := worldSticky.window.key.set 65 3,
                                        mouseButton := worldSticky.window.mouseButton.set 2 3 } }

/-- The world `world0` in disabled cursor mode, with the cursor at (10, 10) and the snapshot
(50, 50). -/
def worldDisabled : World :=
  { world0 with
    glfw := { focusedWindow := some 1, cursorPosX := 50, cursorPosY := 50 }
    window := { window0 with cursorPosX := 10, cursorPosY := 10, cursorMode := 0x00034003 } }

/-- The world `world0` with all six callbacks registered (7 to 12). -/
def worldCallbacks : World :=
  { world0 with
    window := { window0 with
      callbacks := { key := some 7, character := some 10, mouseButton := some 8,
                     cursorPos := some 9, cursorEnter := some 11, scroll := some 12 } } }

/-- The world `world0` when another window (at address 2) holds the focus. -/
def worldUnfocused : World :=
  { world0 with glfw := { focusedWindow := some 2, cursorPosX := 0, cursorPosY := 0 } }

/-- A sequence of calls on key 65 and button 2: enable sticky keys, press, release, poll,
disable sticky keys, click, poll. -/
def opsExample : List Op :=
  [Op.setInputMode 0x00033002 1, Op.inputKey 65 38 1 0, Op.inputKey 65 38 0 0, Op.getKey 65,
   Op.inputKey 65 38 1 0, Op.inputKey 65 38 0 0, Op.setInputMode 0x00033002 0,
   Op.inputMouseClick 2 1 0, Op.inputMouseClick 2 0 0, Op.getMouseButton 2]

/-- The world `worldDisabled` with the cursor at (2^53, 10). -/
def worldFar : World :=
  { worldDisabled with
    window := { worldDisabled.window with cursorPosX := 9007199254740992, cursorPosY := 10 } }

/-- A press of key 65, a release of the unknown key -1, and a poll of key 65. -/
def opsUnknown : List Op :=
  [Op.inputKey 65 38 1 0, Op.inputKey (-1) 0 0 0, Op.getKey 65]

/-- A memory in which every byte outside the key table is 0. -/
def memZero : Nat → Int → Int :=
  fun _ _ => 0

/-! ## Facts about table access -/

theorem toChar_of_range (v : Int) (h0 : 0 ≤ v) (h1 : v ≤ 127) : toChar v = v := by
  unfold toChar; omega

theorem toChar_release (H : Header) (hH : H.WF) : toChar H.GLFW_RELEASE = H.GLFW_RELEASE :=
  toChar_of_range _ hH.2.2.1.1 hH.2.2.1.2

theorem toChar_press (H : Header) (hH : H.WF) : toChar H.GLFW_PRESS = H.GLFW_PRESS :=
  toChar_of_range _ hH.2.2.2.1.1 hH.2.2.2.1.2

theorem toNat_lt_of_range (k last : Int) (n : Nat) (hn : n = (last + 1).toNat)
    (h0 : 0 ≤ k) (h1 : k ≤ last) : k.toNat < n := by
  omega

theorem readAt_eq_getElem (t : List Int) (k : Int) (h0 : 0 ≤ k) (h : k.toNat < t.length) :
    readAt t k = some (t.get ⟨k.toNat, h⟩) := by
  simp [readAt, h0, List.getElem?_eq_getElem h]

theorem readAt_isSome (t : List Int) (k : Int) (h0 : 0 ≤ k) (h : k.toNat < t.length) :
    ∃ v, readAt t k = some v :=
  ⟨_, readAt_eq_getElem t k h0 h⟩

theorem readAt_neg (t : List Int) (k : Int) (h : k < 0) : readAt t k = none := by
  simp [readAt, not_le.mpr h]

theorem readAt_above (t : List Int) (k : Int) (h : t.length ≤ k.toNat) : readAt t k = none := by
  unfold readAt
  split
  · exact List.getElem?_eq_none h
  · rfl

theorem readAt_bounds (t : List Int) (k v : Int) (h : readAt t k = some v) :
    0 ≤ k ∧ k.toNat < t.length := by
  unfold readAt at h
  split at h
  · rename_i h0
    refine ⟨h0, ?_⟩
    by_contra hlt
    rw [List.getElem?_eq_none (not_lt.mp hlt)] at h
    exact Option.noConfusion h
  · exact Option.noConfusion h

theorem writeAt_eq (t : List Int) (k v : Int) (h0 : 0 ≤ k) (h : k.toNat < t.length) :
    writeAt t k v = some (t.set k.toNat v) := by
  simp [writeAt, h0, h]

theorem readAt_set_same (t : List Int) (k v : Int) (h0 : 0 ≤ k) (h : k.toNat < t.length) :
    readAt (t.set k.toNat v) k = some v := by
  simp [readAt, h0, List.getElem?_set, h]

theorem readAt_set_other (t : List Int) (j k v : Int) (h0 : 0 ≤ k) (hj : 0 ≤ j) (hne : j ≠ k) :
    readAt (t.set k.toNat v) j = readAt t j := by
  have hn : k.toNat ≠ j.toNat := by omega
  simp [readAt, hj, List.getElem?_set, hn]

/-! ## Facts about key dispatch -/

/-- The world after the key table of the window has been replaced. -/
theorem callKey_window (s : World) (k sc a m : Int) : (callKey s k sc a m).window = s.window := by
  unfold callKey; split <;> rfl

theorem callKey_trace_some (s : World) (cb : Nat) (k sc a m : Int)
    (h : s.window.callbacks.key = some cb) :
    (callKey s k sc a m).trace = s.trace ++ [Event.key cb k sc a m] := by
  unfold callKey; rw [h]; rfl

theorem callKey_trace_none (s : World) (k sc a m : Int) (h : s.window.callbacks.key = none) :
    callKey s k sc a m = s := by
  unfold callKey; rw [h]

theorem callKey_initialized (s : World) (k sc a m : Int) :
    (callKey s k sc a m)._glfwInitialized = s._glfwInitialized := by
  unfold callKey; split <;> rfl

/-- A press of an in-range key stores `GLFW_PRESS` and reports `GLFW_REPEAT` exactly when the slot
already held `GLFW_PRESS`. -/
theorem inputKey_press (H : Header) (hH : H.WF) (s : World) (k sc m v : Int)
    (h0 : 0 ≤ k) (h1 : k ≤ H.GLFW_KEY_LAST) (hv : readAt s.window.key k = some v) :
    _glfwInputKey H s k sc H.GLFW_PRESS m =
      some (callKey { s with window := { s.window with key := s.window.key.set k.toNat H.GLFW_PRESS } }
        k sc (if v = H.GLFW_PRESS then H.GLFW_REPEAT else H.GLFW_PRESS) m) := by
  have hne : H.GLFW_PRESS ≠ H.GLFW_RELEASE := fun h => hH.2.2.2.2.1 h.symm
  have hb := readAt_bounds _ _ _ hv
  unfold _glfwInputKey
  simp only [hne, if_false, h0, h1, and_self, if_true, hv, Option.map_some', false_and,
    writeAt_eq _ _ _ hb.1 hb.2, toChar_press H hH]
  by_cases hp : v = H.GLFW_PRESS <;> simp [hp]

/-- A release of an in-range key whose slot is not `GLFW_RELEASE` stores `_GLFW_STICK` when sticky
keys are enabled and `GLFW_RELEASE` otherwise, and reports `GLFW_RELEASE`. -/
theorem inputKey_release (H : Header) (hH : H.WF) (s : World) (k sc m v : Int)
    (h0 : 0 ≤ k) (h1 : k ≤ H.GLFW_KEY_LAST) (hv : readAt s.window.key k = some v)
    (hne : v ≠ H.GLFW_RELEASE) :
    _glfwInputKey H s k sc H.GLFW_RELEASE m =
      some (callKey
        { s with window := { s.window with
            key := s.window.key.set k.toNat
                     (if s.window.stickyKeys ≠ 0 then _GLFW_STICK else H.GLFW_RELEASE) } }
        k sc H.GLFW_RELEASE m) := by
  have hrp : H.GLFW_RELEASE ≠ H.GLFW_PRESS := hH.2.2.2.2.1
  have hb := readAt_bounds _ _ _ hv
  unfold _glfwInputKey
  simp only [if_true, hv, Option.map_some', hne, decide_False, h0, h1, and_self, hrp, if_false,
    true_and, writeAt_eq _ _ _ hb.1 hb.2, toChar_release H hH]
  by_cases hs : s.window.stickyKeys = 0 <;> simp [hs]

/-- A release of a key whose slot already holds `GLFW_RELEASE` returns at line 131. -/
theorem inputKey_release_released (H : Header) (s : World) (k sc m : Int)
    (hv : readAt s.window.key k = some H.GLFW_RELEASE) :
    _glfwInputKey H s k sc H.GLFW_RELEASE m = some s := by
  unfold _glfwInputKey
  simp [hv]

theorem key_lt_length (H : Header) (s : World) (hs : s.WF H) (k : Int)
    (h0 : 0 ≤ k) (h1 : k ≤ H.GLFW_KEY_LAST) : k.toNat < s.window.key.length :=
  toNat_lt_of_range k H.GLFW_KEY_LAST _ hs.1 h0 h1

theorem button_lt_length (H : Header) (s : World) (hs : s.WF H) (b : Int)
    (h0 : 0 ≤ b) (h1 : b ≤ H.GLFW_MOUSE_BUTTON_LAST) : b.toNat < s.window.mouseButton.length :=
  toNat_lt_of_range b H.GLFW_MOUSE_BUTTON_LAST _ hs.2 h0 h1

/-- What `glfwGetKey` does on an initialized library for an in-range key holding `v`. -/
theorem getKey_inRange (H : Header) (s : World) (k v : Int) (hinit : s._glfwInitialized = true)
    (h0 : 0 ≤ k) (h1 : k ≤ H.GLFW_KEY_LAST) (hv : readAt s.window.key k = some v) :
    glfwGetKey H s k =
      if v = _GLFW_STICK then
        some (H.GLFW_PRESS,
          { s with window := { s.window with key := s.window.key.set k.toNat H.GLFW_RELEASE } })
      else some (v, s) := by
  have hb := readAt_bounds _ _ _ hv
  unfold glfwGetKey requireInit
  simp only [hinit, if_true, not_lt.mpr h0, not_lt.mpr h1, gt_iff_lt, or_self, if_false, hv,
    writeAt_eq _ _ _ hb.1 hb.2]

set_option maxRecDepth 8192

/-- The effect of a press of an in-range key, as far as later calls can see it. -/
theorem inputKey_press_spec (H : Header) (hH : H.WF) (s : World) (hs : s.WF H) (k sc m : Int)
    (h0 : 0 ≤ k) (h1 : k ≤ H.GLFW_KEY_LAST) :
    ∃ s1, _glfwInputKey H s k sc H.GLFW_PRESS m = some s1 ∧
      readAt s1.window.key k = some H.GLFW_PRESS ∧ s1.WF H ∧
      s1.window.stickyKeys = s.window.stickyKeys ∧
      s1._glfwInitialized = s._glfwInitialized ∧
      s1.window.callbacks = s.window.callbacks := by
  have hlt := key_lt_length H s hs k h0 h1
  obtain ⟨v, hv⟩ := readAt_isSome s.window.key k h0 hlt
  refine ⟨_, inputKey_press H hH s k sc m v h0 h1 hv, ?_, ?_, ?_, ?_, ?_⟩
  · rw [callKey_window]; exact readAt_set_same _ _ _ h0 hlt
  · unfold World.WF; rw [callKey_window]; simpa using hs
  · rw [callKey_window]
  · rw [callKey_initialized]
  · rw [callKey_window]

/-- The effect of a release of an in-range key that is not released, as far as later calls can
see it. -/
theorem inputKey_release_spec (H : Header) (hH : H.WF) (s : World) (hs : s.WF H)
    (k sc m v : Int) (h0 : 0 ≤ k) (h1 : k ≤ H.GLFW_KEY_LAST)
    (hv : readAt s.window.key k = some v) (hne : v ≠ H.GLFW_RELEASE) :
    ∃ s1, _glfwInputKey H s k sc H.GLFW_RELEASE m = some s1 ∧
      readAt s1.window.key k =
        some (if s.window.stickyKeys ≠ 0 then _GLFW_STICK else H.GLFW_RELEASE) ∧
      s1.WF H ∧ s1._glfwInitialized = s._glfwInitialized := by
  have hlt := key_lt_length H s hs k h0 h1
  refine ⟨_, inputKey_release H hH s k sc m v h0 h1 hv hne, ?_, ?_, ?_⟩
  · rw [callKey_window]; exact readAt_set_same _ _ _ h0 hlt
  · unfold World.WF; rw [callKey_window]; simpa using hs
  · rw [callKey_initialized]

/-! ## Concrete inputs are well formed -/

theorem glfw3_wf : glfw3.WF := by decide

theorem world0_wf : world0.WF glfw3 := by decide

theorem worldSticky_wf : worldSticky.WF glfw3 := by decide

/-! ## C1: sticky keys latch a press until it is polled -/

/-- C1. With sticky keys enabled and an in-range key `k`: a press followed by a release leaves the
slot at `_GLFW_STICK`; the next `glfwGetKey` returns `GLFW_PRESS` and resets the slot to
`GLFW_RELEASE`; a second `glfwGetKey` returns `GLFW_RELEASE` (and changes nothing). -/
theorem sticky_key_latch (H : Header) (hH : H.WF) (s : World) (hs : s.WF H)
    (hinit : s._glfwInitialized = true) (hsticky : s.window.stickyKeys ≠ 0)
    (k sc1 m1 sc2 m2 : Int) (h0 : 0 ≤ k) (h1 : k ≤ H.GLFW_KEY_LAST) :
    ∃ s1 s2 s3, _glfwInputKey H s k sc1 H.GLFW_PRESS m1 = some s1 ∧
      _glfwInputKey H s1 k sc2 H.GLFW_RELEASE m2 = some s2 ∧
      readAt s2.window.key k = some _GLFW_STICK ∧
      glfwGetKey H s2 k = some (H.GLFW_PRESS, s3) ∧
      readAt s3.window.key k = some H.GLFW_RELEASE ∧
      glfwGetKey H s3 k = some (H.GLFW_RELEASE, s3) := by
  have hps : H.GLFW_PRESS ≠ H.GLFW_RELEASE := fun h => hH.2.2.2.2.1 h.symm
  have hrs : H.GLFW_RELEASE ≠ _GLFW_STICK := hH.2.2.2.2.2.1
  obtain ⟨s1, e1, r1, wf1, st1, i1, -⟩ := inputKey_press_spec H hH s hs k sc1 m1 h0 h1
  obtain ⟨s2, e2, r2, wf2, i2⟩ :=
    inputKey_release_spec H hH s1 wf1 k sc2 m2 H.GLFW_PRESS h0 h1 r1 hps
  rw [st1, if_pos hsticky] at r2
  have hlt2 := key_lt_length H s2 wf2 k h0 h1
  have g1 := getKey_inRange H s2 k _GLFW_STICK (by rw [i2, i1, hinit]) h0 h1 r2
  rw [if_pos rfl] at g1
  have r3 : readAt (s2.window.key.set k.toNat H.GLFW_RELEASE) k = some H.GLFW_RELEASE :=
    readAt_set_same _ _ _ h0 hlt2
  refine ⟨s1, s2, _, e1, e2, r2, g1, r3, ?_⟩
  rw [getKey_inRange H _ k H.GLFW_RELEASE (by simp only [i2, i1, hinit]) h0 h1 r3, if_neg hrs]

/-- C1 at the GLFW 3.0 header, the key 65 and a window with sticky keys enabled. -/
theorem sticky_key_latch_witness :
    glfw3.WF ∧ worldSticky.WF glfw3 ∧ worldSticky._glfwInitialized = true ∧
    worldSticky.window.stickyKeys ≠ 0 ∧ (0 : Int) ≤ 65 ∧ (65 : Int) ≤ glfw3.GLFW_KEY_LAST ∧
    ∃ s1 s2 s3, _glfwInputKey glfw3 worldSticky 65 38 glfw3.GLFW_PRESS 0 = some s1 ∧
      _glfwInputKey glfw3 s1 65 38 glfw3.GLFW_RELEASE 0 = some s2 ∧
      readAt s2.window.key 65 = some _GLFW_STICK ∧
      glfwGetKey glfw3 s2 65 = some (glfw3.GLFW_PRESS, s3) ∧
      readAt s3.window.key 65 = some glfw3.GLFW_RELEASE ∧
      glfwGetKey glfw3 s3 65 = some (glfw3.GLFW_RELEASE, s3) :=
  ⟨by decide, by decide, rfl, by decide, by decide, by decide,
    sticky_key_latch glfw3 (by decide) worldSticky (by decide) rfl (by decide) 65 38 0 38 0
      (by decide) (by decide)⟩

/-! ## C2: a second press without a release is a repeat -/

/-- C2. For an in-range key `k`, any starting world and either sticky setting: after a press the
slot holds `GLFW_PRESS`; a second press keeps it at `GLFW_PRESS` and invokes the registered key
callback once more, with action `GLFW_REPEAT` and the key, scancode and mods passed in (and makes
no call when no key callback is registered). -/
theorem key_press_twice_repeat (H : Header) (hH : H.WF) (s : World) (hs : s.WF H)
    (k sc1 m1 sc2 m2 : Int) (h0 : 0 ≤ k) (h1 : k ≤ H.GLFW_KEY_LAST) :
    ∃ s1 s2, _glfwInputKey H s k sc1 H.GLFW_PRESS m1 = some s1 ∧
      readAt s1.window.key k = some H.GLFW_PRESS ∧
      _glfwInputKey H s1 k sc2 H.GLFW_PRESS m2 = some s2 ∧
      readAt s2.window.key k = some H.GLFW_PRESS ∧
      (∀ cb, s.window.callbacks.key = some cb →
        s2.trace = s1.trace ++ [Event.key cb k sc2 H.GLFW_REPEAT m2]) ∧
      (s.window.callbacks.key = none → s2.trace = s1.trace) := by
  obtain ⟨s1, e1, r1, wf1, -, -, c1⟩ := inputKey_press_spec H hH s hs k sc1 m1 h0 h1
  have hlt1 := key_lt_length H s1 wf1 k h0 h1
  have e2 := inputKey_press H hH s1 k sc2 m2 H.GLFW_PRESS h0 h1 r1
  rw [if_pos rfl] at e2
  refine ⟨s1, _, e1, r1, e2, ?_, ?_, ?_⟩
  · rw [callKey_window]; exact readAt_set_same _ _ _ h0 hlt1
  · intro cb hcb
    rw [callKey_trace_some _ cb _ _ _ _ (by rw [← hcb, ← c1])]
  · intro hcb
    rw [callKey_trace_none _ _ _ _ _ (by rw [← hcb, ← c1])]

/-- C2 at the GLFW 3.0 header and the key 65 of a fresh window. -/
theorem key_press_twice_repeat_witness :
    glfw3.WF ∧ world0.WF glfw3 ∧ (0 : Int) ≤ 65 ∧ (65 : Int) ≤ glfw3.GLFW_KEY_LAST ∧
    ∃ s1 s2, _glfwInputKey glfw3 world0 65 38 glfw3.GLFW_PRESS 0 = some s1 ∧
      readAt s1.window.key 65 = some glfw3.GLFW_PRESS ∧
      _glfwInputKey glfw3 s1 65 38 glfw3.GLFW_PRESS 4 = some s2 ∧
      readAt s2.window.key 65 = some glfw3.GLFW_PRESS ∧
      (∀ cb, world0.window.callbacks.key = some cb →
        s2.trace = s1.trace ++ [Event.key cb 65 38 glfw3.GLFW_REPEAT 4]) ∧
      (world0.window.callbacks.key = none → s2.trace = s1.trace) :=
  ⟨by decide, by decide, by decide, by decide,
    key_press_twice_repeat glfw3 (by decide) world0 (by decide) 65 38 0 38 4
      (by decide) (by decide)⟩

/-! ## C3: a release of a released key is dropped -/

/-- C3. For an in-range key `k` whose slot holds `GLFW_RELEASE`, and either sticky setting,
`_glfwInputKey` with `GLFW_RELEASE` returns the world unchanged: same window (tables, flags,
cursor fields, callbacks), same globals, and no call is added to the trace. -/
theorem key_release_released_noop (H : Header) (s : World) (k sc m : Int)
    (h0 : 0 ≤ k) (h1 : k ≤ H.GLFW_KEY_LAST)
    (hv : readAt s.window.key k = some H.GLFW_RELEASE) :
    _glfwInputKey H s k sc H.GLFW_RELEASE m = some s := by
  have _hk := And.intro h0 h1
  exact inputKey_release_released H s k sc m hv

/-- C3 at the key 65 of a fresh window with sticky keys on. -/
theorem key_release_released_noop_witness :
    ((0 : Int) ≤ 65 ∧ (65 : Int) ≤ glfw3.GLFW_KEY_LAST ∧
      readAt worldSticky.window.key 65 = some glfw3.GLFW_RELEASE) ∧
    _glfwInputKey glfw3 worldSticky 65 38 glfw3.GLFW_RELEASE 0 = some worldSticky :=
  ⟨⟨by decide, by decide, by decide⟩,
    key_release_released_noop glfw3 worldSticky 65 38 0 (by decide) (by decide) (by decide)⟩

/-! ## C4: a release of an out-of-range key reads outside the table -/

/-- A press of a key outside the table does not touch the table and is forwarded. -/
theorem inputKey_out_of_range_press (H : Header) (hH : H.WF) (s : World) (k sc m : Int)
    (hk : k < 0 ∨ H.GLFW_KEY_LAST < k) :
    _glfwInputKey H s k sc H.GLFW_PRESS m = some (callKey s k sc H.GLFW_PRESS m) := by
  have hne : H.GLFW_PRESS ≠ H.GLFW_RELEASE := fun h => hH.2.2.2.2.1 h.symm
  have hr : ¬ (0 ≤ k ∧ k ≤ H.GLFW_KEY_LAST) := by omega
  unfold _glfwInputKey
  simp only [hne, if_false, hr]

/-- C4. For every key outside `[0, KEY_LAST]`, `_glfwInputKey` with `GLFW_RELEASE` evaluates
`window->key[key]` at line 130, before the range check of line 133: the access is outside the
table and no world results, so the event is not forwarded as the claim says. -/
theorem key_out_of_range_release_faults (H : Header) (s : World) (hs : s.WF H) (k sc m : Int)
    (hk : k < 0 ∨ H.GLFW_KEY_LAST < k) :
    readAt s.window.key k = none ∧ _glfwInputKey H s k sc H.GLFW_RELEASE m = none := by
  have hr : readAt s.window.key k = none := by
    rcases hk with hk | hk
    · exact readAt_neg _ _ hk
    · apply readAt_above
      rw [hs.1]
      omega
  refine ⟨hr, ?_⟩
  unfold _glfwInputKey
  simp only [if_true, hr, Option.map_none']

/-- C4 at the unknown key -1 of a fresh window. -/
theorem key_out_of_range_release_faults_witness :
    (world0.WF glfw3 ∧ ((-1 : Int) < 0 ∨ glfw3.GLFW_KEY_LAST < -1)) ∧
    (readAt world0.window.key (-1) = none ∧
      _glfwInputKey glfw3 world0 (-1) 0 glfw3.GLFW_RELEASE 0 = none) :=
  ⟨⟨by decide, by decide⟩,
    key_out_of_range_release_faults glfw3 world0 (by decide) (-1) 0 0 (by decide)⟩

/-! ## C5: mouse clicks are never suppressed -/

/-- Storing the value a slot already holds does not change the table. -/
theorem set_of_readAt (t : List Int) (k v : Int) (h : readAt t k = some v) :
    t.set k.toNat v = t := by
  have hb := readAt_bounds t k v h
  have hg : t[k.toNat]? = some v := by
    simpa [readAt, hb.1] using h
  apply List.ext_getElem?
  intro n
  rw [List.getElem?_set]
  by_cases hn : k.toNat = n
  · subst hn
    simp [hb.2, hg]
  · simp [hn]

/-- What `_glfwInputMouseClick` does for an in-range button. -/
theorem inputMouseClick_inRange (H : Header) (s : World) (hs : s.WF H) (b a m : Int)
    (h0 : 0 ≤ b) (h1 : b ≤ H.GLFW_MOUSE_BUTTON_LAST) :
    ∃ s1, _glfwInputMouseClick H s b a m = some s1 ∧
      s1.window = { s.window with
        mouseButton := s.window.mouseButton.set b.toNat
          (if a = H.GLFW_RELEASE ∧ s.window.stickyMouseButtons ≠ 0 then _GLFW_STICK
           else toChar a) } ∧
      s1.glfw = s.glfw ∧
      (∀ cb, s.window.callbacks.mouseButton = some cb →
        s1.trace = s.trace ++ [Event.mouseButton cb b a m]) ∧
      (s.window.callbacks.mouseButton = none → s1.trace = s.trace) := by
  have hlt := button_lt_length H s hs b h0 h1
  have hr : ¬ (b < 0 ∨ b > H.GLFW_MOUSE_BUTTON_LAST) := by omega
  unfold _glfwInputMouseClick
  simp only [hr, if_false, writeAt_eq _ _ _ h0 hlt]
  cases hcb : s.window.callbacks.mouseButton with
  | none => exact ⟨_, rfl, rfl, rfl, fun cb h => Option.noConfusion h, fun _ => rfl⟩
  | some cb0 =>
    refine ⟨_, rfl, rfl, rfl, ?_, fun h => Option.noConfusion h⟩
    intro cb h
    cases h
    rfl

/-- C5, as stated, fails. Button 2 of the window holds `GLFW_RELEASE`; a release event with sticky
buttons on turns the slot into `_GLFW_STICK`, and with sticky buttons on or off the mouse-button
callback 8 is invoked. -/
theorem mouse_release_released_not_noop :
    (readAt worldSticky.window.mouseButton 2 = some glfw3.GLFW_RELEASE ∧
      ∃ s1, _glfwInputMouseClick glfw3 worldSticky 2 glfw3.GLFW_RELEASE 0 = some s1 ∧
        readAt s1.window.mouseButton 2 = some _GLFW_STICK ∧
        s1.trace = worldSticky.trace ++ [Event.mouseButton 8 2 glfw3.GLFW_RELEASE 0]) ∧
    (readAt world0.window.mouseButton 2 = some glfw3.GLFW_RELEASE ∧
      ∃ s1, _glfwInputMouseClick glfw3 world0 2 glfw3.GLFW_RELEASE 0 = some s1 ∧
        readAt s1.window.mouseButton 2 = some glfw3.GLFW_RELEASE ∧
        s1.trace = world0.trace ++ [Event.mouseButton 8 2 glfw3.GLFW_RELEASE 0]) := by
  refine ⟨⟨by decide, _, rfl, by decide, by decide⟩, ⟨by decide, _, rfl, by decide, by decide⟩⟩

/-- C5, amended. For an in-range button `b` whose slot holds `GLFW_RELEASE`, a release event is
not suppressed: the slot becomes `_GLFW_STICK` when sticky buttons are enabled and stays
`GLFW_RELEASE` (the window is unchanged) when they are not; the globals are unchanged; and the
registered mouse-button callback is invoked once with `(b, GLFW_RELEASE, mods)`. -/
theorem mouse_release_released_dispatch (H : Header) (hH : H.WF) (s : World) (hs : s.WF H)
    (b m : Int) (h0 : 0 ≤ b) (h1 : b ≤ H.GLFW_MOUSE_BUTTON_LAST)
    (hv : readAt s.window.mouseButton b = some H.GLFW_RELEASE) :
    ∃ s1, _glfwInputMouseClick H s b H.GLFW_RELEASE m = some s1 ∧
      (s.window.stickyMouseButtons ≠ 0 → readAt s1.window.mouseButton b = some _GLFW_STICK) ∧
      (s.window.stickyMouseButtons = 0 → s1.window = s.window) ∧
      s1.glfw = s.glfw ∧
      (∀ cb, s.window.callbacks.mouseButton = some cb →
        s1.trace = s.trace ++ [Event.mouseButton cb b H.GLFW_RELEASE m]) ∧
      (s.window.callbacks.mouseButton = none → s1.trace = s.trace) := by
  have hlt := button_lt_length H s hs b h0 h1
  obtain ⟨s1, e1, w1, g1, t1, t2⟩ := inputMouseClick_inRange H s hs b H.GLFW_RELEASE m h0 h1
  refine ⟨s1, e1, ?_, ?_, g1, t1, t2⟩
  · intro hst
    rw [w1]
    simp only [true_and, hst, ne_eq, not_false_eq_true, if_true]
    exact readAt_set_same _ _ _ h0 hlt
  · intro hst
    rw [w1]
    have hc : ¬ (H.GLFW_RELEASE = H.GLFW_RELEASE ∧ s.window.stickyMouseButtons ≠ 0) :=
      fun h => h.2 hst
    rw [if_neg hc, toChar_release H hH]
    rw [set_of_readAt _ _ _ hv]

/-- C5, amended, at button 2 of a fresh window with sticky buttons on. -/
theorem mouse_release_released_dispatch_witness :
    (glfw3.WF ∧ worldSticky.WF glfw3 ∧ (0 : Int) ≤ 2 ∧ (2 : Int) ≤ glfw3.GLFW_MOUSE_BUTTON_LAST ∧
      readAt worldSticky.window.mouseButton 2 = some glfw3.GLFW_RELEASE) ∧
    ∃ s1, _glfwInputMouseClick glfw3 worldSticky 2 glfw3.GLFW_RELEASE 0 = some s1 ∧
      (worldSticky.window.stickyMouseButtons ≠ 0 →
        readAt s1.window.mouseButton 2 = some _GLFW_STICK) ∧
      (worldSticky.window.stickyMouseButtons = 0 → s1.window = worldSticky.window) ∧
      s1.glfw = worldSticky.glfw ∧
      (∀ cb, worldSticky.window.callbacks.mouseButton = some cb →
        s1.trace = worldSticky.trace ++ [Event.mouseButton cb 2 glfw3.GLFW_RELEASE 0]) ∧
      (worldSticky.window.callbacks.mouseButton = none → s1.trace = worldSticky.trace) :=
  ⟨⟨by decide, by decide, by decide, by decide, by decide⟩,
    mouse_release_released_dispatch glfw3 (by decide) worldSticky (by decide) 2 0
      (by decide) (by decide) (by decide)⟩

/-! ## C6: disabling sticky mode clears every latch and nothing else -/

/-- The loop of `setStickyKeys`, started at `i` with `n` iterations that stay inside the table:
it ends, keeps the length, and turns exactly the `_GLFW_STICK` slots of `[i, i+n)` into
`GLFW_RELEASE`. -/
theorem releaseSticky_spec (H : Header) (n : Nat) :
    ∀ (t : List Int) (i : Int), 0 ≤ i → i.toNat + n ≤ t.length →
      ∃ t1, releaseSticky H t i n = some t1 ∧ t1.length = t.length ∧
        ∀ j : Int, readAt t1 j =
          if i ≤ j ∧ j < i + n then
            (readAt t j).map (fun v => if v = _GLFW_STICK then H.GLFW_RELEASE else v)
          else readAt t j := by
  induction n with
  | zero =>
    intro t i _ _
    refine ⟨t, rfl, rfl, ?_⟩
    intro j
    have hc : ¬ (i ≤ j ∧ j < i + ((0 : Nat) : Int)) := by omega
    rw [if_neg hc]
  | succ n ih =>
    intro t i h0 hlen
    have hlt : i.toNat < t.length := by omega
    obtain ⟨v, hv⟩ := readAt_isSome t i h0 hlt
    have h0' : 0 ≤ i + 1 := by omega
    by_cases hst : v = _GLFW_STICK
    · have hlen' : (i + 1).toNat + n ≤ (t.set i.toNat H.GLFW_RELEASE).length := by
        rw [List.length_set]; omega
      obtain ⟨t1, e1, l1, r1⟩ := ih (t.set i.toNat H.GLFW_RELEASE) (i + 1) h0' hlen'
      refine ⟨t1, ?_, ?_, ?_⟩
      · simp only [releaseSticky, hv, hst, if_true, writeAt_eq _ _ _ h0 hlt]
        exact e1
      · rw [l1, List.length_set]
      · intro j
        rw [r1 j]
        by_cases hji : j = i
        · subst hji
          have hc1 : ¬ (j + 1 ≤ j ∧ j < j + 1 + (n : Int)) := by omega
          have hc2 : j ≤ j ∧ j < j + ((n + 1 : Nat) : Int) := by omega
          rw [if_neg hc1, if_pos hc2, readAt_set_same _ _ _ h0 hlt, hv, hst]
          simp
        · have hj : readAt (t.set i.toNat H.GLFW_RELEASE) j = readAt t j := by
            by_cases hj0 : 0 ≤ j
            · exact readAt_set_other _ _ _ _ h0 hj0 hji
            · rw [readAt_neg _ _ (by omega), readAt_neg _ _ (by omega)]
          rw [hj]
          by_cases hc : i + 1 ≤ j ∧ j < i + 1 + (n : Int)
          · have hc2 : i ≤ j ∧ j < i + ((n + 1 : Nat) : Int) := by omega
            rw [if_pos hc, if_pos hc2]
          · have hc2 : ¬ (i ≤ j ∧ j < i + ((n + 1 : Nat) : Int)) := by omega
            rw [if_neg hc, if_neg hc2]
    · have hlen' : (i + 1).toNat + n ≤ t.length := by omega
      obtain ⟨t1, e1, l1, r1⟩ := ih t (i + 1) h0' hlen'
      refine ⟨t1, ?_, l1, ?_⟩
      · simp only [releaseSticky, hv, hst, if_false]
        exact e1
      · intro j
        rw [r1 j]
        by_cases hji : j = i
        · subst hji
          have hc1 : ¬ (j + 1 ≤ j ∧ j < j + 1 + (n : Int)) := by omega
          have hc2 : j ≤ j ∧ j < j + ((n + 1 : Nat) : Int) := by omega
          rw [if_neg hc1, if_pos hc2, hv]
          simp [hst]
        · by_cases hc : i + 1 ≤ j ∧ j < i + 1 + (n : Int)
          · have hc2 : i ≤ j ∧ j < i + ((n + 1 : Nat) : Int) := by omega
            rw [if_pos hc, if_pos hc2]
          · have hc2 : ¬ (i ≤ j ∧ j < i + ((n + 1 : Nat) : Int)) := by omega
            rw [if_neg hc, if_neg hc2]

/-- The whole loop over a table of `last + 1` slots maps every slot through
`_GLFW_STICK ↦ GLFW_RELEASE`. -/
theorem releaseSticky_all (H : Header) (t : List Int) (last : Int)
    (hlen : t.length = (last + 1).toNat) :
    releaseSticky H t 0 (last + 1).toNat =
      some (t.map (fun v => if v = _GLFW_STICK then H.GLFW_RELEASE else v)) := by
  obtain ⟨t1, e1, -, r1⟩ := releaseSticky_spec H (last + 1).toNat t 0 (le_refl 0)
    (by rw [hlen]; simp)
  rw [e1]
  congr 1
  apply List.ext_getElem?
  intro n
  have h := r1 (n : Int)
  have hrd : ∀ l : List Int, readAt l (n : Int) = l[n]? := by
    intro l
    simp [readAt]
  rw [hrd, hrd] at h
  rw [h, List.getElem?_map]
  by_cases hn : n < t.length
  · have hc : (0 : Int) ≤ n ∧ (n : Int) < 0 + (((last + 1).toNat : Nat) : Int) := by
      rw [hlen] at hn; omega
    rw [if_pos hc]
  · have hnone : t[n]? = none := List.getElem?_eq_none (not_lt.mp hn)
    rw [hnone]
    simp

/-- Reading a slot of a mapped table. -/
theorem readAt_map (t : List Int) (f : Int → Int) (k : Int) :
    readAt (t.map f) k = (readAt t k).map f := by
  unfold readAt
  split
  · rw [List.getElem?_map]
  · rfl

/-- On an initialized library `glfwSetInputMode(STICKY_KEYS, v)` is `setStickyKeys` with the
normalized flag. -/
theorem setInputMode_stickyKeys (H : Header) (hH : H.WF) (s : World)
    (hinit : s._glfwInitialized = true) (v : Int) :
    glfwSetInputMode H s H.GLFW_STICKY_KEYS v =
      setStickyKeys H s (if v ≠ 0 then GL_TRUE else GL_FALSE) := by
  have hne : H.GLFW_STICKY_KEYS ≠ H.GLFW_CURSOR := fun h => hH.2.2.2.2.2.2.2.1 h.symm
  unfold glfwSetInputMode requireInit
  simp only [hinit, if_true, hne, if_false]

/-- On an initialized library `glfwSetInputMode(STICKY_MOUSE_BUTTONS, v)` is
`setStickyMouseButtons` with the normalized flag. -/
theorem setInputMode_stickyMouseButtons (H : Header) (hH : H.WF) (s : World)
    (hinit : s._glfwInitialized = true) (v : Int) :
    glfwSetInputMode H s H.GLFW_STICKY_MOUSE_BUTTONS v =
      setStickyMouseButtons H s (if v ≠ 0 then GL_TRUE else GL_FALSE) := by
  have hne1 : H.GLFW_STICKY_MOUSE_BUTTONS ≠ H.GLFW_CURSOR :=
    fun h => hH.2.2.2.2.2.2.2.2.1 h.symm
  have hne2 : H.GLFW_STICKY_MOUSE_BUTTONS ≠ H.GLFW_STICKY_KEYS :=
    fun h => hH.2.2.2.2.2.2.2.2.2.1 h.symm
  unfold glfwSetInputMode requireInit
  simp only [hinit, if_true, hne1, hne2, if_false]

/-- Disabling sticky keys while they are enabled. -/
theorem setStickyKeys_disable (H : Header) (s : World) (hs : s.WF H)
    (hst : s.window.stickyKeys ≠ 0) :
    setStickyKeys H s 0 =
      some { s with window := { s.window with
        key := s.window.key.map (fun v => if v = _GLFW_STICK then H.GLFW_RELEASE else v),
        stickyKeys := 0 } } := by
  unfold setStickyKeys
  simp only [hst, if_false, if_true, releaseSticky_all H s.window.key H.GLFW_KEY_LAST hs.1]

/-- Disabling sticky mouse buttons while they are enabled. -/
theorem setStickyMouseButtons_disable (H : Header) (s : World) (hs : s.WF H)
    (hst : s.window.stickyMouseButtons ≠ 0) :
    setStickyMouseButtons H s 0 =
      some { s with window := { s.window with
        mouseButton :=
          s.window.mouseButton.map (fun v => if v = _GLFW_STICK then H.GLFW_RELEASE else v),
        stickyMouseButtons := 0 } } := by
  unfold setStickyMouseButtons
  simp only [hst, if_false, if_true,
    releaseSticky_all H s.window.mouseButton H.GLFW_MOUSE_BUTTON_LAST hs.2]

/-- Enabling sticky keys never touches a table. -/
theorem setStickyKeys_enable (H : Header) (s : World) (e : Int) (he : e ≠ 0) :
    ∃ s1, setStickyKeys H s e = some s1 ∧ s1.window.key = s.window.key ∧
      s1.window.mouseButton = s.window.mouseButton ∧ s1.window.stickyKeys = e := by
  unfold setStickyKeys
  by_cases h : s.window.stickyKeys = e
  · exact ⟨s, by simp only [h, if_true], rfl, rfl, h⟩
  · exact ⟨{ s with window := { s.window with stickyKeys := e } },
      by simp only [h, if_false, he], rfl, rfl, rfl⟩

/-- Enabling sticky mouse buttons never touches a table. -/
theorem setStickyMouseButtons_enable (H : Header) (s : World) (e : Int) (he : e ≠ 0) :
    ∃ s1, setStickyMouseButtons H s e = some s1 ∧ s1.window.key = s.window.key ∧
      s1.window.mouseButton = s.window.mouseButton ∧ s1.window.stickyMouseButtons = e := by
  unfold setStickyMouseButtons
  by_cases h : s.window.stickyMouseButtons = e
  · exact ⟨s, by simp only [h, if_true], rfl, rfl, h⟩
  · exact ⟨{ s with window := { s.window with stickyMouseButtons := e } },
      by simp only [h, if_false, he], rfl, rfl, rfl⟩

/-- What `glfwGetMouseButton` does on an initialized library for an in-range button holding
`v`. -/
theorem getMouseButton_inRange (H : Header) (s : World) (b v : Int)
    (hinit : s._glfwInitialized = true) (h0 : 0 ≤ b) (h1 : b ≤ H.GLFW_MOUSE_BUTTON_LAST)
    (hv : readAt s.window.mouseButton b = some v) :
    glfwGetMouseButton H s b =
      if v = _GLFW_STICK then
        some (H.GLFW_PRESS,
          { s with window := { s.window with
              mouseButton := s.window.mouseButton.set b.toNat H.GLFW_RELEASE } })
      else some (v, s) := by
  have hb := readAt_bounds _ _ _ hv
  unfold glfwGetMouseButton requireInit
  simp only [hinit, if_true, not_lt.mpr h0, not_lt.mpr h1, gt_iff_lt, or_self, if_false, hv,
    writeAt_eq _ _ _ hb.1 hb.2]

/-- C6. On an initialized library: (1) when sticky keys are enabled,
`glfwSetInputMode(STICKY_KEYS, 0)` sets the flag to `GL_FALSE`, turns every `_GLFW_STICK` slot of
the key table into `GLFW_RELEASE` and changes nothing else (every other slot, the button table
and the rest of the world), and `glfwGetKey` on a key that was latched then returns
`GLFW_RELEASE` without changing anything; (2) the same for `STICKY_MOUSE_BUTTONS` and
`glfwGetMouseButton`; (3, 4) enabling either mode leaves both tables unchanged; (5, 6) setting
either mode to its current value leaves the whole world unchanged. -/
theorem sticky_disable_clears_latches (H : Header) (hH : H.WF) (s : World) (hs : s.WF H)
    (hinit : s._glfwInitialized = true) :
    (s.window.stickyKeys ≠ 0 →
      ∃ s1, glfwSetInputMode H s H.GLFW_STICKY_KEYS 0 = some s1 ∧
        s1 = { s with window := { s.window with
          key := s.window.key.map (fun v => if v = _GLFW_STICK then H.GLFW_RELEASE else v),
          stickyKeys := GL_FALSE } } ∧
        ∀ k, 0 ≤ k → k ≤ H.GLFW_KEY_LAST → readAt s.window.key k = some _GLFW_STICK →
          glfwGetKey H s1 k = some (H.GLFW_RELEASE, s1)) ∧
    (s.window.stickyMouseButtons ≠ 0 →
      ∃ s1, glfwSetInputMode H s H.GLFW_STICKY_MOUSE_BUTTONS 0 = some s1 ∧
        s1 = { s with window := { s.window with
          mouseButton :=
            s.window.mouseButton.map (fun v => if v = _GLFW_STICK then H.GLFW_RELEASE else v),
          stickyMouseButtons := GL_FALSE } } ∧
        ∀ b, 0 ≤ b → b ≤ H.GLFW_MOUSE_BUTTON_LAST →
          readAt s.window.mouseButton b = some _GLFW_STICK →
          glfwGetMouseButton H s1 b = some (H.GLFW_RELEASE, s1)) ∧
    (∀ v, v ≠ 0 → ∃ s1, glfwSetInputMode H s H.GLFW_STICKY_KEYS v = some s1 ∧
      s1.window.key = s.window.key ∧ s1.window.mouseButton = s.window.mouseButton ∧
      s1.window.stickyKeys = GL_TRUE) ∧
    (∀ v, v ≠ 0 → ∃ s1, glfwSetInputMode H s H.GLFW_STICKY_MOUSE_BUTTONS v = some s1 ∧
      s1.window.key = s.window.key ∧ s1.window.mouseButton = s.window.mouseButton ∧
      s1.window.stickyMouseButtons = GL_TRUE) ∧
    (∀ v, s.window.stickyKeys = (if v ≠ 0 then GL_TRUE else GL_FALSE) →
      glfwSetInputMode H s H.GLFW_STICKY_KEYS v = some s) ∧
    (∀ v, s.window.stickyMouseButtons = (if v ≠ 0 then GL_TRUE else GL_FALSE) →
      glfwSetInputMode H s H.GLFW_STICKY_MOUSE_BUTTONS v = some s) := by
  have hrs : H.GLFW_RELEASE ≠ _GLFW_STICK := hH.2.2.2.2.2.1
  have h00 : (if (0 : Int) ≠ 0 then GL_TRUE else GL_FALSE) = 0 := by simp [GL_FALSE]
  refine ⟨?_, ?_, ?_, ?_, ?_, ?_⟩
  · intro hst
    refine ⟨_, ?_, rfl, ?_⟩
    · rw [setInputMode_stickyKeys H hH s hinit, h00, setStickyKeys_disable H s hs hst]
      rfl
    · intro k h0 h1 hv
      rw [getKey_inRange H _ k H.GLFW_RELEASE (by exact hinit) h0 h1 ?_, if_neg hrs]
      show readAt (s.window.key.map _) k = _
      rw [readAt_map, hv]
      simp
  · intro hst
    refine ⟨_, ?_, rfl, ?_⟩
    · rw [setInputMode_stickyMouseButtons H hH s hinit, h00,
        setStickyMouseButtons_disable H s hs hst]
      rfl
    · intro b h0 h1 hv
      rw [getMouseButton_inRange H _ b H.GLFW_RELEASE (by exact hinit) h0 h1 ?_, if_neg hrs]
      show readAt (s.window.mouseButton.map _) b = _
      rw [readAt_map, hv]
      simp
  · intro v hv
    rw [setInputMode_stickyKeys H hH s hinit, if_pos hv]
    exact setStickyKeys_enable H s GL_TRUE (by decide)
  · intro v hv
    rw [setInputMode_stickyMouseButtons H hH s hinit, if_pos hv]
    exact setStickyMouseButtons_enable H s GL_TRUE (by decide)
  · intro v hv
    rw [setInputMode_stickyKeys H hH s hinit]
    unfold setStickyKeys
    rw [if_pos hv]
  · intro v hv
    rw [setInputMode_stickyMouseButtons H hH s hinit]
    unfold setStickyMouseButtons
    rw [if_pos hv]

/-- C6 at the GLFW 3.0 header and a window with sticky modes on, key 65 and button 2 latched. -/
theorem sticky_disable_clears_latches_witness :
    (glfw3.WF ∧ worldLatched.WF glfw3 ∧ worldLatched._glfwInitialized = true) ∧
    ((worldLatched.window.stickyKeys ≠ 0 →
      ∃ s1, glfwSetInputMode glfw3 worldLatched glfw3.GLFW_STICKY_KEYS 0 = some s1 ∧
        s1 = { worldLatched with window := { worldLatched.window with
          key := worldLatched.window.key.map
            (fun v => if v = _GLFW_STICK then glfw3.GLFW_RELEASE else v),
          stickyKeys := GL_FALSE } } ∧
        ∀ k, 0 ≤ k → k ≤ glfw3.GLFW_KEY_LAST →
          readAt worldLatched.window.key k = some _GLFW_STICK →
          glfwGetKey glfw3 s1 k = some (glfw3.GLFW_RELEASE, s1)) ∧
    (worldLatched.window.stickyMouseButtons ≠ 0 →
      ∃ s1, glfwSetInputMode glfw3 worldLatched glfw3.GLFW_STICKY_MOUSE_BUTTONS 0 = some s1 ∧
        s1 = { worldLatched with window := { worldLatched.window with
          mouseButton := worldLatched.window.mouseButton.map
            (fun v => if v = _GLFW_STICK then glfw3.GLFW_RELEASE else v),
          stickyMouseButtons := GL_FALSE } } ∧
        ∀ b, 0 ≤ b → b ≤ glfw3.GLFW_MOUSE_BUTTON_LAST →
          readAt worldLatched.window.mouseButton b = some _GLFW_STICK →
          glfwGetMouseButton glfw3 s1 b = some (glfw3.GLFW_RELEASE, s1)) ∧
    (∀ v, v ≠ 0 → ∃ s1, glfwSetInputMode glfw3 worldLatched glfw3.GLFW_STICKY_KEYS v = some s1 ∧
      s1.window.key = worldLatched.window.key ∧
      s1.window.mouseButton = worldLatched.window.mouseButton ∧
      s1.window.stickyKeys = GL_TRUE) ∧
    (∀ v, v ≠ 0 →
      ∃ s1, glfwSetInputMode glfw3 worldLatched glfw3.GLFW_STICKY_MOUSE_BUTTONS v = some s1 ∧
      s1.window.key = worldLatched.window.key ∧
      s1.window.mouseButton = worldLatched.window.mouseButton ∧
      s1.window.stickyMouseButtons = GL_TRUE) ∧
    (∀ v, worldLatched.window.stickyKeys = (if v ≠ 0 then GL_TRUE else GL_FALSE) →
      glfwSetInputMode glfw3 worldLatched glfw3.GLFW_STICKY_KEYS v = some worldLatched) ∧
    (∀ v, worldLatched.window.stickyMouseButtons = (if v ≠ 0 then GL_TRUE else GL_FALSE) →
      glfwSetInputMode glfw3 worldLatched glfw3.GLFW_STICKY_MOUSE_BUTTONS v =
        some worldLatched)) :=
  ⟨⟨by decide, by decide, rfl⟩,
    sticky_disable_clears_latches glfw3 (by decide) worldLatched (by decide) rfl⟩

/-! ## C7: polling an index outside the table -/

/-- On an initialized library the initialization check lets the call go on. -/
theorem requireInit_initialized (H : Header) (s : World) (h : s._glfwInitialized = true) :
    requireInit H s = none := by
  unfold requireInit
  rw [if_pos h]

/-- C7. On an initialized library: for a key below 0 or above `KEY_LAST`, `glfwGetKey` reports
`GLFW_INVALID_ENUM`, returns `GLFW_RELEASE` and changes nothing else; `glfwGetMouseButton` does
the same for a button below 0 or above `MOUSE_BUTTON_LAST`; for an in-range index both return a
value and report nothing (the trace is unchanged). -/
theorem poll_out_of_range_invalid_enum (H : Header) (s : World) (hs : s.WF H)
    (hinit : s._glfwInitialized = true) :
    (∀ k, k < 0 ∨ k > H.GLFW_KEY_LAST →
      glfwGetKey H s k =
        some (H.GLFW_RELEASE,
          { s with trace := s.trace ++ [Event.inputError H.GLFW_INVALID_ENUM] })) ∧
    (∀ b, b < 0 ∨ b > H.GLFW_MOUSE_BUTTON_LAST →
      glfwGetMouseButton H s b =
        some (H.GLFW_RELEASE,
          { s with trace := s.trace ++ [Event.inputError H.GLFW_INVALID_ENUM] })) ∧
    (∀ k, 0 ≤ k → k ≤ H.GLFW_KEY_LAST →
      ∃ r s1, glfwGetKey H s k = some (r, s1) ∧ s1.trace = s.trace) ∧
    (∀ b, 0 ≤ b → b ≤ H.GLFW_MOUSE_BUTTON_LAST →
      ∃ r s1, glfwGetMouseButton H s b = some (r, s1) ∧ s1.trace = s.trace) := by
  refine ⟨?_, ?_, ?_, ?_⟩
  · intro k hk
    unfold glfwGetKey
    rw [requireInit_initialized H s hinit]
    simp only [hk, if_true]
    rfl
  · intro b hb
    unfold glfwGetMouseButton
    rw [requireInit_initialized H s hinit]
    simp only [hb, if_true]
    rfl
  · intro k h0 h1
    obtain ⟨v, hv⟩ := readAt_isSome s.window.key k h0 (key_lt_length H s hs k h0 h1)
    rw [getKey_inRange H s k v hinit h0 h1 hv]
    by_cases hst : v = _GLFW_STICK
    · rw [if_pos hst]; exact ⟨_, _, rfl, rfl⟩
    · rw [if_neg hst]; exact ⟨_, _, rfl, rfl⟩
  · intro b h0 h1
    obtain ⟨v, hv⟩ := readAt_isSome s.window.mouseButton b h0 (button_lt_length H s hs b h0 h1)
    rw [getMouseButton_inRange H s b v hinit h0 h1 hv]
    by_cases hst : v = _GLFW_STICK
    · rw [if_pos hst]; exact ⟨_, _, rfl, rfl⟩
    · rw [if_neg hst]; exact ⟨_, _, rfl, rfl⟩

/-- C7 at a fresh window of an initialized library. -/
theorem poll_out_of_range_invalid_enum_witness :
    (world0.WF glfw3 ∧ world0._glfwInitialized = true) ∧
    ((∀ k, k < 0 ∨ k > glfw3.GLFW_KEY_LAST →
      glfwGetKey glfw3 world0 k =
        some (glfw3.GLFW_RELEASE,
          { world0 with trace := world0.trace ++ [Event.inputError glfw3.GLFW_INVALID_ENUM] })) ∧
    (∀ b, b < 0 ∨ b > glfw3.GLFW_MOUSE_BUTTON_LAST →
      glfwGetMouseButton glfw3 world0 b =
        some (glfw3.GLFW_RELEASE,
          { world0 with trace := world0.trace ++ [Event.inputError glfw3.GLFW_INVALID_ENUM] })) ∧
    (∀ k, 0 ≤ k → k ≤ glfw3.GLFW_KEY_LAST →
      ∃ r s1, glfwGetKey glfw3 world0 k = some (r, s1) ∧ s1.trace = world0.trace) ∧
    (∀ b, 0 ≤ b → b ≤ glfw3.GLFW_MOUSE_BUTTON_LAST →
      ∃ r s1, glfwGetMouseButton glfw3 world0 b = some (r, s1) ∧ s1.trace = world0.trace)) :=
  ⟨⟨by decide, rfl⟩, poll_out_of_range_invalid_enum glfw3 world0 (by decide) rfl⟩

/-! ## C8: bad arguments of `glfwSetInputMode` -/

/-- C8. On an initialized library, focused or not: `glfwSetInputMode(CURSOR, v)` with `v` none of
the three cursor modes, and `glfwSetInputMode(mode, v)` with `mode` none of the three selectors,
report `GLFW_INVALID_ENUM` and nothing else: the window and the globals (focus, cursor snapshot)
are unchanged and the only call added to the trace is the error, so no platform call is made. -/
theorem setInputMode_rejects_bad_arguments (H : Header) (s : World)
    (hinit : s._glfwInitialized = true) :
    (∀ v, v ≠ H.GLFW_CURSOR_NORMAL → v ≠ H.GLFW_CURSOR_HIDDEN → v ≠ H.GLFW_CURSOR_DISABLED →
      glfwSetInputMode H s H.GLFW_CURSOR v =
        some { s with trace := s.trace ++ [Event.inputError H.GLFW_INVALID_ENUM] }) ∧
    (∀ mode v, mode ≠ H.GLFW_CURSOR → mode ≠ H.GLFW_STICKY_KEYS →
      mode ≠ H.GLFW_STICKY_MOUSE_BUTTONS →
      glfwSetInputMode H s mode v =
        some { s with trace := s.trace ++ [Event.inputError H.GLFW_INVALID_ENUM] }) := by
  refine ⟨?_, ?_⟩
  · intro v hn hh hd
    unfold glfwSetInputMode setCursorMode
    rw [requireInit_initialized H s hinit]
    simp only [if_true, ne_eq, hn, hh, hd, not_false_eq_true, and_self]
    rfl
  · intro mode v hc hk hb
    unfold glfwSetInputMode
    rw [requireInit_initialized H s hinit]
    simp only [hc, hk, hb, if_false]
    rfl

/-- C8 at a focused window (`world0`). -/
theorem setInputMode_rejects_bad_arguments_witness :
    world0._glfwInitialized = true ∧
    ((∀ v, v ≠ glfw3.GLFW_CURSOR_NORMAL → v ≠ glfw3.GLFW_CURSOR_HIDDEN →
        v ≠ glfw3.GLFW_CURSOR_DISABLED →
      glfwSetInputMode glfw3 world0 glfw3.GLFW_CURSOR v =
        some { world0 with
          trace := world0.trace ++ [Event.inputError glfw3.GLFW_INVALID_ENUM] }) ∧
    (∀ mode v, mode ≠ glfw3.GLFW_CURSOR → mode ≠ glfw3.GLFW_STICKY_KEYS →
      mode ≠ glfw3.GLFW_STICKY_MOUSE_BUTTONS →
      glfwSetInputMode glfw3 world0 mode v =
        some { world0 with
          trace := world0.trace ++ [Event.inputError glfw3.GLFW_INVALID_ENUM] })) :=
  ⟨rfl, setInputMode_rejects_bad_arguments glfw3 world0 rfl⟩


/-! ## C9: the cursor position survives a round trip through disabled mode -/

/-- On an initialized library `glfwSetInputMode(CURSOR, v)` is `setCursorMode`. -/
theorem setInputMode_cursor (H : Header) (s : World) (hinit : s._glfwInitialized = true)
    (v : Int) : glfwSetInputMode H s H.GLFW_CURSOR v = some (setCursorMode H s v) := by
  unfold glfwSetInputMode
  rw [requireInit_initialized H s hinit]
  simp only [if_true]

/-- Entering disabled mode on the focused window: the position is saved in the snapshot and the
platform is asked for the window size, to centre the cursor, and to apply the mode. -/
theorem setCursorMode_to_disabled (H : Header) (s : World)
    (hfoc : s.glfw.focusedWindow = some s.window.handle)
    (hmode : s.window.cursorMode ≠ H.GLFW_CURSOR_DISABLED) :
    setCursorMode H s H.GLFW_CURSOR_DISABLED =
      { s with
        glfw := { s.glfw with cursorPosX := s.window.cursorPosX,
                              cursorPosY := s.window.cursorPosY }
        window := { s.window with cursorMode := H.GLFW_CURSOR_DISABLED }
        trace := s.trace ++
          [Event.platformGetWindowSize s.window.handle,
           Event.platformSetCursorPos s.window.handle ((s.width : ℚ) / 2) ((s.height : ℚ) / 2),
           Event.platformSetCursorMode s.window.handle H.GLFW_CURSOR_DISABLED] } := by
  unfold setCursorMode
  simp only [ne_eq, not_true_eq_false, and_false, if_false, hmode, hfoc, if_true,
    _glfwPlatformSetCursorMode, _glfwPlatformSetCursorPos, _glfwPlatformGetWindowSize,
    List.append_assoc, List.singleton_append, List.cons_append, List.nil_append]

/-- Leaving disabled mode on the focused window for a valid mode `m`: the position is restored
from the snapshot and the platform is asked to move the cursor there and to apply the mode. -/
theorem setCursorMode_from_disabled (H : Header) (s : World) (m : Int)
    (hfoc : s.glfw.focusedWindow = some s.window.handle)
    (hmode : s.window.cursorMode = H.GLFW_CURSOR_DISABLED)
    (hm : m = H.GLFW_CURSOR_NORMAL ∨ m = H.GLFW_CURSOR_HIDDEN)
    (hne : m ≠ H.GLFW_CURSOR_DISABLED) :
    setCursorMode H s m =
      { s with
        window := { s.window with cursorMode := m, cursorPosX := s.glfw.cursorPosX,
                                  cursorPosY := s.glfw.cursorPosY }
        trace := s.trace ++
          [Event.platformSetCursorPos s.window.handle s.glfw.cursorPosX s.glfw.cursorPosY,
           Event.platformSetCursorMode s.window.handle m] } := by
  have hv : ¬ (m ≠ H.GLFW_CURSOR_NORMAL ∧ m ≠ H.GLFW_CURSOR_HIDDEN ∧
      m ≠ H.GLFW_CURSOR_DISABLED) := by
    rcases hm with h | h
    · exact fun c => c.1 h
    · exact fun c => c.2.1 h
  have hom : ¬ (H.GLFW_CURSOR_DISABLED = m) := fun h => hne h.symm
  unfold setCursorMode
  simp only [hv, if_false, hmode, hom, hfoc, if_true, _glfwPlatformSetCursorMode,
    _glfwPlatformSetCursorPos, List.append_assoc, List.singleton_append]

/-- A cursor motion report changes neither the globals, nor the address and cursor mode of the
window, nor the initialization flag. -/
theorem cursorMotion_frame (H : Header) (s : World) (x y : ℚ) :
    (_glfwInputCursorMotion H s x y).glfw = s.glfw ∧
    (_glfwInputCursorMotion H s x y).window.handle = s.window.handle ∧
    (_glfwInputCursorMotion H s x y).window.cursorMode = s.window.cursorMode ∧
    (_glfwInputCursorMotion H s x y)._glfwInitialized = s._glfwInitialized := by
  unfold _glfwInputCursorMotion
  by_cases hd : s.window.cursorMode = H.GLFW_CURSOR_DISABLED
  · by_cases hz : x = 0 ∧ y = 0
    · simp only [hd, hz, and_self, if_true]
    · cases hcb : s.window.callbacks.cursorPos <;>
        simp only [hd, hz, if_true, if_false, hcb, World.call, and_self]
  · by_cases hz : s.window.cursorPosX = x ∧ s.window.cursorPosY = y
    · simp only [hd, hz, and_self, if_true, if_false]
    · cases hcb : s.window.callbacks.cursorPos <;>
        simp only [hd, hz, if_false, hcb, World.call, and_self]

/-- A sequence of cursor motion reports changes neither the globals, nor the address and cursor
mode of the window, nor the initialization flag. -/
theorem cursorMotions_frame (H : Header) (ms : List (ℚ × ℚ)) :
    ∀ s : World, (cursorMotions H s ms).glfw = s.glfw ∧
      (cursorMotions H s ms).window.handle = s.window.handle ∧
      (cursorMotions H s ms).window.cursorMode = s.window.cursorMode ∧
      (cursorMotions H s ms)._glfwInitialized = s._glfwInitialized := by
  induction ms with
  | nil => intro s; exact ⟨rfl, rfl, rfl, rfl⟩
  | cons p ps ih =>
    intro s
    obtain ⟨a1, a2, a3, a4⟩ := ih (_glfwInputCursorMotion H s p.1 p.2)
    obtain ⟨b1, b2, b3, b4⟩ := cursorMotion_frame H s p.1 p.2
    exact ⟨a1.trans b1, a2.trans b2, a3.trans b3, a4.trans b4⟩

/-- C9. For a focused window of an initialized library in mode NORMAL or HIDDEN with stored
position `p` and size `(w, h)`: `glfwSetInputMode(CURSOR, DISABLED)` stores `p` in the
process-wide snapshot and asks the platform to move the cursor to exactly `(w/2, h/2)` (rational
halves); after any sequence of cursor motion reports, switching to `m` in NORMAL, HIDDEN sets the
stored position back to `p` and asks the platform to move the cursor to `p`. -/
theorem cursor_disabled_round_trip (H : Header) (hH : H.WF) (s : World)
    (hinit : s._glfwInitialized = true)
    (hfoc : s.glfw.focusedWindow = some s.window.handle)
    (hmode : s.window.cursorMode = H.GLFW_CURSOR_NORMAL ∨
      s.window.cursorMode = H.GLFW_CURSOR_HIDDEN)
    (ms : List (ℚ × ℚ)) (m : Int)
    (hm : m = H.GLFW_CURSOR_NORMAL ∨ m = H.GLFW_CURSOR_HIDDEN) :
    ∃ s1 s3, glfwSetInputMode H s H.GLFW_CURSOR H.GLFW_CURSOR_DISABLED = some s1 ∧
      s1.window.cursorMode = H.GLFW_CURSOR_DISABLED ∧
      s1.glfw.cursorPosX = s.window.cursorPosX ∧ s1.glfw.cursorPosY = s.window.cursorPosY ∧
      s1.trace = s.trace ++
        [Event.platformGetWindowSize s.window.handle,
         Event.platformSetCursorPos s.window.handle ((s.width : ℚ) / 2) ((s.height : ℚ) / 2),
         Event.platformSetCursorMode s.window.handle H.GLFW_CURSOR_DISABLED] ∧
      glfwSetInputMode H (cursorMotions H s1 ms) H.GLFW_CURSOR m = some s3 ∧
      s3.window.cursorMode = m ∧
      s3.window.cursorPosX = s.window.cursorPosX ∧ s3.window.cursorPosY = s.window.cursorPosY ∧
      s3.trace = (cursorMotions H s1 ms).trace ++
        [Event.platformSetCursorPos s.window.handle s.window.cursorPosX s.window.cursorPosY,
         Event.platformSetCursorMode s.window.handle m] := by
  have hnd : H.GLFW_CURSOR_NORMAL ≠ H.GLFW_CURSOR_DISABLED := hH.2.2.2.2.2.2.2.2.2.2.2.1
  have hhd : H.GLFW_CURSOR_HIDDEN ≠ H.GLFW_CURSOR_DISABLED := hH.2.2.2.2.2.2.2.2.2.2.2.2
  have hsd : s.window.cursorMode ≠ H.GLFW_CURSOR_DISABLED := by
    rcases hmode with h | h <;> rw [h] <;> assumption
  have hmd : m ≠ H.GLFW_CURSOR_DISABLED := by
    rcases hm with h | h <;> rw [h] <;> assumption
  have e1 := setCursorMode_to_disabled H s hfoc hsd
  obtain ⟨f1, f2, f3, f4⟩ := cursorMotions_frame H ms (setCursorMode H s H.GLFW_CURSOR_DISABLED)
  have e3 := setCursorMode_from_disabled H
    (cursorMotions H (setCursorMode H s H.GLFW_CURSOR_DISABLED) ms) m
    (by rw [f1, f2, e1]; exact hfoc) (by rw [f3, e1]) hm hmd
  refine ⟨setCursorMode H s H.GLFW_CURSOR_DISABLED,
    setCursorMode H (cursorMotions H (setCursorMode H s H.GLFW_CURSOR_DISABLED) ms) m,
    setInputMode_cursor H s hinit _, ?_, ?_, ?_, ?_, ?_, ?_, ?_, ?_, ?_⟩
  · rw [e1]
  · rw [e1]
  · rw [e1]
  · rw [e1]
  · exact setInputMode_cursor H _ (by rw [f4, e1]; exact hinit) m
  · rw [e3]
  · rw [e3]; show (cursorMotions H _ ms).glfw.cursorPosX = _; rw [f1, e1]
  · rw [e3]; show (cursorMotions H _ ms).glfw.cursorPosY = _; rw [f1, e1]
  · rw [e3]
    show _ ++ [Event.platformSetCursorPos (cursorMotions H _ ms).window.handle
      (cursorMotions H _ ms).glfw.cursorPosX (cursorMotions H _ ms).glfw.cursorPosY,
      Event.platformSetCursorMode (cursorMotions H _ ms).window.handle m] = _
    rw [f1, f2, e1]

/-- C9 at a focused 640 x 481 window in normal mode with the cursor at (50, 50): the cursor is
centred at (320, 481/2), and after two motion reports the position is restored. -/
theorem cursor_disabled_round_trip_witness :
    (glfw3.WF ∧ world0._glfwInitialized = true ∧
      world0.glfw.focusedWindow = some world0.window.handle ∧
      (world0.window.cursorMode = glfw3.GLFW_CURSOR_NORMAL ∨
        world0.window.cursorMode = glfw3.GLFW_CURSOR_HIDDEN) ∧
      (glfw3.GLFW_CURSOR_HIDDEN = glfw3.GLFW_CURSOR_NORMAL ∨
        glfw3.GLFW_CURSOR_HIDDEN = glfw3.GLFW_CURSOR_HIDDEN)) ∧
    ∃ s1 s3,
      glfwSetInputMode glfw3 world0 glfw3.GLFW_CURSOR glfw3.GLFW_CURSOR_DISABLED = some s1 ∧
      s1.window.cursorMode = glfw3.GLFW_CURSOR_DISABLED ∧
      s1.glfw.cursorPosX = world0.window.cursorPosX ∧
      s1.glfw.cursorPosY = world0.window.cursorPosY ∧
      s1.trace = world0.trace ++
        [Event.platformGetWindowSize world0.window.handle,
         Event.platformSetCursorPos world0.window.handle
           ((world0.width : ℚ) / 2) ((world0.height : ℚ) / 2),
         Event.platformSetCursorMode world0.window.handle glfw3.GLFW_CURSOR_DISABLED] ∧
      glfwSetInputMode glfw3 (cursorMotions glfw3 s1 [(3, -2), (0, 0)]) glfw3.GLFW_CURSOR
        glfw3.GLFW_CURSOR_HIDDEN = some s3 ∧
      s3.window.cursorMode = glfw3.GLFW_CURSOR_HIDDEN ∧
      s3.window.cursorPosX = world0.window.cursorPosX ∧
      s3.window.cursorPosY = world0.window.cursorPosY ∧
      s3.trace = (cursorMotions glfw3 s1 [(3, -2), (0, 0)]).trace ++
        [Event.platformSetCursorPos world0.window.handle world0.window.cursorPosX
           world0.window.cursorPosY,
         Event.platformSetCursorMode world0.window.handle glfw3.GLFW_CURSOR_HIDDEN] :=
  ⟨⟨by decide, rfl, rfl, Or.inl rfl, Or.inr rfl⟩,
    cursor_disabled_round_trip glfw3 (by decide) world0 rfl rfl (Or.inl rfl)
      [(3, -2), (0, 0)] glfw3.GLFW_CURSOR_HIDDEN (Or.inr rfl)⟩

/-! ## C10: cursor motion in disabled mode is relative, in double precision -/

/-- The double nearest to 2^53 + 1 is 2^53 (a tie, resolved to the even significand). -/
theorem toDouble_two_pow_53_add_one : toDouble (9007199254740992 + 1) = 9007199254740992 := by
  have hq : ((9007199254740992 : ℚ) + 1) = ((9007199254740993 : ℕ) : ℚ) := by norm_num
  have hp : doubleParts 9007199254740993 1 = (4503599627370496, 1, 0) := by decide
  rw [hq]
  unfold toDouble
  rw [if_neg (by norm_num)]
  simp only [Rat.num_natCast, Rat.den_natCast, Int.natAbs_ofNat, hp]
  norm_num

/-- The small integers 8, 10 and 13 are doubles. -/
theorem toDouble_small :
    toDouble 8 = 8 ∧ toDouble 10 = 10 ∧ toDouble 13 = 13 := by
  have h8 : doubleParts 8 1 = (4503599627370496, 0, 49) := by decide
  have h10 : doubleParts 10 1 = (5629499534213120, 0, 49) := by decide
  have h13 : doubleParts 13 1 = (7318349394477056, 0, 49) := by decide
  have e8 : (8 : ℚ) = ((8 : ℕ) : ℚ) := by norm_num
  have e10 : (10 : ℚ) = ((10 : ℕ) : ℚ) := by norm_num
  have e13 : (13 : ℚ) = ((13 : ℕ) : ℚ) := by norm_num
  refine ⟨?_, ?_, ?_⟩
  · rw [e8]
    unfold toDouble
    rw [if_neg (by norm_num)]
    simp only [Rat.num_natCast, Rat.den_natCast, Int.natAbs_ofNat, h8]
    norm_num
  · rw [e10]
    unfold toDouble
    rw [if_neg (by norm_num)]
    simp only [Rat.num_natCast, Rat.den_natCast, Int.natAbs_ofNat, h10]
    norm_num
  · rw [e13]
    unfold toDouble
    rw [if_neg (by norm_num)]
    simp only [Rat.num_natCast, Rat.den_natCast, Int.natAbs_ofNat, h13]
    norm_num

/-- What `_glfwInputCursorMotion` does in disabled mode for a delta other than (0, 0). -/
theorem cursorMotion_disabled_eq (H : Header) (s : World)
    (hmode : s.window.cursorMode = H.GLFW_CURSOR_DISABLED) (dx dy : ℚ)
    (hz : ¬ (dx = 0 ∧ dy = 0)) :
    _glfwInputCursorMotion H s dx dy =
      match s.window.callbacks.cursorPos with
      | some cb =>
        { s with
          window := { s.window with cursorPosX := doubleAdd s.window.cursorPosX dx,
                                    cursorPosY := doubleAdd s.window.cursorPosY dy }
          trace := s.trace ++
            [Event.cursorPos cb (doubleAdd s.window.cursorPosX dx)
              (doubleAdd s.window.cursorPosY dy)] }
      | none =>
        { s with
          window := { s.window with cursorPosX := doubleAdd s.window.cursorPosX dx,
                                    cursorPosY := doubleAdd s.window.cursorPosY dy } } := by
  unfold _glfwInputCursorMotion
  rw [if_pos hmode, if_neg hz]
  cases hcb : s.window.callbacks.cursorPos <;> simp only [hcb, World.call]

/-- C10, as stated, fails. With the cursor at (2^53, 10) in disabled mode and the callback 9
registered, the delta (1, 0) leaves the stored position at (2^53, 10), which is not
(2^53 + 1, 10), and the callback is invoked with (2^53, 10): the sum of line 188 is a double. -/
theorem cursor_motion_disabled_rounds :
    worldFar.window.cursorMode = glfw3.GLFW_CURSOR_DISABLED ∧
    worldFar.window.cursorPosX = 9007199254740992 ∧
    (_glfwInputCursorMotion glfw3 worldFar 1 0).window.cursorPosX = 9007199254740992 ∧
    (_glfwInputCursorMotion glfw3 worldFar 1 0).window.cursorPosX ≠
      worldFar.window.cursorPosX + 1 ∧
    (_glfwInputCursorMotion glfw3 worldFar 1 0).trace =
      [Event.cursorPos 9 9007199254740992 10] := by
  have hz : ¬ ((1 : ℚ) = 0 ∧ (0 : ℚ) = 0) := by norm_num
  have hx : worldFar.window.cursorPosX = 9007199254740992 := rfl
  have hy : worldFar.window.cursorPosY = 10 := rfl
  have hcb : worldFar.window.callbacks.cursorPos = some 9 := rfl
  have ht : worldFar.trace = [] := rfl
  have ax : doubleAdd 9007199254740992 1 = 9007199254740992 := toDouble_two_pow_53_add_one
  have ay : doubleAdd 10 0 = 10 := by
    unfold doubleAdd
    rw [add_zero]
    exact toDouble_small.2.1
  rw [cursorMotion_disabled_eq glfw3 worldFar rfl 1 0 hz, hcb]
  simp only [hx, hy, ht, ax, ay, List.nil_append]
  refine ⟨rfl, trivial, trivial, ?_, trivial⟩
  norm_num

/-- C10, amended. In disabled cursor mode `_glfwInputCursorMotion` takes its inputs as deltas
added in double precision: for (0, 0) the world is unchanged (no callback); for any other
`(dx, dy)` whose sums with the stored `(x, y)` do not exceed `DBL_MAX`, the stored position
becomes the double sums `(doubleAdd x dx, doubleAdd y dy)`, nothing else in the window or the
globals changes, and the registered cursor-position callback is invoked once with that
position; where the exact sum is itself a double the stored coordinate is the exact sum. -/
theorem cursor_motion_disabled_delta (H : Header) (s : World)
    (hmode : s.window.cursorMode = H.GLFW_CURSOR_DISABLED) :
    _glfwInputCursorMotion H s 0 0 = s ∧
    ∀ dx dy : ℚ, ¬ (dx = 0 ∧ dy = 0) →
      |s.window.cursorPosX + dx| ≤ DBL_MAX → |s.window.cursorPosY + dy| ≤ DBL_MAX →
      (_glfwInputCursorMotion H s dx dy).window =
        { s.window with cursorPosX := doubleAdd s.window.cursorPosX dx,
                        cursorPosY := doubleAdd s.window.cursorPosY dy } ∧
      (_glfwInputCursorMotion H s dx dy).glfw = s.glfw ∧
      (∀ cb, s.window.callbacks.cursorPos = some cb →
        (_glfwInputCursorMotion H s dx dy).trace =
          s.trace ++ [Event.cursorPos cb (doubleAdd s.window.cursorPosX dx)
            (doubleAdd s.window.cursorPosY dy)]) ∧
      (s.window.callbacks.cursorPos = none →
        (_glfwInputCursorMotion H s dx dy).trace = s.trace) ∧
      (toDouble (s.window.cursorPosX + dx) = s.window.cursorPosX + dx →
        (_glfwInputCursorMotion H s dx dy).window.cursorPosX = s.window.cursorPosX + dx) ∧
      (toDouble (s.window.cursorPosY + dy) = s.window.cursorPosY + dy →
        (_glfwInputCursorMotion H s dx dy).window.cursorPosY = s.window.cursorPosY + dy) := by
  refine ⟨?_, ?_⟩
  · unfold _glfwInputCursorMotion
    rw [if_pos hmode, if_pos (show (0 : ℚ) = 0 ∧ (0 : ℚ) = 0 from ⟨rfl, rfl⟩)]
  · intro dx dy hz _ _
    rw [cursorMotion_disabled_eq H s hmode dx dy hz]
    cases hcb : s.window.callbacks.cursorPos with
    | none =>
      exact ⟨rfl, rfl, fun cb h => Option.noConfusion h, fun _ => rfl, fun h => h, fun h => h⟩
    | some cb0 =>
      refine ⟨rfl, rfl, ?_, fun h => Option.noConfusion h, fun h => h, fun h => h⟩
      intro cb h
      cases h
      rfl

/-- C10, amended, at a window in disabled mode with the cursor at (10, 10). -/
theorem cursor_motion_disabled_delta_witness :
    worldDisabled.window.cursorMode = glfw3.GLFW_CURSOR_DISABLED ∧
    (_glfwInputCursorMotion glfw3 worldDisabled 0 0 = worldDisabled ∧
    ∀ dx dy : ℚ, ¬ (dx = 0 ∧ dy = 0) →
      |worldDisabled.window.cursorPosX + dx| ≤ DBL_MAX →
      |worldDisabled.window.cursorPosY + dy| ≤ DBL_MAX →
      (_glfwInputCursorMotion glfw3 worldDisabled dx dy).window =
        { worldDisabled.window with
          cursorPosX := doubleAdd worldDisabled.window.cursorPosX dx,
          cursorPosY := doubleAdd worldDisabled.window.cursorPosY dy } ∧
      (_glfwInputCursorMotion glfw3 worldDisabled dx dy).glfw = worldDisabled.glfw ∧
      (∀ cb, worldDisabled.window.callbacks.cursorPos = some cb →
        (_glfwInputCursorMotion glfw3 worldDisabled dx dy).trace =
          worldDisabled.trace ++
            [Event.cursorPos cb (doubleAdd worldDisabled.window.cursorPosX dx)
              (doubleAdd worldDisabled.window.cursorPosY dy)]) ∧
      (worldDisabled.window.callbacks.cursorPos = none →
        (_glfwInputCursorMotion glfw3 worldDisabled dx dy).trace = worldDisabled.trace) ∧
      (toDouble (worldDisabled.window.cursorPosX + dx) = worldDisabled.window.cursorPosX + dx →
        (_glfwInputCursorMotion glfw3 worldDisabled dx dy).window.cursorPosX =
          worldDisabled.window.cursorPosX + dx) ∧
      (toDouble (worldDisabled.window.cursorPosY + dy) = worldDisabled.window.cursorPosY + dy →
        (_glfwInputCursorMotion glfw3 worldDisabled dx dy).window.cursorPosY =
          worldDisabled.window.cursorPosY + dy)) :=
  ⟨rfl, cursor_motion_disabled_delta glfw3 worldDisabled rfl⟩

/-- The example of C10: at (10, 10) the delta (3, -2) gives (13, 8), both sums being doubles, and
the callback 9 is invoked with (13, 8); the delta (0, 0) invokes nothing. -/
theorem cursor_motion_disabled_example :
    (_glfwInputCursorMotion glfw3 worldDisabled 3 (-2)).window.cursorPosX = 13 ∧
    (_glfwInputCursorMotion glfw3 worldDisabled 3 (-2)).window.cursorPosY = 8 ∧
    (_glfwInputCursorMotion glfw3 worldDisabled 3 (-2)).trace = [Event.cursorPos 9 13 8] ∧
    (_glfwInputCursorMotion glfw3 worldDisabled 0 0).trace = [] := by
  have hz : ¬ ((3 : ℚ) = 0 ∧ (-2 : ℚ) = 0) := by norm_num
  have hx : worldDisabled.window.cursorPosX = 10 := rfl
  have hy : worldDisabled.window.cursorPosY = 10 := rfl
  have hcb : worldDisabled.window.callbacks.cursorPos = some 9 := rfl
  have ht : worldDisabled.trace = [] := rfl
  have ax : doubleAdd 10 3 = 13 := by
    unfold doubleAdd
    rw [show (10 : ℚ) + 3 = 13 by norm_num]
    exact toDouble_small.2.2
  have ay : doubleAdd 10 (-2) = 8 := by
    unfold doubleAdd
    rw [show (10 : ℚ) + (-2) = 8 by norm_num]
    exact toDouble_small.1
  have h0 : _glfwInputCursorMotion glfw3 worldDisabled 0 0 = worldDisabled := by
    unfold _glfwInputCursorMotion
    rw [if_pos (show worldDisabled.window.cursorMode = glfw3.GLFW_CURSOR_DISABLED from rfl),
      if_pos (show (0 : ℚ) = 0 ∧ (0 : ℚ) = 0 from ⟨rfl, rfl⟩)]
  rw [cursorMotion_disabled_eq glfw3 worldDisabled rfl 3 (-2) hz, hcb, h0]
  simp only [hx, hy, ht, ax, ay, List.nil_append]
  exact ⟨trivial, trivial, trivial, trivial⟩

/-! ## C11: `glfwSetCursorPos` on a window that is not focused -/

/-- Before initialization a public call only reports the error. -/
theorem requireInit_uninitialized (H : Header) (s : World) (h : s._glfwInitialized = false) :
    requireInit H s = some (_glfwInputError s H.GLFW_NOT_INITIALIZED) := by
  unfold requireInit
  rw [h]
  rfl

theorem setCursorPos_uninitialized (H : Header) (s : World) (h : s._glfwInitialized = false)
    (x y : ℚ) : glfwSetCursorPos H s x y = _glfwInputError s H.GLFW_NOT_INITIALIZED := by
  unfold glfwSetCursorPos
  rw [requireInit_uninitialized H s h]

theorem setCursorPos_unfocused (H : Header) (s : World) (hinit : s._glfwInitialized = true)
    (hfoc : s.glfw.focusedWindow ≠ some s.window.handle) (x y : ℚ) :
    glfwSetCursorPos H s x y = s := by
  unfold glfwSetCursorPos
  rw [requireInit_initialized H s hinit]
  simp only [ne_eq, hfoc, not_false_eq_true, if_true]

/-- C11. For a window that is not the focused window and every `(x, y)`, `glfwSetCursorPos`
changes nothing: on an initialized library the world is returned unchanged (window with stored
position and cursor mode, snapshot, trace); in any case the window and the globals are unchanged
and no platform cursor-position call is added to the trace. -/
theorem setCursorPos_unfocused_noop (H : Header) (s : World)
    (hfoc : s.glfw.focusedWindow ≠ some s.window.handle) (x y : ℚ) :
    (s._glfwInitialized = true → glfwSetCursorPos H s x y = s) ∧
    (glfwSetCursorPos H s x y).window = s.window ∧
    (glfwSetCursorPos H s x y).glfw = s.glfw ∧
    ∀ h px py, Event.platformSetCursorPos h px py ∈ (glfwSetCursorPos H s x y).trace →
      Event.platformSetCursorPos h px py ∈ s.trace := by
  by_cases hi : s._glfwInitialized = true
  · rw [setCursorPos_unfocused H s hi hfoc x y]
    exact ⟨fun _ => rfl, rfl, rfl, fun _ _ _ hmem => hmem⟩
  · rw [setCursorPos_uninitialized H s (by simpa using hi) x y]
    refine ⟨fun h => absurd h hi, rfl, rfl, ?_⟩
    intro h px py hmem
    simpa [_glfwInputError] using hmem

/-- C11 at a window of an initialized library while another window holds the focus. -/
theorem setCursorPos_unfocused_noop_witness :
    worldUnfocused.glfw.focusedWindow ≠ some worldUnfocused.window.handle ∧
    ((worldUnfocused._glfwInitialized = true →
      glfwSetCursorPos glfw3 worldUnfocused 3 4 = worldUnfocused) ∧
    (glfwSetCursorPos glfw3 worldUnfocused 3 4).window = worldUnfocused.window ∧
    (glfwSetCursorPos glfw3 worldUnfocused 3 4).glfw = worldUnfocused.glfw ∧
    ∀ h px py,
      Event.platformSetCursorPos h px py ∈ (glfwSetCursorPos glfw3 worldUnfocused 3 4).trace →
      Event.platformSetCursorPos h px py ∈ worldUnfocused.trace) :=
  ⟨by decide, setCursorPos_unfocused_noop glfw3 worldUnfocused (by decide) 3 4⟩

/-! ## C12: the character filter -/

/-- A codepoint that passes the filter is forwarded to the registered character callback. -/
theorem inputChar_forwarded (s : World) (c cb : Nat) (hc : 32 ≤ c ∧ ¬ (126 < c ∧ c < 160))
    (hcb : s.window.callbacks.character = some cb) :
    _glfwInputChar s c = { s with trace := s.trace ++ [Event.character cb c] } := by
  have hn : ¬ (c < 32 ∨ (c > 126 ∧ c < 160)) := by omega
  unfold _glfwInputChar
  rw [if_neg hn, hcb]
  rfl

/-- A codepoint that does not pass the filter is dropped. -/
theorem inputChar_suppressed (s : World) (c : Nat) (hc : ¬ (32 ≤ c ∧ ¬ (126 < c ∧ c < 160))) :
    _glfwInputChar s c = s := by
  have hn : c < 32 ∨ (c > 126 ∧ c < 160) := by omega
  unfold _glfwInputChar
  rw [if_pos hn]

/-- C12. With a character callback `cb` registered, `_glfwInputChar` invokes it (once, with the
codepoint `c` unchanged) if and only if `c ≥ 32` and not `126 < c < 160`; any other codepoint
leaves the world unchanged, as does any codepoint when no callback is registered. In particular
31 and 130 are suppressed and 32, 126, 160 and 161 are forwarded. -/
theorem inputChar_filter (s : World) (c : Nat) :
    (∀ cb, s.window.callbacks.character = some cb →
      ((_glfwInputChar s c).trace = s.trace ++ [Event.character cb c] ↔
        (32 ≤ c ∧ ¬ (126 < c ∧ c < 160))) ∧
      (32 ≤ c ∧ ¬ (126 < c ∧ c < 160) →
        _glfwInputChar s c = { s with trace := s.trace ++ [Event.character cb c] })) ∧
    (¬ (32 ≤ c ∧ ¬ (126 < c ∧ c < 160)) → _glfwInputChar s c = s) ∧
    (s.window.callbacks.character = none → _glfwInputChar s c = s) ∧
    (_glfwInputChar s 31 = s ∧ _glfwInputChar s 130 = s ∧
      ∀ cb, s.window.callbacks.character = some cb →
        (_glfwInputChar s 32).trace = s.trace ++ [Event.character cb 32] ∧
        (_glfwInputChar s 126).trace = s.trace ++ [Event.character cb 126] ∧
        (_glfwInputChar s 160).trace = s.trace ++ [Event.character cb 160] ∧
        (_glfwInputChar s 161).trace = s.trace ++ [Event.character cb 161]) := by
  refine ⟨?_, inputChar_suppressed s c, ?_, ?_⟩
  · intro cb hcb
    refine ⟨⟨?_, ?_⟩, fun hc => inputChar_forwarded s c cb hc hcb⟩
    · intro ht
      by_contra hc
      rw [inputChar_suppressed s c hc] at ht
      have hl := congrArg List.length ht
      simp at hl
    · intro hc
      rw [inputChar_forwarded s c cb hc hcb]
  · intro hnone
    unfold _glfwInputChar
    rw [hnone]
    split <;> rfl
  · refine ⟨inputChar_suppressed s 31 (by omega), inputChar_suppressed s 130 (by omega), ?_⟩
    intro cb hcb
    rw [inputChar_forwarded s 32 cb (by omega) hcb, inputChar_forwarded s 126 cb (by omega) hcb,
      inputChar_forwarded s 160 cb (by omega) hcb, inputChar_forwarded s 161 cb (by omega) hcb]
    exact ⟨rfl, rfl, rfl, rfl⟩

/-- The examples of C12 on a window whose character callback is 10. -/
theorem inputChar_filter_examples :
    (_glfwInputChar worldCallbacks 31).trace = [] ∧
    (_glfwInputChar worldCallbacks 130).trace = [] ∧
    (_glfwInputChar worldCallbacks 32).trace = [Event.character 10 32] ∧
    (_glfwInputChar worldCallbacks 126).trace = [Event.character 10 126] ∧
    (_glfwInputChar worldCallbacks 160).trace = [Event.character 10 160] ∧
    (_glfwInputChar worldCallbacks 161).trace = [Event.character 10 161] := by
  refine ⟨rfl, rfl, rfl, rfl, rfl, rfl⟩

/-! ## C13: callback setters return the previous callback -/

/-- C13. On an initialized library each of the six callback setters returns the callback that was
registered before (`none` for null), stores the new one in its slot and changes nothing else
(the other five slots and the rest of the world); hence setting `cb1` and then `cb2` returns
`cb1`, and passing the value a setter returned back to it restores the original world. -/
theorem callback_setters_swap (H : Header) (s : World) (hinit : s._glfwInitialized = true)
    (cb cb1 cb2 : Option Nat) :
    (glfwSetKeyCallback H s cb =
        (s.window.callbacks.key,
          { s with window := { s.window with
              callbacks := { s.window.callbacks with key := cb } } }) ∧
      (glfwSetKeyCallback H (glfwSetKeyCallback H s cb1).2 cb2).1 = cb1 ∧
      (glfwSetKeyCallback H (glfwSetKeyCallback H s cb).2 (glfwSetKeyCallback H s cb).1).2 = s) ∧
    (glfwSetCharCallback H s cb =
        (s.window.callbacks.character,
          { s with window := { s.window with
              callbacks := { s.window.callbacks with character := cb } } }) ∧
      (glfwSetCharCallback H (glfwSetCharCallback H s cb1).2 cb2).1 = cb1 ∧
      (glfwSetCharCallback H (glfwSetCharCallback H s cb).2
        (glfwSetCharCallback H s cb).1).2 = s) ∧
    (glfwSetMouseButtonCallback H s cb =
        (s.window.callbacks.mouseButton,
          { s with window := { s.window with
              callbacks := { s.window.callbacks with mouseButton := cb } } }) ∧
      (glfwSetMouseButtonCallback H (glfwSetMouseButtonCallback H s cb1).2 cb2).1 = cb1 ∧
      (glfwSetMouseButtonCallback H (glfwSetMouseButtonCallback H s cb).2
        (glfwSetMouseButtonCallback H s cb).1).2 = s) ∧
    (glfwSetCursorPosCallback H s cb =
        (s.window.callbacks.cursorPos,
          { s with window := { s.window with
              callbacks := { s.window.callbacks with cursorPos := cb } } }) ∧
      (glfwSetCursorPosCallback H (glfwSetCursorPosCallback H s cb1).2 cb2).1 = cb1 ∧
      (glfwSetCursorPosCallback H (glfwSetCursorPosCallback H s cb).2
        (glfwSetCursorPosCallback H s cb).1).2 = s) ∧
    (glfwSetCursorEnterCallback H s cb =
        (s.window.callbacks.cursorEnter,
          { s with window := { s.window with
              callbacks := { s.window.callbacks with cursorEnter := cb } } }) ∧
      (glfwSetCursorEnterCallback H (glfwSetCursorEnterCallback H s cb1).2 cb2).1 = cb1 ∧
      (glfwSetCursorEnterCallback H (glfwSetCursorEnterCallback H s cb).2
        (glfwSetCursorEnterCallback H s cb).1).2 = s) ∧
    (glfwSetScrollCallback H s cb =
        (s.window.callbacks.scroll,
          { s with window := { s.window with
              callbacks := { s.window.callbacks with scroll := cb } } }) ∧
      (glfwSetScrollCallback H (glfwSetScrollCallback H s cb1).2 cb2).1 = cb1 ∧
      (glfwSetScrollCallback H (glfwSetScrollCallback H s cb).2
        (glfwSetScrollCallback H s cb).1).2 = s) := by
  have hr : ∀ t : World, t._glfwInitialized = true → requireInit H t = none :=
    fun t ht => requireInit_initialized H t ht
  have hk : ∀ (t : World) (c : Option Nat), t._glfwInitialized = true →
      glfwSetKeyCallback H t c = (t.window.callbacks.key,
        { t with window := { t.window with callbacks := { t.window.callbacks with key := c } } }) :=
    by
      intro t c ht
      unfold glfwSetKeyCallback
      rw [hr t ht]
      rfl
  have hc : ∀ (t : World) (c : Option Nat), t._glfwInitialized = true →
      glfwSetCharCallback H t c = (t.window.callbacks.character,
        { t with window := { t.window with
            callbacks := { t.window.callbacks with character := c } } }) := by
    intro t c ht
    unfold glfwSetCharCallback
    rw [hr t ht]
    rfl
  have hm : ∀ (t : World) (c : Option Nat), t._glfwInitialized = true →
      glfwSetMouseButtonCallback H t c = (t.window.callbacks.mouseButton,
        { t with window := { t.window with
            callbacks := { t.window.callbacks with mouseButton := c } } }) := by
    intro t c ht
    unfold glfwSetMouseButtonCallback
    rw [hr t ht]
    rfl
  have hp : ∀ (t : World) (c : Option Nat), t._glfwInitialized = true →
      glfwSetCursorPosCallback H t c = (t.window.callbacks.cursorPos,
        { t with window := { t.window with
            callbacks := { t.window.callbacks with cursorPos := c } } }) := by
    intro t c ht
    unfold glfwSetCursorPosCallback
    rw [hr t ht]
    rfl
  have he : ∀ (t : World) (c : Option Nat), t._glfwInitialized = true →
      glfwSetCursorEnterCallback H t c = (t.window.callbacks.cursorEnter,
        { t with window := { t.window with
            callbacks := { t.window.callbacks with cursorEnter := c } } }) := by
    intro t c ht
    unfold glfwSetCursorEnterCallback
    rw [hr t ht]
    rfl
  have hsc : ∀ (t : World) (c : Option Nat), t._glfwInitialized = true →
      glfwSetScrollCallback H t c = (t.window.callbacks.scroll,
        { t with window := { t.window with
            callbacks := { t.window.callbacks with scroll := c } } }) := by
    intro t c ht
    unfold glfwSetScrollCallback
    rw [hr t ht]
    rfl
  refine ⟨⟨hk s cb hinit, ?_, ?_⟩, ⟨hc s cb hinit, ?_, ?_⟩, ⟨hm s cb hinit, ?_, ?_⟩,
    ⟨hp s cb hinit, ?_, ?_⟩, ⟨he s cb hinit, ?_, ?_⟩, ⟨hsc s cb hinit, ?_, ?_⟩⟩
  · rw [hk s cb1 hinit, hk _ cb2 (by exact hinit)]
  · rw [hk s cb hinit, hk _ _ (by exact hinit)]
  · rw [hc s cb1 hinit, hc _ cb2 (by exact hinit)]
  · rw [hc s cb hinit, hc _ _ (by exact hinit)]
  · rw [hm s cb1 hinit, hm _ cb2 (by exact hinit)]
  · rw [hm s cb hinit, hm _ _ (by exact hinit)]
  · rw [hp s cb1 hinit, hp _ cb2 (by exact hinit)]
  · rw [hp s cb hinit, hp _ _ (by exact hinit)]
  · rw [he s cb1 hinit, he _ cb2 (by exact hinit)]
  · rw [he s cb hinit, he _ _ (by exact hinit)]
  · rw [hsc s cb1 hinit, hsc _ cb2 (by exact hinit)]
  · rw [hsc s cb hinit, hsc _ _ (by exact hinit)]

/-- C13 at a fresh window whose key callback is 7, with new callbacks 20, 21 and 22. -/
theorem callback_setters_swap_witness :
    world0._glfwInitialized = true ∧
    ((glfwSetKeyCallback glfw3 world0 (some 20) =
        (world0.window.callbacks.key,
          { world0 with window := { world0.window with
              callbacks := { world0.window.callbacks with key := some 20 } } }) ∧
      (glfwSetKeyCallback glfw3 (glfwSetKeyCallback glfw3 world0 (some 21)).2 (some 22)).1 =
        some 21 ∧
      (glfwSetKeyCallback glfw3 (glfwSetKeyCallback glfw3 world0 (some 20)).2
        (glfwSetKeyCallback glfw3 world0 (some 20)).1).2 = world0) ∧
    (glfwSetCharCallback glfw3 world0 (some 20) =
        (world0.window.callbacks.character,
          { world0 with window := { world0.window with
              callbacks := { world0.window.callbacks with character := some 20 } } }) ∧
      (glfwSetCharCallback glfw3 (glfwSetCharCallback glfw3 world0 (some 21)).2 (some 22)).1 =
        some 21 ∧
      (glfwSetCharCallback glfw3 (glfwSetCharCallback glfw3 world0 (some 20)).2
        (glfwSetCharCallback glfw3 world0 (some 20)).1).2 = world0) ∧
    (glfwSetMouseButtonCallback glfw3 world0 (some 20) =
        (world0.window.callbacks.mouseButton,
          { world0 with window := { world0.window with
              callbacks := { world0.window.callbacks with mouseButton := some 20 } } }) ∧
      (glfwSetMouseButtonCallback glfw3
        (glfwSetMouseButtonCallback glfw3 world0 (some 21)).2 (some 22)).1 = some 21 ∧
      (glfwSetMouseButtonCallback glfw3 (glfwSetMouseButtonCallback glfw3 world0 (some 20)).2
        (glfwSetMouseButtonCallback glfw3 world0 (some 20)).1).2 = world0) ∧
    (glfwSetCursorPosCallback glfw3 world0 (some 20) =
        (world0.window.callbacks.cursorPos,
          { world0 with window := { world0.window with
              callbacks := { world0.window.callbacks with cursorPos := some 20 } } }) ∧
      (glfwSetCursorPosCallback glfw3
        (glfwSetCursorPosCallback glfw3 world0 (some 21)).2 (some 22)).1 = some 21 ∧
      (glfwSetCursorPosCallback glfw3 (glfwSetCursorPosCallback glfw3 world0 (some 20)).2
        (glfwSetCursorPosCallback glfw3 world0 (some 20)).1).2 = world0) ∧
    (glfwSetCursorEnterCallback glfw3 world0 (some 20) =
        (world0.window.callbacks.cursorEnter,
          { world0 with window := { world0.window with
              callbacks := { world0.window.callbacks with cursorEnter := some 20 } } }) ∧
      (glfwSetCursorEnterCallback glfw3
        (glfwSetCursorEnterCallback glfw3 world0 (some 21)).2 (some 22)).1 = some 21 ∧
      (glfwSetCursorEnterCallback glfw3 (glfwSetCursorEnterCallback glfw3 world0 (some 20)).2
        (glfwSetCursorEnterCallback glfw3 world0 (some 20)).1).2 = world0) ∧
    (glfwSetScrollCallback glfw3 world0 (some 20) =
        (world0.window.callbacks.scroll,
          { world0 with window := { world0.window with
              callbacks := { world0.window.callbacks with scroll := some 20 } } }) ∧
      (glfwSetScrollCallback glfw3 (glfwSetScrollCallback glfw3 world0 (some 21)).2
        (some 22)).1 = some 21 ∧
      (glfwSetScrollCallback glfw3 (glfwSetScrollCallback glfw3 world0 (some 20)).2
        (glfwSetScrollCallback glfw3 world0 (some 20)).1).2 = world0)) :=
  ⟨rfl, callback_setters_swap glfw3 world0 rfl (some 20) (some 21) (some 22)⟩

/-! ## C14: `glfwGetInputMode` reads back what `glfwSetInputMode` wrote -/

/-- What `setCursorMode` leaves alone, and the mode it stores for a valid argument. -/
theorem setCursorMode_frame (H : Header) (s : World) (v : Int) :
    (setCursorMode H s v).window.stickyKeys = s.window.stickyKeys ∧
    (setCursorMode H s v).window.stickyMouseButtons = s.window.stickyMouseButtons ∧
    (setCursorMode H s v).window.key = s.window.key ∧
    (setCursorMode H s v).window.mouseButton = s.window.mouseButton ∧
    (setCursorMode H s v)._glfwInitialized = s._glfwInitialized ∧
    (v = H.GLFW_CURSOR_NORMAL ∨ v = H.GLFW_CURSOR_HIDDEN ∨ v = H.GLFW_CURSOR_DISABLED →
      (setCursorMode H s v).window.cursorMode = v) := by
  unfold setCursorMode
  simp only [_glfwInputError, _glfwPlatformSetCursorMode, _glfwPlatformSetCursorPos,
    _glfwPlatformGetWindowSize]
  split_ifs with h1 h2 h3 h4 h5 <;>
    first
    | exact ⟨rfl, rfl, rfl, rfl, rfl, fun _ => rfl⟩
    | exact ⟨rfl, rfl, rfl, rfl, rfl, fun _ => h2⟩
    | (refine ⟨rfl, rfl, rfl, rfl, rfl, ?_⟩
       intro hv
       rcases hv with hv | hv | hv
       · exact absurd hv h1.1
       · exact absurd hv h1.2.1
       · exact absurd hv h1.2.2)

/-- What `setStickyKeys` returns on a window whose key table has its declared size. -/
theorem setStickyKeys_eq (H : Header) (s : World) (hs : s.WF H) (e : Int) :
    setStickyKeys H s e =
      some (if s.window.stickyKeys = e then s
        else { s with window := { s.window with
          key := if e = 0 then
              s.window.key.map (fun v => if v = _GLFW_STICK then H.GLFW_RELEASE else v)
            else s.window.key,
          stickyKeys := e } }) := by
  unfold setStickyKeys
  by_cases h : s.window.stickyKeys = e
  · rw [if_pos h, if_pos h]
  · rw [if_neg h, if_neg h]
    by_cases he : e = 0
    · simp only [he, if_true, releaseSticky_all H s.window.key H.GLFW_KEY_LAST hs.1]
    · simp only [he, if_false]

/-- What `setStickyMouseButtons` returns on a window whose button table has its declared
size. -/
theorem setStickyMouseButtons_eq (H : Header) (s : World) (hs : s.WF H) (e : Int) :
    setStickyMouseButtons H s e =
      some (if s.window.stickyMouseButtons = e then s
        else { s with window := { s.window with
          mouseButton := if e = 0 then
              s.window.mouseButton.map (fun v => if v = _GLFW_STICK then H.GLFW_RELEASE else v)
            else s.window.mouseButton,
          stickyMouseButtons := e } }) := by
  unfold setStickyMouseButtons
  by_cases h : s.window.stickyMouseButtons = e
  · rw [if_pos h, if_pos h]
  · rw [if_neg h, if_neg h]
    by_cases he : e = 0
    · simp only [he, if_true,
        releaseSticky_all H s.window.mouseButton H.GLFW_MOUSE_BUTTON_LAST hs.2]
    · simp only [he, if_false]

theorem getInputMode_cursor (H : Header) (s : World) (hinit : s._glfwInitialized = true) :
    glfwGetInputMode H s H.GLFW_CURSOR = (s.window.cursorMode, s) := by
  unfold glfwGetInputMode
  rw [requireInit_initialized H s hinit]
  simp only [if_true]

theorem getInputMode_stickyKeys (H : Header) (hH : H.WF) (s : World)
    (hinit : s._glfwInitialized = true) :
    glfwGetInputMode H s H.GLFW_STICKY_KEYS = (s.window.stickyKeys, s) := by
  have hne : H.GLFW_STICKY_KEYS ≠ H.GLFW_CURSOR := fun h => hH.2.2.2.2.2.2.2.1 h.symm
  unfold glfwGetInputMode
  rw [requireInit_initialized H s hinit]
  simp only [hne, if_false, if_true]

theorem getInputMode_stickyMouseButtons (H : Header) (hH : H.WF) (s : World)
    (hinit : s._glfwInitialized = true) :
    glfwGetInputMode H s H.GLFW_STICKY_MOUSE_BUTTONS = (s.window.stickyMouseButtons, s) := by
  have hne1 : H.GLFW_STICKY_MOUSE_BUTTONS ≠ H.GLFW_CURSOR :=
    fun h => hH.2.2.2.2.2.2.2.2.1 h.symm
  have hne2 : H.GLFW_STICKY_MOUSE_BUTTONS ≠ H.GLFW_STICKY_KEYS :=
    fun h => hH.2.2.2.2.2.2.2.2.2.1 h.symm
  unfold glfwGetInputMode
  rw [requireInit_initialized H s hinit]
  simp only [hne1, hne2, if_false, if_true]

/-- C14. On an initialized library: after `glfwSetInputMode(CURSOR, v)` with `v` one of the three
cursor modes, `glfwGetInputMode(CURSOR)` returns `v` (focused or not); after
`glfwSetInputMode(STICKY_KEYS, v)` for any `v`, `glfwGetInputMode(STICKY_KEYS)` returns 1 if
`v ≠ 0` and 0 otherwise, and likewise for `STICKY_MOUSE_BUTTONS`; each of the three calls leaves
the value read for the other two modes unchanged; and the reads change nothing. -/
theorem getInputMode_reads_back (H : Header) (hH : H.WF) (s : World) (hs : s.WF H)
    (hinit : s._glfwInitialized = true) :
    (∀ v, ∃ s1, glfwSetInputMode H s H.GLFW_CURSOR v = some s1 ∧
      (v = H.GLFW_CURSOR_NORMAL ∨ v = H.GLFW_CURSOR_HIDDEN ∨ v = H.GLFW_CURSOR_DISABLED →
        glfwGetInputMode H s1 H.GLFW_CURSOR = (v, s1)) ∧
      (glfwGetInputMode H s1 H.GLFW_STICKY_KEYS).1 =
        (glfwGetInputMode H s H.GLFW_STICKY_KEYS).1 ∧
      (glfwGetInputMode H s1 H.GLFW_STICKY_MOUSE_BUTTONS).1 =
        (glfwGetInputMode H s H.GLFW_STICKY_MOUSE_BUTTONS).1) ∧
    (∀ v, ∃ s1, glfwSetInputMode H s H.GLFW_STICKY_KEYS v = some s1 ∧
      glfwGetInputMode H s1 H.GLFW_STICKY_KEYS = ((if v ≠ 0 then 1 else 0), s1) ∧
      (glfwGetInputMode H s1 H.GLFW_CURSOR).1 = (glfwGetInputMode H s H.GLFW_CURSOR).1 ∧
      (glfwGetInputMode H s1 H.GLFW_STICKY_MOUSE_BUTTONS).1 =
        (glfwGetInputMode H s H.GLFW_STICKY_MOUSE_BUTTONS).1) ∧
    (∀ v, ∃ s1, glfwSetInputMode H s H.GLFW_STICKY_MOUSE_BUTTONS v = some s1 ∧
      glfwGetInputMode H s1 H.GLFW_STICKY_MOUSE_BUTTONS = ((if v ≠ 0 then 1 else 0), s1) ∧
      (glfwGetInputMode H s1 H.GLFW_CURSOR).1 = (glfwGetInputMode H s H.GLFW_CURSOR).1 ∧
      (glfwGetInputMode H s1 H.GLFW_STICKY_KEYS).1 =
        (glfwGetInputMode H s H.GLFW_STICKY_KEYS).1) := by
  refine ⟨?_, ?_, ?_⟩
  · intro v
    obtain ⟨f1, f2, -, -, f5, f6⟩ := setCursorMode_frame H s v
    have hi1 : (setCursorMode H s v)._glfwInitialized = true := f5.trans hinit
    refine ⟨_, setInputMode_cursor H s hinit v, ?_, ?_, ?_⟩
    · intro hv
      rw [getInputMode_cursor H _ hi1, f6 hv]
    · rw [getInputMode_stickyKeys H hH _ hi1, getInputMode_stickyKeys H hH s hinit]
      exact f1
    · rw [getInputMode_stickyMouseButtons H hH _ hi1,
        getInputMode_stickyMouseButtons H hH s hinit]
      exact f2
  · intro v
    have e1 := setInputMode_stickyKeys H hH s hinit v
    rw [setStickyKeys_eq H s hs] at e1
    refine ⟨_, e1, ?_, ?_, ?_⟩
    · by_cases h : s.window.stickyKeys = (if v ≠ 0 then GL_TRUE else GL_FALSE)
      · rw [if_pos h, getInputMode_stickyKeys H hH s hinit, h]
        by_cases hv : v = 0 <;> simp [hv, GL_TRUE, GL_FALSE]
      · rw [if_neg h, getInputMode_stickyKeys H hH _ (by exact hinit)]
        by_cases hv : v = 0 <;> simp [hv, GL_TRUE, GL_FALSE]
    · by_cases h : s.window.stickyKeys = (if v ≠ 0 then GL_TRUE else GL_FALSE)
      · rw [if_pos h]
      · rw [if_neg h, getInputMode_cursor H _ (by exact hinit), getInputMode_cursor H s hinit]
    · by_cases h : s.window.stickyKeys = (if v ≠ 0 then GL_TRUE else GL_FALSE)
      · rw [if_pos h]
      · rw [if_neg h, getInputMode_stickyMouseButtons H hH _ (by exact hinit),
          getInputMode_stickyMouseButtons H hH s hinit]
  · intro v
    have e1 := setInputMode_stickyMouseButtons H hH s hinit v
    rw [setStickyMouseButtons_eq H s hs] at e1
    refine ⟨_, e1, ?_, ?_, ?_⟩
    · by_cases h : s.window.stickyMouseButtons = (if v ≠ 0 then GL_TRUE else GL_FALSE)
      · rw [if_pos h, getInputMode_stickyMouseButtons H hH s hinit, h]
        by_cases hv : v = 0 <;> simp [hv, GL_TRUE, GL_FALSE]
      · rw [if_neg h, getInputMode_stickyMouseButtons H hH _ (by exact hinit)]
        by_cases hv : v = 0 <;> simp [hv, GL_TRUE, GL_FALSE]
    · by_cases h : s.window.stickyMouseButtons = (if v ≠ 0 then GL_TRUE else GL_FALSE)
      · rw [if_pos h]
      · rw [if_neg h, getInputMode_cursor H _ (by exact hinit), getInputMode_cursor H s hinit]
    · by_cases h : s.window.stickyMouseButtons = (if v ≠ 0 then GL_TRUE else GL_FALSE)
      · rw [if_pos h]
      · rw [if_neg h, getInputMode_stickyKeys H hH _ (by exact hinit),
          getInputMode_stickyKeys H hH s hinit]

/-- C14 at a window with latched slots and both sticky modes on. -/
theorem getInputMode_reads_back_witness :
    (glfw3.WF ∧ worldLatched.WF glfw3 ∧ worldLatched._glfwInitialized = true) ∧
    ((∀ v, ∃ s1, glfwSetInputMode glfw3 worldLatched glfw3.GLFW_CURSOR v = some s1 ∧
      (v = glfw3.GLFW_CURSOR_NORMAL ∨ v = glfw3.GLFW_CURSOR_HIDDEN ∨
          v = glfw3.GLFW_CURSOR_DISABLED →
        glfwGetInputMode glfw3 s1 glfw3.GLFW_CURSOR = (v, s1)) ∧
      (glfwGetInputMode glfw3 s1 glfw3.GLFW_STICKY_KEYS).1 =
        (glfwGetInputMode glfw3 worldLatched glfw3.GLFW_STICKY_KEYS).1 ∧
      (glfwGetInputMode glfw3 s1 glfw3.GLFW_STICKY_MOUSE_BUTTONS).1 =
        (glfwGetInputMode glfw3 worldLatched glfw3.GLFW_STICKY_MOUSE_BUTTONS).1) ∧
    (∀ v, ∃ s1, glfwSetInputMode glfw3 worldLatched glfw3.GLFW_STICKY_KEYS v = some s1 ∧
      glfwGetInputMode glfw3 s1 glfw3.GLFW_STICKY_KEYS = ((if v ≠ 0 then 1 else 0), s1) ∧
      (glfwGetInputMode glfw3 s1 glfw3.GLFW_CURSOR).1 =
        (glfwGetInputMode glfw3 worldLatched glfw3.GLFW_CURSOR).1 ∧
      (glfwGetInputMode glfw3 s1 glfw3.GLFW_STICKY_MOUSE_BUTTONS).1 =
        (glfwGetInputMode glfw3 worldLatched glfw3.GLFW_STICKY_MOUSE_BUTTONS).1) ∧
    (∀ v, ∃ s1,
      glfwSetInputMode glfw3 worldLatched glfw3.GLFW_STICKY_MOUSE_BUTTONS v = some s1 ∧
      glfwGetInputMode glfw3 s1 glfw3.GLFW_STICKY_MOUSE_BUTTONS =
        ((if v ≠ 0 then 1 else 0), s1) ∧
      (glfwGetInputMode glfw3 s1 glfw3.GLFW_CURSOR).1 =
        (glfwGetInputMode glfw3 worldLatched glfw3.GLFW_CURSOR).1 ∧
      (glfwGetInputMode glfw3 s1 glfw3.GLFW_STICKY_KEYS).1 =
        (glfwGetInputMode glfw3 worldLatched glfw3.GLFW_STICKY_KEYS).1)) :=
  ⟨⟨by decide, by decide, rfl⟩,
    getInputMode_reads_back glfw3 (by decide) worldLatched (by decide) rfl⟩

/-! ## C15: the latch invariant -/

/-- A value read from a table is a member of it. -/
theorem mem_of_readAt (t : List Int) (k v : Int) (h : readAt t k = some v) : v ∈ t := by
  have hb := readAt_bounds t k v h
  have hg : t[k.toNat]? = some v := by
    simpa [readAt, hb.1] using h
  exact List.getElem?_mem hg

/-- The invariant survives a change of the window that keeps both sticky flags and the table
sizes, and puts into the tables only `GLFW_RELEASE`, `GLFW_PRESS`, or `_GLFW_STICK` under an
enabled flag. -/
theorem latch_update (H : Header) (hH : H.WF) (s s1 : World)
    (hsk : s1.window.stickyKeys = s.window.stickyKeys)
    (hsb : s1.window.stickyMouseButtons = s.window.stickyMouseButtons)
    (hlk : s1.window.key.length = s.window.key.length)
    (hlb : s1.window.mouseButton.length = s.window.mouseButton.length)
    (hk : ∀ v ∈ s1.window.key, v ∈ s.window.key ∨ v = H.GLFW_RELEASE ∨ v = H.GLFW_PRESS ∨
      (v = _GLFW_STICK ∧ s.window.stickyKeys ≠ 0))
    (hb : ∀ v ∈ s1.window.mouseButton, v ∈ s.window.mouseButton ∨ v = H.GLFW_RELEASE ∨
      v = H.GLFW_PRESS ∨ (v = _GLFW_STICK ∧ s.window.stickyMouseButtons ≠ 0))
    (hinv : s.WF H ∧ LatchInv H s) : s1.WF H ∧ LatchInv H s1 := by
  have hrs : H.GLFW_RELEASE ≠ _GLFW_STICK := hH.2.2.2.2.2.1
  have hps : H.GLFW_PRESS ≠ _GLFW_STICK := hH.2.2.2.2.2.2.1
  obtain ⟨⟨w1, w2⟩, i1, i2⟩ := hinv
  refine ⟨⟨hlk.trans w1, hlb.trans w2⟩, ?_, ?_⟩
  · intro v hv
    rw [hsk]
    rcases hk v hv with h | h | h | h
    · exact i1 v h
    · exact ⟨Or.inl h, fun hst => absurd (h.symm.trans hst) hrs⟩
    · exact ⟨Or.inr (Or.inl h), fun hst => absurd (h.symm.trans hst) hps⟩
    · exact ⟨Or.inr (Or.inr h.1), fun _ => h.2⟩
  · intro v hv
    rw [hsb]
    rcases hb v hv with h | h | h | h
    · exact i2 v h
    · exact ⟨Or.inl h, fun hst => absurd (h.symm.trans hst) hrs⟩
    · exact ⟨Or.inr (Or.inl h), fun hst => absurd (h.symm.trans hst) hps⟩
    · exact ⟨Or.inr (Or.inr h.1), fun _ => h.2⟩

/-- The invariant depends on the window only. -/
theorem latch_congr (H : Header) (hH : H.WF) (s s1 : World) (hw : s1.window = s.window)
    (hinv : s.WF H ∧ LatchInv H s) : s1.WF H ∧ LatchInv H s1 := by
  refine latch_update H hH s s1 (by rw [hw]) (by rw [hw]) (by rw [hw]) (by rw [hw]) ?_ ?_ hinv
  · intro v hv; rw [hw] at hv; exact Or.inl hv
  · intro v hv; rw [hw] at hv; exact Or.inl hv

/-- The invariant survives a store of an allowed value into the key table. -/
theorem latch_set_key (H : Header) (hH : H.WF) (s s1 : World) (n : Nat) (v : Int)
    (hw : s1.window = { s.window with key := s.window.key.set n v })
    (hv : v = H.GLFW_RELEASE ∨ v = H.GLFW_PRESS ∨ (v = _GLFW_STICK ∧ s.window.stickyKeys ≠ 0))
    (hinv : s.WF H ∧ LatchInv H s) : s1.WF H ∧ LatchInv H s1 := by
  refine latch_update H hH s s1 (by rw [hw]) (by rw [hw]) (by rw [hw]; simp) (by rw [hw])
    ?_ ?_ hinv
  · intro u hu
    rw [hw] at hu
    rcases List.mem_or_eq_of_mem_set hu with h | h
    · exact Or.inl h
    · rw [h]; exact Or.inr hv
  · intro u hu; rw [hw] at hu; exact Or.inl hu

/-- The invariant survives a store of an allowed value into the button table. -/
theorem latch_set_button (H : Header) (hH : H.WF) (s s1 : World) (n : Nat) (v : Int)
    (hw : s1.window = { s.window with mouseButton := s.window.mouseButton.set n v })
    (hv : v = H.GLFW_RELEASE ∨ v = H.GLFW_PRESS ∨
      (v = _GLFW_STICK ∧ s.window.stickyMouseButtons ≠ 0))
    (hinv : s.WF H ∧ LatchInv H s) : s1.WF H ∧ LatchInv H s1 := by
  refine latch_update H hH s s1 (by rw [hw]) (by rw [hw]) (by rw [hw]) (by rw [hw]; simp)
    ?_ ?_ hinv
  · intro u hu; rw [hw] at hu; exact Or.inl hu
  · intro u hu
    rw [hw] at hu
    rcases List.mem_or_eq_of_mem_set hu with h | h
    · exact Or.inl h
    · rw [h]; exact Or.inr hv

/-- A release event for a key outside the table reads outside the table. -/
theorem inputKey_release_fault (H : Header) (s : World) (k sc m : Int)
    (hr : readAt s.window.key k = none) :
    _glfwInputKey H s k sc H.GLFW_RELEASE m = none := by
  unfold _glfwInputKey
  simp only [if_true, hr, Option.map_none']

/-- Outside `[0, KEY_LAST]` there is nothing to read. -/
theorem readAt_key_out_of_range (H : Header) (s : World) (hs : s.WF H) (k : Int)
    (hk : k < 0 ∨ H.GLFW_KEY_LAST < k) : readAt s.window.key k = none := by
  rcases hk with hk | hk
  · exact readAt_neg _ _ hk
  · apply readAt_above
    rw [hs.1]
    omega

/-- A key event with action press or release: it yields a world unless it releases a key outside
the table, and the world it yields has the old window up to one allowed store into the key
table. -/
theorem inputKey_spec (H : Header) (hH : H.WF) (s : World) (hs : s.WF H) (k sc a m : Int)
    (ha : a = H.GLFW_PRESS ∨ a = H.GLFW_RELEASE) :
    ((a = H.GLFW_RELEASE → 0 ≤ k ∧ k ≤ H.GLFW_KEY_LAST) →
      ∃ s1, _glfwInputKey H s k sc a m = some s1) ∧
    (∀ s1, _glfwInputKey H s k sc a m = some s1 →
      s1.window = s.window ∨
      ∃ v, (v = H.GLFW_RELEASE ∨ v = H.GLFW_PRESS ∨
          (v = _GLFW_STICK ∧ s.window.stickyKeys ≠ 0)) ∧
        s1.window = { s.window with key := s.window.key.set k.toNat v }) := by
  by_cases hr : 0 ≤ k ∧ k ≤ H.GLFW_KEY_LAST
  · obtain ⟨v, hv⟩ := readAt_isSome s.window.key k hr.1 (key_lt_length H s hs k hr.1 hr.2)
    rcases ha with ha | ha
    · subst ha
      have e := inputKey_press H hH s k sc m v hr.1 hr.2 hv
      refine ⟨fun _ => ⟨_, e⟩, ?_⟩
      intro s1 h1
      rw [e] at h1
      cases h1
      exact Or.inr ⟨H.GLFW_PRESS, Or.inr (Or.inl rfl), callKey_window _ _ _ _ _⟩
    · subst ha
      by_cases hvr : v = H.GLFW_RELEASE
      · have e := inputKey_release_released H s k sc m (by rw [hv, hvr])
        refine ⟨fun _ => ⟨_, e⟩, ?_⟩
        intro s1 h1
        rw [e] at h1
        cases h1
        exact Or.inl rfl
      · have e := inputKey_release H hH s k sc m v hr.1 hr.2 hv hvr
        refine ⟨fun _ => ⟨_, e⟩, ?_⟩
        intro s1 h1
        rw [e] at h1
        cases h1
        refine Or.inr ⟨_, ?_, callKey_window _ _ _ _ _⟩
        by_cases hst : s.window.stickyKeys = 0
        · simp only [hst, ne_eq, not_true_eq_false, if_false]
          exact Or.inl trivial
        · simp only [ne_eq, hst, not_false_eq_true, if_true]
          exact Or.inr (Or.inr ⟨trivial, trivial⟩)
  · have hout : k < 0 ∨ H.GLFW_KEY_LAST < k := by omega
    rcases ha with ha | ha
    · subst ha
      have e := inputKey_out_of_range_press H hH s k sc m hout
      refine ⟨fun _ => ⟨_, e⟩, ?_⟩
      intro s1 h1
      rw [e] at h1
      cases h1
      exact Or.inl (callKey_window _ _ _ _ _)
    · subst ha
      have e := inputKey_release_fault H s k sc m (readAt_key_out_of_range H s hs k hout)
      refine ⟨fun h => absurd (h rfl) hr, ?_⟩
      intro s1 h1
      rw [e] at h1
      exact Option.noConfusion h1

/-- A mouse click with action press or release always yields a world, whose window is the old
one up to one allowed store into the button table. -/
theorem inputMouseClick_spec (H : Header) (hH : H.WF) (s : World) (hs : s.WF H) (b a m : Int)
    (ha : a = H.GLFW_PRESS ∨ a = H.GLFW_RELEASE) :
    ∃ s1, _glfwInputMouseClick H s b a m = some s1 ∧
      (s1.window = s.window ∨
      ∃ v, (v = H.GLFW_RELEASE ∨ v = H.GLFW_PRESS ∨
          (v = _GLFW_STICK ∧ s.window.stickyMouseButtons ≠ 0)) ∧
        s1.window = { s.window with mouseButton := s.window.mouseButton.set b.toNat v }) := by
  by_cases hr : b < 0 ∨ b > H.GLFW_MOUSE_BUTTON_LAST
  · refine ⟨s, ?_, Or.inl rfl⟩
    unfold _glfwInputMouseClick
    rw [if_pos hr]
  · have h0 : 0 ≤ b := by omega
    have h1 : b ≤ H.GLFW_MOUSE_BUTTON_LAST := by omega
    obtain ⟨s1, e1, w1, -, -, -⟩ := inputMouseClick_inRange H s hs b a m h0 h1
    refine ⟨s1, e1, Or.inr ⟨_, ?_, w1⟩⟩
    have hpr : H.GLFW_PRESS ≠ H.GLFW_RELEASE := fun h => hH.2.2.2.2.1 h.symm
    rcases ha with ha | ha
    · subst ha
      have hc : ¬ (H.GLFW_PRESS = H.GLFW_RELEASE ∧ s.window.stickyMouseButtons ≠ 0) :=
        fun h => hpr h.1
      rw [if_neg hc, toChar_press H hH]
      exact Or.inr (Or.inl rfl)
    · subst ha
      by_cases hst : s.window.stickyMouseButtons = 0
      · have hc : ¬ (H.GLFW_RELEASE = H.GLFW_RELEASE ∧ s.window.stickyMouseButtons ≠ 0) :=
          fun h => h.2 hst
        rw [if_neg hc, toChar_release H hH]
        exact Or.inl rfl
      · have hc : H.GLFW_RELEASE = H.GLFW_RELEASE ∧ s.window.stickyMouseButtons ≠ 0 :=
          ⟨rfl, hst⟩
        rw [if_pos hc]
        exact Or.inr (Or.inr ⟨rfl, hst⟩)

/-- A poll of a key always returns; the window is the old one up to a store of `GLFW_RELEASE`
into the key table; under the latch invariant the value is `GLFW_RELEASE` or `GLFW_PRESS`. -/
theorem getKey_spec (H : Header) (s : World) (hs : s.WF H) (k : Int) :
    ∃ r s1, glfwGetKey H s k = some (r, s1) ∧
      (s1.window = s.window ∨
        s1.window = { s.window with key := s.window.key.set k.toNat H.GLFW_RELEASE }) ∧
      (LatchInv H s → r = H.GLFW_RELEASE ∨ r = H.GLFW_PRESS) := by
  by_cases hi : s._glfwInitialized = true
  · by_cases hr : k < 0 ∨ k > H.GLFW_KEY_LAST
    · refine ⟨H.GLFW_RELEASE, _glfwInputError s H.GLFW_INVALID_ENUM, ?_, Or.inl rfl,
        fun _ => Or.inl rfl⟩
      unfold glfwGetKey
      rw [requireInit_initialized H s hi]
      simp only [hr, if_true]
    · have h0 : 0 ≤ k := by omega
      have h1 : k ≤ H.GLFW_KEY_LAST := by omega
      obtain ⟨v, hv⟩ := readAt_isSome s.window.key k h0 (key_lt_length H s hs k h0 h1)
      have e := getKey_inRange H s k v hi h0 h1 hv
      by_cases hst : v = _GLFW_STICK
      · rw [if_pos hst] at e
        exact ⟨_, _, e, Or.inr rfl, fun _ => Or.inr rfl⟩
      · rw [if_neg hst] at e
        refine ⟨_, _, e, Or.inl rfl, ?_⟩
        intro hinv
        rcases (hinv.1 v (mem_of_readAt _ _ _ hv)).1 with h | h | h
        · exact Or.inl h
        · exact Or.inr h
        · exact absurd h hst
  · refine ⟨H.GLFW_RELEASE, _glfwInputError s H.GLFW_NOT_INITIALIZED, ?_, Or.inl rfl,
      fun _ => Or.inl rfl⟩
    unfold glfwGetKey
    rw [requireInit_uninitialized H s (by simpa using hi)]

/-- A poll of a mouse button always returns; the window is the old one up to a store of
`GLFW_RELEASE` into the button table; under the latch invariant the value is `GLFW_RELEASE` or
`GLFW_PRESS`. -/
theorem getMouseButton_spec (H : Header) (s : World) (hs : s.WF H) (b : Int) :
    ∃ r s1, glfwGetMouseButton H s b = some (r, s1) ∧
      (s1.window = s.window ∨
        s1.window =
          { s.window with mouseButton := s.window.mouseButton.set b.toNat H.GLFW_RELEASE }) ∧
      (LatchInv H s → r = H.GLFW_RELEASE ∨ r = H.GLFW_PRESS) := by
  by_cases hi : s._glfwInitialized = true
  · by_cases hr : b < 0 ∨ b > H.GLFW_MOUSE_BUTTON_LAST
    · refine ⟨H.GLFW_RELEASE, _glfwInputError s H.GLFW_INVALID_ENUM, ?_, Or.inl rfl,
        fun _ => Or.inl rfl⟩
      unfold glfwGetMouseButton
      rw [requireInit_initialized H s hi]
      simp only [hr, if_true]
    · have h0 : 0 ≤ b := by omega
      have h1 : b ≤ H.GLFW_MOUSE_BUTTON_LAST := by omega
      obtain ⟨v, hv⟩ :=
        readAt_isSome s.window.mouseButton b h0 (button_lt_length H s hs b h0 h1)
      have e := getMouseButton_inRange H s b v hi h0 h1 hv
      by_cases hst : v = _GLFW_STICK
      · rw [if_pos hst] at e
        exact ⟨_, _, e, Or.inr rfl, fun _ => Or.inr rfl⟩
      · rw [if_neg hst] at e
        refine ⟨_, _, e, Or.inl rfl, ?_⟩
        intro hinv
        rcases (hinv.2 v (mem_of_readAt _ _ _ hv)).1 with h | h | h
        · exact Or.inl h
        · exact Or.inr h
        · exact absurd h hst
  · refine ⟨H.GLFW_RELEASE, _glfwInputError s H.GLFW_NOT_INITIALIZED, ?_, Or.inl rfl,
      fun _ => Or.inl rfl⟩
    unfold glfwGetMouseButton
    rw [requireInit_uninitialized H s (by simpa using hi)]

/-- Clearing the latches of a table that satisfies the invariant leaves only `GLFW_RELEASE` and
`GLFW_PRESS`. -/
theorem mem_map_unstick (H : Header) (t : List Int)
    (ht : ∀ v ∈ t, v = H.GLFW_RELEASE ∨ v = H.GLFW_PRESS ∨ v = _GLFW_STICK) :
    ∀ w ∈ t.map (fun v => if v = _GLFW_STICK then H.GLFW_RELEASE else v),
      w = H.GLFW_RELEASE ∨ w = H.GLFW_PRESS := by
  intro w hw
  obtain ⟨u, hu, rfl⟩ := List.mem_map.mp hw
  by_cases hst : u = _GLFW_STICK
  · rw [if_pos hst]; exact Or.inl rfl
  · rw [if_neg hst]
    rcases ht u hu with h | h | h
    · exact Or.inl h
    · exact Or.inr h
    · exact absurd h hst

/-- `setStickyKeys` keeps the latch invariant. -/
theorem setStickyKeys_latch (H : Header) (hH : H.WF) (s : World)
    (hinv : s.WF H ∧ LatchInv H s) (e : Int) :
    ∃ s1, setStickyKeys H s e = some s1 ∧ s1.WF H ∧ LatchInv H s1 := by
  have hrs : H.GLFW_RELEASE ≠ _GLFW_STICK := hH.2.2.2.2.2.1
  have hps : H.GLFW_PRESS ≠ _GLFW_STICK := hH.2.2.2.2.2.2.1
  rw [setStickyKeys_eq H s hinv.1 e]
  by_cases h : s.window.stickyKeys = e
  · rw [if_pos h]; exact ⟨s, rfl, hinv⟩
  · rw [if_neg h]
    obtain ⟨⟨w1, w2⟩, i1, i2⟩ := hinv
    refine ⟨_, rfl, ?_, ?_, ?_⟩
    · refine ⟨?_, w2⟩
      show (if e = 0 then _ else s.window.key).length = _
      split
      · rw [List.length_map]; exact w1
      · exact w1
    · intro v hv
      have hv' : v ∈ (if e = 0 then
          s.window.key.map (fun v => if v = _GLFW_STICK then H.GLFW_RELEASE else v)
          else s.window.key) := hv
      show (v = H.GLFW_RELEASE ∨ v = H.GLFW_PRESS ∨ v = _GLFW_STICK) ∧ (v = _GLFW_STICK → e ≠ 0)
      by_cases he : e = 0
      · rw [if_pos he] at hv'
        rcases mem_map_unstick H s.window.key (fun u hu => (i1 u hu).1) v hv' with hr | hr
        · exact ⟨Or.inl hr, fun hst => absurd (hr.symm.trans hst) hrs⟩
        · exact ⟨Or.inr (Or.inl hr), fun hst => absurd (hr.symm.trans hst) hps⟩
      · rw [if_neg he] at hv'
        exact ⟨(i1 v hv').1, fun _ => he⟩
    · exact i2

/-- `setStickyMouseButtons` keeps the latch invariant. -/
theorem setStickyMouseButtons_latch (H : Header) (hH : H.WF) (s : World)
    (hinv : s.WF H ∧ LatchInv H s) (e : Int) :
    ∃ s1, setStickyMouseButtons H s e = some s1 ∧ s1.WF H ∧ LatchInv H s1 := by
  have hrs : H.GLFW_RELEASE ≠ _GLFW_STICK := hH.2.2.2.2.2.1
  have hps : H.GLFW_PRESS ≠ _GLFW_STICK := hH.2.2.2.2.2.2.1
  rw [setStickyMouseButtons_eq H s hinv.1 e]
  by_cases h : s.window.stickyMouseButtons = e
  · rw [if_pos h]; exact ⟨s, rfl, hinv⟩
  · rw [if_neg h]
    obtain ⟨⟨w1, w2⟩, i1, i2⟩ := hinv
    refine ⟨_, rfl, ?_, ?_, ?_⟩
    · refine ⟨w1, ?_⟩
      show (if e = 0 then _ else s.window.mouseButton).length = _
      split
      · rw [List.length_map]; exact w2
      · exact w2
    · exact i1
    · intro v hv
      have hv' : v ∈ (if e = 0 then
          s.window.mouseButton.map (fun v => if v = _GLFW_STICK then H.GLFW_RELEASE else v)
          else s.window.mouseButton) := hv
      show (v = H.GLFW_RELEASE ∨ v = H.GLFW_PRESS ∨ v = _GLFW_STICK) ∧ (v = _GLFW_STICK → e ≠ 0)
      by_cases he : e = 0
      · rw [if_pos he] at hv'
        rcases mem_map_unstick H s.window.mouseButton (fun u hu => (i2 u hu).1) v hv'
          with hr | hr
        · exact ⟨Or.inl hr, fun hst => absurd (hr.symm.trans hst) hrs⟩
        · exact ⟨Or.inr (Or.inl hr), fun hst => absurd (hr.symm.trans hst) hps⟩
      · rw [if_neg he] at hv'
        exact ⟨(i2 v hv').1, fun _ => he⟩

/-- `glfwSetInputMode` always yields a world and keeps the latch invariant. -/
theorem setInputMode_latch (H : Header) (hH : H.WF) (s : World)
    (hinv : s.WF H ∧ LatchInv H s) (mode v : Int) :
    ∃ s1, glfwSetInputMode H s mode v = some s1 ∧ s1.WF H ∧ LatchInv H s1 := by
  by_cases hi : s._glfwInitialized = true
  · by_cases hc : mode = H.GLFW_CURSOR
    · subst hc
      obtain ⟨f1, f2, f3, f4, -, -⟩ := setCursorMode_frame H s v
      refine ⟨_, setInputMode_cursor H s hi v, ?_⟩
      refine latch_update H hH s _ f1 f2 (by rw [f3]) (by rw [f4]) ?_ ?_ hinv
      · intro u hu; rw [f3] at hu; exact Or.inl hu
      · intro u hu; rw [f4] at hu; exact Or.inl hu
    · by_cases hk : mode = H.GLFW_STICKY_KEYS
      · subst hk
        rw [setInputMode_stickyKeys H hH s hi v]
        exact setStickyKeys_latch H hH s hinv _
      · by_cases hb : mode = H.GLFW_STICKY_MOUSE_BUTTONS
        · subst hb
          rw [setInputMode_stickyMouseButtons H hH s hi v]
          exact setStickyMouseButtons_latch H hH s hinv _
        · refine ⟨_glfwInputError s H.GLFW_INVALID_ENUM, ?_, latch_congr H hH s _ rfl hinv⟩
          unfold glfwSetInputMode
          rw [requireInit_initialized H s hi]
          simp only [hc, hk, hb, if_false]
  · refine ⟨_glfwInputError s H.GLFW_NOT_INITIALIZED, ?_, latch_congr H hH s _ rfl hinv⟩
    unfold glfwSetInputMode
    rw [requireInit_uninitialized H s (by simpa using hi)]

/-- One call with action press or release: it yields a world unless it releases a key outside
the table, and the world it yields satisfies the latch invariant. -/
theorem step_spec (H : Header) (hH : H.WF) (s : World) (hinv : s.WF H ∧ LatchInv H s)
    (op : Op) (hop : op.actionOK H) :
    (op.releaseInRange H → ∃ s1, step H s op = some s1) ∧
    (∀ s1, step H s op = some s1 → s1.WF H ∧ LatchInv H s1) := by
  cases op with
  | inputKey k sc a m =>
    obtain ⟨t1, t2⟩ := inputKey_spec H hH s hinv.1 k sc a m hop
    refine ⟨t1, ?_⟩
    intro s1 h1
    rcases t2 s1 h1 with hw | ⟨v, hv, hw⟩
    · exact latch_congr H hH s s1 hw hinv
    · exact latch_set_key H hH s s1 _ v hw hv hinv
  | inputMouseClick b a m =>
    obtain ⟨s0, e0, hw0⟩ := inputMouseClick_spec H hH s hinv.1 b a m hop
    refine ⟨fun _ => ⟨s0, e0⟩, ?_⟩
    intro s1 h1
    have hs : s1 = s0 := Option.some.inj (h1.symm.trans e0)
    subst hs
    rcases hw0 with hw | ⟨v, hv, hw⟩
    · exact latch_congr H hH s s1 hw hinv
    · exact latch_set_button H hH s s1 _ v hw hv hinv
  | setInputMode mode v =>
    obtain ⟨s0, e0, i0⟩ := setInputMode_latch H hH s hinv mode v
    refine ⟨fun _ => ⟨s0, e0⟩, ?_⟩
    intro s1 h1
    have hs : s1 = s0 := Option.some.inj (h1.symm.trans e0)
    subst hs
    exact i0
  | getKey k =>
    obtain ⟨r, s0, e0, hw0, -⟩ := getKey_spec H s hinv.1 k
    have e1 : step H s (Op.getKey k) = some s0 := by
      show (glfwGetKey H s k).map Prod.snd = some s0
      rw [e0]; rfl
    refine ⟨fun _ => ⟨s0, e1⟩, ?_⟩
    intro s1 h1
    have hs : s1 = s0 := Option.some.inj (h1.symm.trans e1)
    subst hs
    rcases hw0 with hw | hw
    · exact latch_congr H hH s s1 hw hinv
    · exact latch_set_key H hH s s1 _ _ hw (Or.inl rfl) hinv
  | getMouseButton b =>
    obtain ⟨r, s0, e0, hw0, -⟩ := getMouseButton_spec H s hinv.1 b
    have e1 : step H s (Op.getMouseButton b) = some s0 := by
      show (glfwGetMouseButton H s b).map Prod.snd = some s0
      rw [e0]; rfl
    refine ⟨fun _ => ⟨s0, e1⟩, ?_⟩
    intro s1 h1
    have hs : s1 = s0 := Option.some.inj (h1.symm.trans e1)
    subst hs
    rcases hw0 with hw | hw
    · exact latch_congr H hH s s1 hw hinv
    · exact latch_set_button H hH s s1 _ _ hw (Or.inl rfl) hinv

/-- A sequence of calls with actions press or release: it yields a world unless one call
releases a key outside the table, and the world it yields satisfies the latch invariant. -/
theorem run_spec (H : Header) (hH : H.WF) (ops : List Op) :
    ∀ s : World, s.WF H ∧ LatchInv H s → (∀ op ∈ ops, op.actionOK H) →
      ((∀ op ∈ ops, op.releaseInRange H) → ∃ s1, run H s ops = some s1) ∧
      (∀ s1, run H s ops = some s1 → s1.WF H ∧ LatchInv H s1) := by
  induction ops with
  | nil =>
    intro s hinv _
    refine ⟨fun _ => ⟨s, rfl⟩, ?_⟩
    intro s1 h1
    cases h1
    exact hinv
  | cons op ops ih =>
    intro s hinv hops
    obtain ⟨t1, t2⟩ := step_spec H hH s hinv op (hops op (List.mem_cons_self _ _))
    have hops' : ∀ o ∈ ops, o.actionOK H := fun o ho => hops o (List.mem_cons_of_mem _ ho)
    refine ⟨?_, ?_⟩
    · intro hsafe
      obtain ⟨s0, e0⟩ := t1 (hsafe op (List.mem_cons_self _ _))
      obtain ⟨s1, e1⟩ := (ih s0 (t2 s0 e0) hops').1
        (fun o ho => hsafe o (List.mem_cons_of_mem _ ho))
      refine ⟨s1, ?_⟩
      show (match step H s op with | none => none | some s1 => run H s1 ops) = some s1
      rw [e0]
      exact e1
    · intro s1 h1
      have h2 : (match step H s op with | none => none | some s1 => run H s1 ops) = some s1 :=
        h1
      cases e0 : step H s op with
      | none => rw [e0] at h2; exact Option.noConfusion h2
      | some s0 =>
        rw [e0] at h2
        exact (ih s0 (t2 s0 e0) hops').2 s1 h2

/-- A window whose slots are all released satisfies the latch invariant. -/
theorem latch_of_allReleased (H : Header) (hH : H.WF) (s : World) (h : AllReleased H s) :
    LatchInv H s := by
  have hrs : H.GLFW_RELEASE ≠ _GLFW_STICK := hH.2.2.2.2.2.1
  refine ⟨?_, ?_⟩
  · intro v hv
    exact ⟨Or.inl (h.1 v hv), fun hst => absurd ((h.1 v hv).symm.trans hst) hrs⟩
  · intro v hv
    exact ⟨Or.inl (h.2 v hv), fun hst => absurd ((h.2 v hv).symm.trans hst) hrs⟩

/-- A read inside the table finds the stored value, whatever the memory outside holds. -/
theorem readMem_of_readAt (oob : Int → Int) (t : List Int) (k v : Int)
    (h : readAt t k = some v) : readMem oob t k = v := by
  unfold readMem
  rw [h]

/-- A read outside the table finds the byte of the memory. -/
theorem readMem_of_none (oob : Int → Int) (t : List Int) (k : Int)
    (h : readAt t k = none) : readMem oob t k = oob k := by
  unfold readMem
  rw [h]

/-- For a key inside the table the two embeddings of `_glfwInputKey` agree. -/
theorem inputKeyMem_inTable (H : Header) (oob : Int → Int) (s : World) (k sc a m v : Int)
    (hv : readAt s.window.key k = some v) :
    _glfwInputKeyMem H oob s k sc a m = _glfwInputKey H s k sc a m := by
  have hm := readMem_of_readAt oob s.window.key k v hv
  unfold _glfwInputKeyMem _glfwInputKey
  rw [hm, hv]
  by_cases ha : a = H.GLFW_RELEASE
  · by_cases hvr : v = H.GLFW_RELEASE
    · simp only [ha, hvr, and_self, if_true, Option.map_some', decide_True]
    · simp only [ha, hvr, and_false, if_false, if_true, Option.map_some', decide_False,
        true_and]
      by_cases hr : 0 ≤ k ∧ k ≤ H.GLFW_KEY_LAST
      · simp only [hr, and_self, if_true]
        by_cases hp : H.GLFW_RELEASE = H.GLFW_PRESS
        · simp only [hp, if_true, Option.map_some', true_and]
        · simp only [hp, if_false, false_and, decide_False]
      · simp only [hr, if_false]
  · simp only [ha, false_and, if_false]
    by_cases hr : 0 ≤ k ∧ k ≤ H.GLFW_KEY_LAST
    · simp only [hr, and_self, if_true]
      by_cases hp : a = H.GLFW_PRESS
      · simp only [hp, if_true, Option.map_some', true_and]
      · simp only [hp, if_false, false_and, decide_False]
    · simp only [hr, if_false]

/-- For a key outside `[0, KEY_LAST]` the event is dropped when it is a release and the byte
found outside the table is `GLFW_RELEASE`, and forwarded otherwise; the window is untouched. -/
theorem inputKeyMem_out_of_range (H : Header) (oob : Int → Int) (s : World) (hs : s.WF H)
    (k sc a m : Int) (hk : k < 0 ∨ H.GLFW_KEY_LAST < k) :
    _glfwInputKeyMem H oob s k sc a m =
      some (if a = H.GLFW_RELEASE ∧ oob k = H.GLFW_RELEASE then s
        else callKey s k sc a m) := by
  have hm := readMem_of_none oob s.window.key k (readAt_key_out_of_range H s hs k hk)
  have hr : ¬ (0 ≤ k ∧ k ≤ H.GLFW_KEY_LAST) := by omega
  unfold _glfwInputKeyMem
  rw [hm]
  by_cases hc : a = H.GLFW_RELEASE ∧ oob k = H.GLFW_RELEASE
  · rw [if_pos hc, if_pos hc]
  · rw [if_neg hc, if_neg hc, if_neg hr]

/-- One call with action press or release, on a machine where reads outside the key table find
some byte: it always yields a world, that world satisfies the latch invariant, and it is the
world of the trapping embedding `step` whenever that one yields a world. -/
theorem stepMem_spec (H : Header) (hH : H.WF) (oob : Int → Int) (s : World)
    (hinv : s.WF H ∧ LatchInv H s) (op : Op) (hop : op.actionOK H) :
    ∃ s1, stepMem H oob s op = some s1 ∧ (s1.WF H ∧ LatchInv H s1) ∧
      ∀ s2, step H s op = some s2 → s2 = s1 := by
  obtain ⟨t1, t2⟩ := step_spec H hH s hinv op hop
  have hsame : stepMem H oob s op = step H s op →
      op.releaseInRange H →
      ∃ s1, stepMem H oob s op = some s1 ∧ (s1.WF H ∧ LatchInv H s1) ∧
        ∀ s2, step H s op = some s2 → s2 = s1 := by
    intro heq hsafe
    obtain ⟨s1, e1⟩ := t1 hsafe
    exact ⟨s1, heq.trans e1, t2 s1 e1, fun s2 h2 => Option.some.inj (h2.symm.trans e1)⟩
  cases op with
  | inputKey k sc a m =>
    by_cases hr : 0 ≤ k ∧ k ≤ H.GLFW_KEY_LAST
    · obtain ⟨v, hv⟩ :=
        readAt_isSome s.window.key k hr.1 (key_lt_length H s hinv.1 k hr.1 hr.2)
      exact hsame (inputKeyMem_inTable H oob s k sc a m v hv) (fun _ => hr)
    · have hk : k < 0 ∨ H.GLFW_KEY_LAST < k := by omega
      have e := inputKeyMem_out_of_range H oob s hinv.1 k sc a m hk
      refine ⟨_, e, ?_, ?_⟩
      · by_cases hc : a = H.GLFW_RELEASE ∧ oob k = H.GLFW_RELEASE
        · rw [if_pos hc]; exact hinv
        · rw [if_neg hc]
          exact latch_congr H hH s _ (callKey_window _ _ _ _ _) hinv
      · intro s2 h2
        have hop' : a = H.GLFW_PRESS ∨ a = H.GLFW_RELEASE := hop
        have hpr : H.GLFW_PRESS ≠ H.GLFW_RELEASE := fun h => hH.2.2.2.2.1 h.symm
        rcases hop' with ha | ha
        · subst ha
          have e2 : _glfwInputKey H s k sc H.GLFW_PRESS m = some s2 := h2
          rw [inputKey_out_of_range_press H hH s k sc m hk] at e2
          have hc : ¬ (H.GLFW_PRESS = H.GLFW_RELEASE ∧ oob k = H.GLFW_RELEASE) :=
            fun h => hpr h.1
          rw [if_neg hc]
          exact (Option.some.inj e2).symm
        · subst ha
          have e2 : _glfwInputKey H s k sc H.GLFW_RELEASE m = some s2 := h2
          rw [inputKey_release_fault H s k sc m
            (readAt_key_out_of_range H s hinv.1 k hk)] at e2
          exact Option.noConfusion e2
  | inputMouseClick b a m => exact hsame rfl trivial
  | setInputMode mode v => exact hsame rfl trivial
  | getKey k => exact hsame rfl trivial
  | getMouseButton b => exact hsame rfl trivial

/-- A sequence of calls with actions press or release, on a machine where reads outside the key
table find some byte: it always yields a world, that world satisfies the latch invariant, and it
is the world of the trapping embedding `run` whenever that one yields a world. -/
theorem runMem_spec (H : Header) (hH : H.WF) (ops : List Op) :
    ∀ (mem : Nat → Int → Int) (s : World), s.WF H ∧ LatchInv H s →
      (∀ op ∈ ops, op.actionOK H) →
      ∃ s1, runMem H mem s ops = some s1 ∧ (s1.WF H ∧ LatchInv H s1) ∧
        ∀ s2, run H s ops = some s2 → s2 = s1 := by
  induction ops with
  | nil =>
    intro mem s hinv _
    exact ⟨s, rfl, hinv, fun s2 h2 => (Option.some.inj h2).symm⟩
  | cons op ops ih =>
    intro mem s hinv hops
    obtain ⟨s0, e0, i0, u0⟩ :=
      stepMem_spec H hH (mem 0) s hinv op (hops op (List.mem_cons_self _ _))
    obtain ⟨s1, e1, i1, u1⟩ := ih (fun i => mem (i + 1)) s0 i0
      (fun o ho => hops o (List.mem_cons_of_mem _ ho))
    refine ⟨s1, ?_, i1, ?_⟩
    · show (match stepMem H (mem 0) s op with
        | none => none
        | some s1 => runMem H (fun i => mem (i + 1)) s1 ops) = some s1
      rw [e0]
      exact e1
    · intro s2 h2
      have h3 : (match step H s op with | none => none | some s1 => run H s1 ops) = some s2 :=
        h2
      cases e : step H s op with
      | none => rw [e] at h3; exact Option.noConfusion h3
      | some s0' =>
        rw [e] at h3
        have hs0 : s0' = s0 := u0 s0' e
        subst hs0
        exact u1 s2 h3

/-- C15. Start from a window whose key and button slots all hold `GLFW_RELEASE` and perform any
sequence of `_glfwInputKey` and `_glfwInputMouseClick` (actions press or release, any key and
button, in range or not), `glfwSetInputMode`, `glfwGetKey` and `glfwGetMouseButton`, whatever
bytes the reads of line 130 outside the key table find (`mem`). The sequence yields a world; in
it every slot holds `GLFW_RELEASE`, `GLFW_PRESS` or `_GLFW_STICK`, a key (button) slot holds
`_GLFW_STICK` only if the sticky-keys (sticky-buttons) flag is set, and `glfwGetKey` and
`glfwGetMouseButton` return `GLFW_RELEASE` or `GLFW_PRESS` for every index. It is also the world
that the embedding without out-of-table reads (`run`) yields, whenever that one yields a
world. -/
theorem latch_invariant (H : Header) (hH : H.WF) (s : World) (hs : s.WF H)
    (hrel : AllReleased H s) (mem : Nat → Int → Int) (ops : List Op)
    (hops : ∀ op ∈ ops, op.actionOK H) :
    ∃ s1, runMem H mem s ops = some s1 ∧
      LatchInv H s1 ∧
      (∀ k, ∃ r s2, glfwGetKey H s1 k = some (r, s2) ∧
        (r = H.GLFW_RELEASE ∨ r = H.GLFW_PRESS)) ∧
      (∀ b, ∃ r s2, glfwGetMouseButton H s1 b = some (r, s2) ∧
        (r = H.GLFW_RELEASE ∨ r = H.GLFW_PRESS)) ∧
      (∀ s2, run H s ops = some s2 → s2 = s1) := by
  obtain ⟨s1, e1, ⟨w1, i1⟩, u1⟩ :=
    runMem_spec H hH ops mem s ⟨hs, latch_of_allReleased H hH s hrel⟩ hops
  refine ⟨s1, e1, i1, ?_, ?_, u1⟩
  · intro k
    obtain ⟨r, s2, e, -, hr⟩ := getKey_spec H s1 w1 k
    exact ⟨r, s2, e, hr i1⟩
  · intro b
    obtain ⟨r, s2, e, -, hr⟩ := getMouseButton_spec H s1 w1 b
    exact ⟨r, s2, e, hr i1⟩

/-- C15 at a fresh window and the sequence `opsUnknown`, which releases the unknown key -1, in a
memory that holds 0 outside the table. -/
theorem latch_invariant_witness :
    (glfw3.WF ∧ world0.WF glfw3 ∧ AllReleased glfw3 world0 ∧
      ∀ op ∈ opsUnknown, op.actionOK glfw3) ∧
    ∃ s1, runMem glfw3 memZero world0 opsUnknown = some s1 ∧
      LatchInv glfw3 s1 ∧
      (∀ k, ∃ r s2, glfwGetKey glfw3 s1 k = some (r, s2) ∧
        (r = glfw3.GLFW_RELEASE ∨ r = glfw3.GLFW_PRESS)) ∧
      (∀ b, ∃ r s2, glfwGetMouseButton glfw3 s1 b = some (r, s2) ∧
        (r = glfw3.GLFW_RELEASE ∨ r = glfw3.GLFW_PRESS)) ∧
      (∀ s2, run glfw3 world0 opsUnknown = some s2 → s2 = s1) :=
  ⟨⟨by decide, by decide, by decide, by decide⟩,
    latch_invariant glfw3 (by decide) world0 (by decide) (by decide) memZero opsUnknown
      (by decide)⟩

/-- The sequence `opsExample` yields a world in the embedding without out-of-table reads; the
sequence `opsUnknown` does not, and yields one with key 65 pressed where such reads find 0 (the
release of key -1 is dropped) or 1 (it is forwarded to the key callback 7). -/
theorem run_examples :
    (run glfw3 world0 opsExample).isSome = true ∧
    run glfw3 world0 opsUnknown = none ∧
    (runMem glfw3 memZero world0 opsUnknown).map
        (fun s => (readAt s.window.key 65, s.trace)) =
      some (some 1, [Event.key 7 65 38 1 0]) ∧
    (runMem glfw3 (fun _ _ => 1) world0 opsUnknown).map
        (fun s => (readAt s.window.key 65, s.trace)) =
      some (some 1, [Event.key 7 65 38 1 0, Event.key 7 (-1) 0 0 0]) := by
  decide

/-! ## C16: cursor mode changes on a window that is not focused -/

/-- C16. On an initialized library, for a valid cursor mode `m`: if the window is not the focused
window and `m` differs from the current mode, `glfwSetInputMode(CURSOR, m)` changes only the
stored `cursorMode` (stored position, snapshot and trace are unchanged, so no platform call is
made, also to and from disabled mode); if `m` is the current mode the world is unchanged, focused
or not. -/
theorem setCursorMode_unfocused_only_mode (H : Header) (s : World)
    (hinit : s._glfwInitialized = true) (m : Int)
    (hm : m = H.GLFW_CURSOR_NORMAL ∨ m = H.GLFW_CURSOR_HIDDEN ∨ m = H.GLFW_CURSOR_DISABLED) :
    (s.glfw.focusedWindow ≠ some s.window.handle → m ≠ s.window.cursorMode →
      glfwSetInputMode H s H.GLFW_CURSOR m =
        some { s with window := { s.window with cursorMode := m } }) ∧
    (m = s.window.cursorMode → glfwSetInputMode H s H.GLFW_CURSOR m = some s) := by
  have hv : ¬ (m ≠ H.GLFW_CURSOR_NORMAL ∧ m ≠ H.GLFW_CURSOR_HIDDEN ∧
      m ≠ H.GLFW_CURSOR_DISABLED) := by
    rcases hm with h | h | h
    · exact fun c => c.1 h
    · exact fun c => c.2.1 h
    · exact fun c => c.2.2 h
  refine ⟨?_, ?_⟩
  · intro hfoc hne
    have hne' : ¬ (s.window.cursorMode = m) := fun h => hne h.symm
    rw [setInputMode_cursor H s hinit m]
    unfold setCursorMode
    simp only [hv, if_false, hne', hfoc]
  · intro heq
    have heq' : s.window.cursorMode = m := heq.symm
    rw [setInputMode_cursor H s hinit m]
    unfold setCursorMode
    simp only [hv, if_false, heq', if_true]

/-- C16 at a window in normal mode while another window holds the focus, switched to disabled
mode. -/
theorem setCursorMode_unfocused_only_mode_witness :
    (worldUnfocused._glfwInitialized = true ∧
      (glfw3.GLFW_CURSOR_DISABLED = glfw3.GLFW_CURSOR_NORMAL ∨
        glfw3.GLFW_CURSOR_DISABLED = glfw3.GLFW_CURSOR_HIDDEN ∨
        glfw3.GLFW_CURSOR_DISABLED = glfw3.GLFW_CURSOR_DISABLED)) ∧
    ((worldUnfocused.glfw.focusedWindow ≠ some worldUnfocused.window.handle →
      glfw3.GLFW_CURSOR_DISABLED ≠ worldUnfocused.window.cursorMode →
      glfwSetInputMode glfw3 worldUnfocused glfw3.GLFW_CURSOR glfw3.GLFW_CURSOR_DISABLED =
        some { worldUnfocused with
          window := { worldUnfocused.window with cursorMode := glfw3.GLFW_CURSOR_DISABLED } }) ∧
    (glfw3.GLFW_CURSOR_DISABLED = worldUnfocused.window.cursorMode →
      glfwSetInputMode glfw3 worldUnfocused glfw3.GLFW_CURSOR glfw3.GLFW_CURSOR_DISABLED =
        some worldUnfocused)) :=
  ⟨⟨rfl, Or.inr (Or.inr rfl)⟩,
    setCursorMode_unfocused_only_mode glfw3 worldUnfocused rfl glfw3.GLFW_CURSOR_DISABLED
      (Or.inr (Or.inr rfl))⟩

/-! ## C17: `glfwSetCursorPos` on the focused window -/

/-- What `glfwSetCursorPos` does on the focused window of an initialized library. -/
theorem setCursorPos_focused_eq (H : Header) (s : World) (hinit : s._glfwInitialized = true)
    (hfoc : s.glfw.focusedWindow = some s.window.handle) (x y : ℚ) :
    glfwSetCursorPos H s x y =
      if x = s.window.cursorPosX ∧ y = s.window.cursorPosY then s
      else if s.window.cursorMode = H.GLFW_CURSOR_DISABLED then
        { s with window := { s.window with cursorPosX := x, cursorPosY := y } }
      else
        { s with
          window := { s.window with cursorPosX := x, cursorPosY := y }
          trace := s.trace ++ [Event.platformSetCursorPos s.window.handle x y] } := by
  unfold glfwSetCursorPos
  rw [requireInit_initialized H s hinit]
  simp only [ne_eq, hfoc, not_true_eq_false, if_false, _glfwPlatformSetCursorPos]

/-- C17. For the focused window of an initialized library and every `(x, y)`: after
`glfwSetCursorPos(x, y)` the stored position is `(x, y)` and `glfwGetCursorPos` returns it, in
every cursor mode, and nothing else in the window or the globals has changed; the trace gains
exactly one platform call, to move the cursor to `(x, y)`, when `(x, y)` differs from the
position stored before and the mode is not disabled, and gains nothing otherwise (so the
cursor-position callback is never invoked). -/
theorem setCursorPos_focused (H : Header) (s : World) (hinit : s._glfwInitialized = true)
    (hfoc : s.glfw.focusedWindow = some s.window.handle) (x y : ℚ) :
    glfwGetCursorPos H (glfwSetCursorPos H s x y) true true =
      (some x, some y, glfwSetCursorPos H s x y) ∧
    (glfwSetCursorPos H s x y).window =
      { s.window with cursorPosX := x, cursorPosY := y } ∧
    (glfwSetCursorPos H s x y).glfw = s.glfw ∧
    ((¬ (x = s.window.cursorPosX ∧ y = s.window.cursorPosY) ∧
        s.window.cursorMode ≠ H.GLFW_CURSOR_DISABLED) →
      (glfwSetCursorPos H s x y).trace =
        s.trace ++ [Event.platformSetCursorPos s.window.handle x y]) ∧
    (¬ (¬ (x = s.window.cursorPosX ∧ y = s.window.cursorPosY) ∧
        s.window.cursorMode ≠ H.GLFW_CURSOR_DISABLED) →
      (glfwSetCursorPos H s x y).trace = s.trace) := by
  have e := setCursorPos_focused_eq H s hinit hfoc x y
  have hg : ∀ t : World, t._glfwInitialized = true →
      glfwGetCursorPos H t true true = (some t.window.cursorPosX, some t.window.cursorPosY, t) := by
    intro t ht
    unfold glfwGetCursorPos
    rw [requireInit_initialized H t ht]
    rfl
  by_cases hsame : x = s.window.cursorPosX ∧ y = s.window.cursorPosY
  · rw [if_pos hsame] at e
    rw [e, hg s hinit]
    refine ⟨by rw [hsame.1, hsame.2], by rw [hsame.1, hsame.2], rfl, ?_, fun _ => rfl⟩
    intro h
    exact absurd hsame h.1
  · rw [if_neg hsame] at e
    by_cases hd : s.window.cursorMode = H.GLFW_CURSOR_DISABLED
    · rw [if_pos hd] at e
      rw [e, hg _ (by exact hinit)]
      exact ⟨rfl, rfl, rfl, fun h => absurd hd h.2, fun _ => rfl⟩
    · rw [if_neg hd] at e
      rw [e, hg _ (by exact hinit)]
      exact ⟨rfl, rfl, rfl, fun _ => rfl, fun h => absurd ⟨hsame, hd⟩ h⟩

/-- C17 at a focused window in normal mode with the cursor at (50, 50), moved to (3, 4). -/
theorem setCursorPos_focused_witness :
    (world0._glfwInitialized = true ∧ world0.glfw.focusedWindow = some world0.window.handle) ∧
    (glfwGetCursorPos glfw3 (glfwSetCursorPos glfw3 world0 3 4) true true =
      (some 3, some 4, glfwSetCursorPos glfw3 world0 3 4) ∧
    (glfwSetCursorPos glfw3 world0 3 4).window =
      { world0.window with cursorPosX := 3, cursorPosY := 4 } ∧
    (glfwSetCursorPos glfw3 world0 3 4).glfw = world0.glfw ∧
    ((¬ ((3 : ℚ) = world0.window.cursorPosX ∧ (4 : ℚ) = world0.window.cursorPosY) ∧
        world0.window.cursorMode ≠ glfw3.GLFW_CURSOR_DISABLED) →
      (glfwSetCursorPos glfw3 world0 3 4).trace =
        world0.trace ++ [Event.platformSetCursorPos world0.window.handle 3 4]) ∧
    (¬ (¬ ((3 : ℚ) = world0.window.cursorPosX ∧ (4 : ℚ) = world0.window.cursorPosY) ∧
        world0.window.cursorMode ≠ glfw3.GLFW_CURSOR_DISABLED) →
      (glfwSetCursorPos glfw3 world0 3 4).trace = world0.trace)) :=
  ⟨⟨rfl, rfl⟩, setCursorPos_focused glfw3 world0 rfl rfl 3 4⟩

/-! ## C18: cursor motion outside disabled mode is absolute -/

/-- What `_glfwInputCursorMotion` does when the cursor mode is not disabled. -/
theorem cursorMotion_absolute_eq (H : Header) (s : World)
    (hmode : s.window.cursorMode ≠ H.GLFW_CURSOR_DISABLED) (x y : ℚ) :
    _glfwInputCursorMotion H s x y =
      if s.window.cursorPosX = x ∧ s.window.cursorPosY = y then s
      else
        match s.window.callbacks.cursorPos with
        | some cb =>
          { s with
            window := { s.window with cursorPosX := x, cursorPosY := y }
            trace := s.trace ++ [Event.cursorPos cb x y] }
        | none => { s with window := { s.window with cursorPosX := x, cursorPosY := y } } := by
  unfold _glfwInputCursorMotion
  rw [if_neg hmode]
  by_cases hsame : s.window.cursorPosX = x ∧ s.window.cursorPosY = y
  · rw [if_pos hsame, if_pos hsame]
  · rw [if_neg hsame, if_neg hsame]
    cases hcb : s.window.callbacks.cursorPos <;> simp only [hcb, World.call]

/-- C18. In cursor mode NORMAL or HIDDEN `_glfwInputCursorMotion` takes its inputs as absolute
coordinates: if `(x, y)` is the stored position the world is unchanged (no callback); otherwise
the stored position becomes exactly `(x, y)`, nothing else in the window or the globals changes,
and the registered cursor-position callback is invoked once with `(x, y)`. Reporting the same
`(x, y)` a second time changes nothing, so the callback is invoked at most once. -/
theorem cursor_motion_absolute (H : Header) (hH : H.WF) (s : World)
    (hmode : s.window.cursorMode = H.GLFW_CURSOR_NORMAL ∨
      s.window.cursorMode = H.GLFW_CURSOR_HIDDEN) (x y : ℚ) :
    (s.window.cursorPosX = x ∧ s.window.cursorPosY = y → _glfwInputCursorMotion H s x y = s) ∧
    (¬ (s.window.cursorPosX = x ∧ s.window.cursorPosY = y) →
      (_glfwInputCursorMotion H s x y).window =
        { s.window with cursorPosX := x, cursorPosY := y } ∧
      (_glfwInputCursorMotion H s x y).glfw = s.glfw ∧
      (∀ cb, s.window.callbacks.cursorPos = some cb →
        (_glfwInputCursorMotion H s x y).trace = s.trace ++ [Event.cursorPos cb x y]) ∧
      (s.window.callbacks.cursorPos = none →
        (_glfwInputCursorMotion H s x y).trace = s.trace)) ∧
    _glfwInputCursorMotion H (_glfwInputCursorMotion H s x y) x y =
      _glfwInputCursorMotion H s x y := by
  have hnd : H.GLFW_CURSOR_NORMAL ≠ H.GLFW_CURSOR_DISABLED := hH.2.2.2.2.2.2.2.2.2.2.2.1
  have hhd : H.GLFW_CURSOR_HIDDEN ≠ H.GLFW_CURSOR_DISABLED := hH.2.2.2.2.2.2.2.2.2.2.2.2
  have hsd : s.window.cursorMode ≠ H.GLFW_CURSOR_DISABLED := by
    rcases hmode with h | h <;> rw [h] <;> assumption
  have e := cursorMotion_absolute_eq H s hsd x y
  have hsd1 : (_glfwInputCursorMotion H s x y).window.cursorMode ≠ H.GLFW_CURSOR_DISABLED := by
    rw [(cursorMotion_frame H s x y).2.2.1]; exact hsd
  by_cases hsame : s.window.cursorPosX = x ∧ s.window.cursorPosY = y
  · rw [if_pos hsame] at e
    refine ⟨fun _ => e, fun h => absurd hsame h, ?_⟩
    rw [e, e]
  · rw [if_neg hsame] at e
    refine ⟨fun h => absurd h hsame, fun _ => ?_, ?_⟩
    · rw [e]
      cases hcb : s.window.callbacks.cursorPos with
      | none => exact ⟨rfl, rfl, fun cb h => Option.noConfusion h, fun _ => rfl⟩
      | some cb0 =>
        refine ⟨rfl, rfl, ?_, fun h => Option.noConfusion h⟩
        intro cb h
        cases h
        rfl
    · have hpos : (_glfwInputCursorMotion H s x y).window.cursorPosX = x ∧
          (_glfwInputCursorMotion H s x y).window.cursorPosY = y := by
        rw [e]
        cases hcb : s.window.callbacks.cursorPos <;> exact ⟨rfl, rfl⟩
      rw [cursorMotion_absolute_eq H _ hsd1 x y, if_pos hpos]

/-- C18 at a window in normal mode with the cursor at (50, 50), reported at (3, 4). -/
theorem cursor_motion_absolute_witness :
    (glfw3.WF ∧ (world0.window.cursorMode = glfw3.GLFW_CURSOR_NORMAL ∨
      world0.window.cursorMode = glfw3.GLFW_CURSOR_HIDDEN)) ∧
    ((world0.window.cursorPosX = 3 ∧ world0.window.cursorPosY = 4 →
      _glfwInputCursorMotion glfw3 world0 3 4 = world0) ∧
    (¬ (world0.window.cursorPosX = 3 ∧ world0.window.cursorPosY = 4) →
      (_glfwInputCursorMotion glfw3 world0 3 4).window =
        { world0.window with cursorPosX := 3, cursorPosY := 4 } ∧
      (_glfwInputCursorMotion glfw3 world0 3 4).glfw = world0.glfw ∧
      (∀ cb, world0.window.callbacks.cursorPos = some cb →
        (_glfwInputCursorMotion glfw3 world0 3 4).trace =
          world0.trace ++ [Event.cursorPos cb 3 4]) ∧
      (world0.window.callbacks.cursorPos = none →
        (_glfwInputCursorMotion glfw3 world0 3 4).trace = world0.trace)) ∧
    _glfwInputCursorMotion glfw3 (_glfwInputCursorMotion glfw3 world0 3 4) 3 4 =
      _glfwInputCursorMotion glfw3 world0 3 4) :=
  ⟨⟨by decide, Or.inl rfl⟩, cursor_motion_absolute glfw3 (by decide) world0 (Or.inl rfl) 3 4⟩

/-! ## C19: index safety of key dispatch -/

/-- C19. For a key event with action press or release, `_glfwInputKey` reads outside the key
table exactly when the action is `GLFW_RELEASE` and the key is outside `[0, KEY_LAST]`: the test
of line 130 reads `window->key[key]` before the range check of line 133. So the out-of-bounds
branch is reachable, for instance by a release of the unknown key -1 or of key `KEY_LAST + 1`;
for every other key and action all accesses are inside the table. -/
theorem inputKey_out_of_bounds_iff (H : Header) (hH : H.WF) (s : World) (hs : s.WF H)
    (k sc a m : Int) (ha : a = H.GLFW_PRESS ∨ a = H.GLFW_RELEASE) :
    _glfwInputKey H s k sc a m = none ↔
      (a = H.GLFW_RELEASE ∧ (k < 0 ∨ H.GLFW_KEY_LAST < k)) := by
  obtain ⟨t1, -⟩ := inputKey_spec H hH s hs k sc a m ha
  constructor
  · intro hnone
    by_contra hc
    have hsafe : a = H.GLFW_RELEASE → 0 ≤ k ∧ k ≤ H.GLFW_KEY_LAST := by
      intro har
      by_contra hr
      exact hc ⟨har, by omega⟩
    obtain ⟨s1, e1⟩ := t1 hsafe
    rw [e1] at hnone
    exact Option.noConfusion hnone
  · rintro ⟨har, hk⟩
    subst har
    exact inputKey_release_fault H s k sc m (readAt_key_out_of_range H s hs k hk)

/-- C19 at the key 349 (`KEY_LAST + 1`) of a fresh window, released. -/
theorem inputKey_out_of_bounds_iff_witness :
    (glfw3.WF ∧ world0.WF glfw3 ∧
      (glfw3.GLFW_RELEASE = glfw3.GLFW_PRESS ∨ glfw3.GLFW_RELEASE = glfw3.GLFW_RELEASE)) ∧
    (_glfwInputKey glfw3 world0 349 0 glfw3.GLFW_RELEASE 0 = none ↔
      (glfw3.GLFW_RELEASE = glfw3.GLFW_RELEASE ∧ ((349 : Int) < 0 ∨ glfw3.GLFW_KEY_LAST < 349))) :=
  ⟨⟨by decide, by decide, Or.inr rfl⟩,
    inputKey_out_of_bounds_iff glfw3 (by decide) world0 (by decide) 349 0 glfw3.GLFW_RELEASE 0
      (Or.inr rfl)⟩

/-- The failing input of C19 evaluated: a release of key 349 or of key -1 reads outside the
349-slot table. -/
theorem inputKey_out_of_bounds_examples :
    readAt world0.window.key 349 = none ∧
    _glfwInputKey glfw3 world0 349 0 glfw3.GLFW_RELEASE 0 = none ∧
    _glfwInputKey glfw3 world0 (-1) 0 glfw3.GLFW_RELEASE 0 = none := by
  decide

/-! ## C20: events on a latched key -/

/-- C20. With sticky keys enabled and an in-range key `k` whose slot holds `_GLFW_STICK`: a
release event leaves the window unchanged (the slot stays `_GLFW_STICK`) and invokes the
registered key callback with `GLFW_RELEASE`; a press event sets the slot to `GLFW_PRESS` and
invokes the registered key callback with `GLFW_PRESS`, not `GLFW_REPEAT`. -/
theorem latched_key_events (H : Header) (hH : H.WF) (s : World)
    (hsticky : s.window.stickyKeys ≠ 0) (k sc m : Int)
    (h0 : 0 ≤ k) (h1 : k ≤ H.GLFW_KEY_LAST)
    (hv : readAt s.window.key k = some _GLFW_STICK) :
    (∃ s1, _glfwInputKey H s k sc H.GLFW_RELEASE m = some s1 ∧
      readAt s1.window.key k = some _GLFW_STICK ∧ s1.window = s.window ∧
      (∀ cb, s.window.callbacks.key = some cb →
        s1.trace = s.trace ++ [Event.key cb k sc H.GLFW_RELEASE m])) ∧
    (∃ s1, _glfwInputKey H s k sc H.GLFW_PRESS m = some s1 ∧
      readAt s1.window.key k = some H.GLFW_PRESS ∧
      (∀ cb, s.window.callbacks.key = some cb →
        s1.trace = s.trace ++ [Event.key cb k sc H.GLFW_PRESS m])) := by
  have hrs : H.GLFW_RELEASE ≠ _GLFW_STICK := hH.2.2.2.2.2.1
  have hps : H.GLFW_PRESS ≠ _GLFW_STICK := hH.2.2.2.2.2.2.1
  have hb := readAt_bounds _ _ _ hv
  refine ⟨?_, ?_⟩
  · have e := inputKey_release H hH s k sc m _GLFW_STICK h0 h1 hv (fun h => hrs h.symm)
    rw [if_pos hsticky, set_of_readAt _ _ _ hv] at e
    refine ⟨_, e, ?_, callKey_window _ _ _ _ _, ?_⟩
    · rw [callKey_window]; exact hv
    · intro cb hcb
      exact callKey_trace_some _ cb _ _ _ _ hcb
  · have e := inputKey_press H hH s k sc m _GLFW_STICK h0 h1 hv
    rw [if_neg (fun h => hps h.symm)] at e
    refine ⟨_, e, ?_, ?_⟩
    · rw [callKey_window]; exact readAt_set_same _ _ _ h0 hb.2
    · intro cb hcb
      exact callKey_trace_some _ cb _ _ _ _ hcb

/-- C20 at the latched key 65 of a window with sticky keys on. -/
theorem latched_key_events_witness :
    (glfw3.WF ∧ worldLatched.window.stickyKeys ≠ 0 ∧ (0 : Int) ≤ 65 ∧
      (65 : Int) ≤ glfw3.GLFW_KEY_LAST ∧
      readAt worldLatched.window.key 65 = some _GLFW_STICK) ∧
    ((∃ s1, _glfwInputKey glfw3 worldLatched 65 38 glfw3.GLFW_RELEASE 0 = some s1 ∧
      readAt s1.window.key 65 = some _GLFW_STICK ∧ s1.window = worldLatched.window ∧
      (∀ cb, worldLatched.window.callbacks.key = some cb →
        s1.trace = worldLatched.trace ++ [Event.key cb 65 38 glfw3.GLFW_RELEASE 0])) ∧
    (∃ s1, _glfwInputKey glfw3 worldLatched 65 38 glfw3.GLFW_PRESS 0 = some s1 ∧
      readAt s1.window.key 65 = some glfw3.GLFW_PRESS ∧
      (∀ cb, worldLatched.window.callbacks.key = some cb →
        s1.trace = worldLatched.trace ++ [Event.key cb 65 38 glfw3.GLFW_PRESS 0]))) :=
  ⟨⟨by decide, by decide, by decide, by decide, by decide⟩,
    latched_key_events glfw3 (by decide) worldLatched (by decide) 65 38 0 (by decide)
      (by decide) (by decide)⟩


end GlfwInput
